import Mathlib

/-!
# h5pp: property resolution and marshalling

A shallow embedding of `h5ppScan.h` (`getDatasetProperties_read`,
`getDatasetProperties_bootstrap`, `getDatasetProperties_write`) and of the parts of
`h5ppFile.h` that stage and reconstruct Eigen matrices and decide extensibility.

The HDF5 library is the entry-store backend.  A file is modelled by the datasets it
holds, a handle by the object it refers to, and every function of the embedding returns,
next to its result, the sequence of backend calls it issued.
-/

namespace h5pp

/-! ## The HDF5 objects the code talks to -/

/-- Storage layout of a dataset, `H5D_layout_t` of the HDF5 C API. -/
inductive H5D_layout_t where
  | H5D_COMPACT
  | H5D_CONTIGUOUS
  | H5D_CHUNKED
  deriving DecidableEq, Repr

/-- The marker of an unbounded maximum dimension, `H5S_UNLIMITED`: an `hsize_t` with all
64 bits set. -/
def H5S_UNLIMITED : Nat := 2 ^ 64 - 1

/-- Datatype classes, `H5T_class_t`. -/
inductive H5T_class_t where
  | H5T_INTEGER
  | H5T_FLOAT
  | H5T_STRING
  | H5T_COMPOUND
  deriving DecidableEq, Repr

/-- An HDF5 datatype as far as the code looks at it: its class and its size in bytes
(`H5Tget_size`).  A handle `hid::h5t` is modelled by the datatype it refers to. -/
structure H5T where
  cls : H5T_class_t
  size : Nat
  deriving DecidableEq, Repr

/-- A dataspace: current and maximum extent.  Its rank (`H5Sget_simple_extent_ndims`) is
the length of `dims`; a scalar dataspace has rank 0. -/
structure H5S where
  dims : List Nat
  maxDims : List Nat
  deriving DecidableEq, Repr

/-- A dataset creation property list: layout, chunk shape and deflate level. -/
structure H5P where
  layout : H5D_layout_t
  chunk : List Nat
  deflate : Nat
  deriving DecidableEq, Repr

/-- An attribute as the file holds it: its datatype, its dataspace and the bytes it
takes. -/
structure H5A where
  dataType : H5T
  space : H5S
  storageSize : Nat
  deriving DecidableEq, Repr

/-- A dataset as the file holds it, with the attributes attached to it, by name. -/
structure H5D where
  dataType : H5T
  space : H5S
  storageSize : Nat
  layout : H5D_layout_t
  chunk : List Nat
  attributes : List (String × H5A) := []
  deriving DecidableEq, Repr

/-- An open file (`hid::h5f`): the dataset each name resolves to, if any. -/
abbrev H5F := String → Option H5D

/-- `H5Sget_simple_extent_ndims`. -/
def H5Sget_simple_extent_ndims (space : H5S) : Nat := space.dims.length

/-- `H5Sget_simple_extent_npoints`: the number of elements, 1 for a scalar dataspace. -/
def H5Sget_simple_extent_npoints (space : H5S) : Nat := space.dims.prod

/-- Writing `vals` over the front of the caller's buffer `buf`, as the HDF5 query calls
that fill a caller-supplied array do: entries of `buf` past `vals` keep their value. -/
def fillBuffer (buf vals : List Nat) : List Nat :=
  (vals.take buf.length) ++ buf.drop vals.length

/-- `H5Sget_simple_extent_dims(space, dims, nullptr)`: the current extent written into the
caller's buffer. -/
def H5Sget_simple_extent_dims (space : H5S) (buf : List Nat) : List Nat :=
  fillBuffer buf space.dims

/-- `H5Dget_create_plist`. -/
def H5Dget_create_plist (d : H5D) : H5P :=
  { layout := d.layout, chunk := d.chunk, deflate := 0 }

/-- `H5Pget_chunk(plist, max_ndims, dims)`: at most `max_ndims` chunk dimensions written
into the caller's buffer. -/
def H5Pget_chunk (plist : H5P) (max_ndims : Nat) (buf : List Nat) : List Nat :=
  fillBuffer buf (plist.chunk.take max_ndims)

/-! ## Backend calls, errors and outcomes -/

/-- The backend calls the embedded functions issue, by name.  The helpers of
`h5ppHdf5.h` and the two calls of `h5pp::Counter::ActiveFileCounter` count as backend
calls. -/
inductive H5Call where
  | checkIfLinkExists
  | checkIfDatasetExists
  | openObject
  | H5Dget_type
  | H5Dget_space
  | H5Sget_simple_extent_ndims
  | H5Sget_simple_extent_dims
  | H5Sget_simple_extent_npoints
  | H5Dget_storage_size
  | H5Dget_create_plist
  | H5Pget_layout
  | H5Pget_chunk
  | checkEqualTypesRecursive
  | getMaxDimensions
  | H5Pcreate
  | setDatasetCreationPropertyLayout
  | setDatasetCreationPropertyCompression
  | setDataSpaceExtent
  | H5Fopen
  | H5Fclose
  | openLink
  | closeLink
  | H5Sclose
  | H5Dclose
  | H5Tclose
  | createDatasetLink
  | setExtentDataset
  | select_hyperslab
  | H5Dwrite
  | H5LTread_dataset
  | checkIfAttributeExists
  | H5Acreate
  | H5Awrite
  | H5Aclose
  | H5Aopen_name
  | H5Iget_type
  | H5Aget_type
  | H5Aget_space
  | H5Aget_storage_size
  | incrementCounter
  | decrementCounter
  deriving DecidableEq, Repr

/-- Whether a backend call changes a dataset of the file: creating it, resizing it or
writing its elements. -/
def H5Call.modifiesEntry : H5Call → Bool
  | .createDatasetLink => true
  | .setExtentDataset => true
  | .H5Dwrite => true
  | _ => false

/-- The exceptions the embedded functions throw. -/
inductive Error where
  /-- Thrown with "Number of dimensions in existing dataset (..) differ from dimensions in
  given data (..)". -/
  | rankMismatch (existing given : Nat)
  /-- Thrown with "Given datatype does not match the type of an existing dataset". -/
  | typeMismatch (dsetName : String)
  /-- Thrown with "Dimension too large. Existing dataset [..] has a maximum size [..] in
  dimension [..], but the given data has size [..]". -/
  | dimensionTooLarge (idx max given : Nat)
  /-- Thrown with "Dimensions not equal. Existing dataset [..] has a maximum size [..] in
  dimension [..], but the given data has size [..]". -/
  | dimensionsNotEqual (idx max given : Nat)
  /-- The object could not be opened. -/
  | openFailed (name : String)
  /-- Undefined behaviour rather than an exception: an element of a `std::vector` was read
  past its end.  No `catch` block sees it. -/
  | outOfRange
  /-- Any other `std::runtime_error`, with its message. -/
  | runtime (what : String)
  /-- A `std::logic_error`, with its message. -/
  | logic_error (what : String)
  /-- Undefined behaviour rather than an exception: a signed integer was incremented past
  its largest value. -/
  | signedOverflow
  deriving DecidableEq, Repr

/-- The message `ex.what()` of an exception. -/
def Error.what : Error → String
  | .rankMismatch _ _ => "Number of dimensions in existing dataset differ from dimensions in given data"
  | .typeMismatch _ => "Given datatype does not match the type of an existing dataset"
  | .dimensionTooLarge _ _ _ => "Dimension too large"
  | .dimensionsNotEqual _ _ _ => "Dimensions not equal"
  | .openFailed _ => "Failed to open link"
  | .outOfRange => "out of range"
  | .runtime what => what
  | .logic_error what => what
  | .signedOverflow => "signed overflow"

/-- What a call of an embedded function amounts to: the backend calls issued, in order,
and the value returned or the exception thrown. -/
structure Outcome (α : Type) where
  calls : List H5Call
  result : Except Error α

namespace Outcome

/-- Returning without touching the backend. -/
def ret {α : Type} (a : α) : Outcome α := ⟨[], .ok a⟩

/-- Sequencing: an exception ends the run and keeps the calls issued so far. -/
def andThen {α β : Type} (x : Outcome α) (f : α → Outcome β) : Outcome β :=
  match x.result with
  | .ok a => ⟨x.calls ++ (f a).calls, (f a).result⟩
  | .error e => ⟨x.calls, .error e⟩

instance : Monad Outcome where
  pure := ret
  bind := andThen

/-- One backend call that answers `a`. -/
def call {α : Type} (c : H5Call) (a : α) : Outcome α := ⟨[c], .ok a⟩

/-- Throwing `e`. -/
def raise {α : Type} (e : Error) : Outcome α := ⟨[], .error e⟩

end Outcome

/-! ## `h5ppScan.h` -/

/-- The record `h5pp::DatasetProperties` as `h5ppScan.h` fills it: every member is
optional, a handle is the object it refers to, and a property list left at `H5P_DEFAULT`
is `none`. -/
structure DatasetProperties where
  dataSet : Option H5D := none
  dataType : Option H5T := none
  dataSpace : Option H5S := none
  memSpace : Option H5S := none
  plist_dset_create : Option H5P := none
  plist_dset_access : Option H5P := none
  dsetName : Option String := none
  dsetExists : Option Bool := none
  layout : Option H5D_layout_t := none
  ndims : Option Nat := none
  dims : Option (List Nat) := none
  chunkDims : Option (List Nat) := none
  size : Option Nat := none
  bytes : Option Nat := none
  compressionLevel : Option Nat := none
  deriving DecidableEq, Repr

/-- What the templates of `h5ppUtils.h` answer for the container `data` of type
`DataType`; each field is named after the helper it stands for.  `h5ppFile.h` spells the
same helpers `h5pp::Utils::getSize`, `h5pp::Utils::getRank`, `h5pp::Utils::getDimensions`,
`h5pp::Utils::getByteSize` (here `getBytesTotal`) and `h5pp::Type::getDataType` (here
`getH5Type`). -/
structure Container where
  /-- The value of `h5pp::utils::getRank<DataType>()`. -/
  getRank : Nat
  /-- The value of `h5pp::utils::getDimensions(data)`. -/
  getDimensions : List Nat
  /-- The value of `h5pp::utils::getSize(data)`. -/
  getSize : Nat
  /-- The value of `h5pp::utils::getBytesTotal(data)`. -/
  getBytesTotal : Nat
  /-- The value of `h5pp::utils::getH5Type<DataType>()`. -/
  getH5Type : H5T
  /-- The call `h5pp::utils::setStringSize(data, dataType)`: the size it returns and the
  datatype it leaves behind ("This only affects strings"). -/
  setStringSize : H5T → Nat × H5T
  /-- The value of `h5pp::Utils::getChunkDimensions(data)`, which `h5ppFile.h` asks for. -/
  getChunkDimensions : List Nat

/-- The helpers of `h5ppUtils.h` and `h5ppHdf5.h` that do not depend on the container and
whose code is not part of the sources: parameters of the embedding.  The ones that work on
a handle answer the object the handle refers to afterwards. -/
structure Helpers where
  checkEqualTypesRecursive : H5T → H5T → Bool
  decideLayout : Nat → Option H5D_layout_t → H5D_layout_t
  getDefaultChunkDimensions : Nat → List Nat → Option (List Nat) → List Nat
  getMemSpace : Nat → Nat → List Nat → H5S
  getDataSpace : Nat → Nat → List Nat → H5D_layout_t → H5S
  setDatasetCreationPropertyLayout : DatasetProperties → H5P
  setDatasetCreationPropertyCompression : DatasetProperties → H5P
  setDataSpaceExtent : DatasetProperties → H5S

namespace hdf5

/-- Modelled from the spec: `h5pp::hdf5::checkIfLinkExists` (`h5ppHdf5.h` is not part of
the sources).  Existence is "resolved once per operation, never re-queried
mid-operation": a value the caller already holds is returned as it is, otherwise the file
is asked whether the name resolves to an entry (`entryExists(container, name)`). -/
def checkIfLinkExists (file : H5F) (linkName : String) (linkExists : Option Bool) :
    Outcome Bool :=
  match linkExists with
  | some known => Outcome.ret known
  | none => Outcome.call .checkIfLinkExists (file linkName).isSome

/-- Modelled from the spec: `h5pp::hdf5::checkIfDatasetExists` (`h5ppHdf5.h` is not part
of the sources), the same resolution of existence as `checkIfLinkExists`. -/
def checkIfDatasetExists (file : H5F) (dsetName : String) (dsetExists : Option Bool) :
    Outcome Bool :=
  match dsetExists with
  | some known => Outcome.ret known
  | none => Outcome.call .checkIfDatasetExists (file dsetName).isSome

/-- Modelled from the spec: `h5pp::hdf5::openObject` (`openEntry(container, name) ->
handle | Error`); the handle is the dataset the name resolves to. -/
def openObject (file : H5F) (name : String) : Outcome H5D :=
  match file name with
  | some d => Outcome.call .openObject d
  | none => ⟨[.openObject], .error (.openFailed name)⟩

/-- Modelled from the spec: `h5pp::hdf5::getMaxDimensions`, the `maxExtent` of
`queryShape(entry) -> (rank, extent, maxExtent)`. -/
def getMaxDimensions (dataSet : H5D) : Outcome (List Nat) :=
  Outcome.call .getMaxDimensions dataSet.space.maxDims

end hdf5

namespace scan

/-- The function `h5pp::scan::getDatasetProperties_read`: the properties of an existing
dataset, asked from the file. -/
def getDatasetProperties_read (file : H5F) (dsetName : String) (dsetExists : Option Bool) :
    Outcome DatasetProperties := do
  let dsetProps : DatasetProperties := {}
  let dsetProps := { dsetProps with dsetName := some dsetName }
  let dsetExists ← hdf5.checkIfDatasetExists file dsetName dsetExists
  let dsetProps := { dsetProps with dsetExists := some dsetExists }
  if dsetExists then
    let dataSet ← hdf5.openObject file dsetName
    let dataType ← Outcome.call .H5Dget_type dataSet.dataType
    let dataSpace ← Outcome.call .H5Dget_space dataSet.space
    let memSpace ← Outcome.call .H5Dget_space dataSet.space
    let rank ← Outcome.call .H5Sget_simple_extent_ndims (H5Sget_simple_extent_ndims dataSpace)
    let ndims := max 1 rank
    let dims := List.replicate ndims 0
    let dims ← Outcome.call .H5Sget_simple_extent_dims (H5Sget_simple_extent_dims dataSpace dims)
    let size ← Outcome.call .H5Sget_simple_extent_npoints (H5Sget_simple_extent_npoints dataSpace)
    let bytes ← Outcome.call .H5Dget_storage_size dataSet.storageSize
    -- the layout is read from the file
    let plist_dset_create ← Outcome.call .H5Dget_create_plist (H5Dget_create_plist dataSet)
    let layout ← Outcome.call .H5Pget_layout plist_dset_create.layout
    let chunkDims := dims
    let chunkDims ←
      (if layout = .H5D_CHUNKED then
        Outcome.call .H5Pget_chunk (H5Pget_chunk plist_dset_create ndims chunkDims)
      else Outcome.ret chunkDims)
    return { dsetProps with
      dataSet := some dataSet
      dataType := some dataType
      dataSpace := some dataSpace
      memSpace := some memSpace
      ndims := some ndims
      dims := some dims
      size := some size
      bytes := some bytes
      plist_dset_create := some plist_dset_create
      layout := some layout
      chunkDims := some chunkDims }
  else
    -- only logged: the throw of the source is commented out
    return dsetProps

/-- The function `h5pp::scan::getDatasetProperties_bootstrap`: the properties of a dataset
to be created, inferred from the container. -/
def getDatasetProperties_bootstrap (h : Helpers) (file : H5F) (dsetName : String)
    (data : Container) (dsetExists : Option Bool) (desiredLayout : Option H5D_layout_t)
    (desiredChunkDims : Option (List Nat)) (desiredCompressionLevel : Option Nat) :
    Outcome DatasetProperties := do
  let dataProps : DatasetProperties := {}
  let dataProps := { dataProps with dsetName := some dsetName }
  let dsetExists ← hdf5.checkIfLinkExists file dsetName dsetExists
  let dataProps := { dataProps with dsetExists := some dsetExists }
  let ndims := data.getRank
  let dims := data.getDimensions
  let bytes := data.getBytesTotal
  let (size, dataType) := data.setStringSize data.getH5Type
  let layout := h.decideLayout bytes desiredLayout
  let chunkDims := h.getDefaultChunkDimensions size dims desiredChunkDims
  let memSpace := h.getMemSpace size ndims dims
  let dataSpace := h.getDataSpace size ndims dims layout
  let compressionLevel :=
    match desiredCompressionLevel with
    | some level => min 9 level
    | none => 0
  let plist_dset_create ← Outcome.call .H5Pcreate
    ({ layout := .H5D_CONTIGUOUS, chunk := [], deflate := 0 } : H5P)
  let dataProps := { dataProps with
    ndims := some ndims
    dims := some dims
    size := some size
    bytes := some bytes
    dataType := some dataType
    layout := some layout
    chunkDims := some chunkDims
    memSpace := some memSpace
    dataSpace := some dataSpace
    compressionLevel := some compressionLevel
    plist_dset_create := some plist_dset_create }
  let plist_dset_create ← Outcome.call .setDatasetCreationPropertyLayout
    (h.setDatasetCreationPropertyLayout dataProps)
  let dataProps := { dataProps with plist_dset_create := some plist_dset_create }
  let plist_dset_create ← Outcome.call .setDatasetCreationPropertyCompression
    (h.setDatasetCreationPropertyCompression dataProps)
  let dataProps := { dataProps with plist_dset_create := some plist_dset_create }
  let dataSpace ← Outcome.call .setDataSpaceExtent (h.setDataSpaceExtent dataProps)
  let dataProps := { dataProps with dataSpace := some dataSpace }
  return dataProps

/-- The sanity checks on sizes at the end of the overwrite branch of
`getDatasetProperties_write`: the body of the loop `for(int idx = 0; idx <
dsetProps.ndims.value(); idx++)`, run for the indices `idx, idx + 1, ..` that are left.
The conditions are evaluated left to right, as `and` does. -/
def sizeChecks (layout : H5D_layout_t) (dsetMaxDims dims : List Nat) :
    (remaining : Nat) → (idx : Nat) → Except Error Unit
  | 0, _ => .ok ()
  | remaining + 1, idx =>
    match dsetMaxDims[idx]? with
    | none => .error .outOfRange
    | some maxDim =>
      if maxDim ≠ H5S_UNLIMITED then
        match dims[idx]? with
        | none => .error .outOfRange
        | some dim =>
          if layout = .H5D_CHUNKED ∧ dim > maxDim then
            .error (.dimensionTooLarge idx maxDim dim)
          else if layout ≠ .H5D_CHUNKED ∧ dim ≠ maxDim then
            .error (.dimensionsNotEqual idx maxDim dim)
          else sizeChecks layout dsetMaxDims dims remaining (idx + 1)
      else sizeChecks layout dsetMaxDims dims remaining (idx + 1)

/-- The function `h5pp::scan::getDatasetProperties_write`: the properties with which the
container is written, reconciled with the dataset when it exists. -/
def getDatasetProperties_write (h : Helpers) (file : H5F) (dsetName : String)
    (data : Container) (dsetExists : Option Bool) (desiredLayout : Option H5D_layout_t)
    (desiredChunkDims : Option (List Nat)) (desiredCompressionLevel : Option Nat) :
    Outcome DatasetProperties := do
  let dsetExists ←
    (match dsetExists with
      | none => hdf5.checkIfLinkExists file dsetName dsetExists
      | some known => Outcome.ret known)
  if dsetExists then
    -- overwrite mode
    let dsetProps ← getDatasetProperties_read file dsetName (some dsetExists)
    if dsetProps.ndims ≠ some data.getRank then
      Outcome.raise (.rankMismatch (dsetProps.ndims.getD 0) data.getRank)
    else
    let equalTypes ← Outcome.call .checkEqualTypesRecursive
      (match dsetProps.dataType with
        | some t => h.checkEqualTypesRecursive t data.getH5Type
        | none => false)
    if !equalTypes then
      Outcome.raise (.typeMismatch (dsetProps.dsetName.getD ""))
    else
    let dataProps : DatasetProperties := {}
    -- properties that are immutable on overwrites
    let dataProps := { dataProps with
      dataSet := dsetProps.dataSet
      dsetName := dsetProps.dsetName
      dsetExists := dsetProps.dsetExists
      layout := dsetProps.layout
      dataType := some data.getH5Type
      ndims := some data.getRank
      chunkDims := dsetProps.chunkDims
      plist_dset_access := dsetProps.plist_dset_create }
    -- the rest is inferred from the data
    let dims := data.getDimensions
    let (size, dataType) := data.setStringSize data.getH5Type
    let bytes := data.getBytesTotal
    match dataProps.layout, dataProps.ndims, dsetProps.dataSet, dsetProps.ndims with
    | some layout, some ndims, some dataSet, some dsetNdims =>
      let dataProps := { dataProps with
        dims := some dims
        size := some size
        dataType := some dataType
        bytes := some bytes
        memSpace := some (h.getMemSpace size ndims dims)
        dataSpace := some (h.getDataSpace size ndims dims layout)
        compressionLevel := some 0 }
      let dataSpace ← Outcome.call .setDataSpaceExtent (h.setDataSpaceExtent dataProps)
      let dataProps := { dataProps with dataSpace := some dataSpace }
      -- sanity checks on sizes
      let dsetMaxDims ← hdf5.getMaxDimensions dataSet
      match sizeChecks layout dsetMaxDims dims dsetNdims 0 with
      | .error e => Outcome.raise e
      | .ok () => return dataProps
    | _, _, _, _ => Outcome.raise (.runtime "bad optional access")
  else
    -- write-from-scratch mode
    getDatasetProperties_bootstrap h file dsetName data (some dsetExists) desiredLayout
      desiredChunkDims desiredCompressionLevel

end scan

namespace hdf5

end hdf5

/-! ## Eigen matrices and `h5ppTextra.h` -/

namespace Eigen

/-- An `Eigen::Matrix<Scalar, Dynamic, Dynamic, Options>`: its storage order, its shape and
`data()`, the coefficients in storage order. -/
structure Matrix (α : Type) where
  IsRowMajor : Bool
  rows : Nat
  cols : Nat
  data : List α

/-- The coefficient `m(i, j)` of Eigen: element `i * cols + j` of the storage of a
row-major matrix, element `i + j * rows` of the storage of a column-major one. -/
def Matrix.coeff {α : Type} (m : Matrix α) (i j : Nat) : Option α :=
  if m.IsRowMajor then m.data[i * m.cols + j]? else m.data[i + j * m.rows]?

/-- The row and column whose coefficient a matrix of the given storage order and shape
keeps at position `k` of its storage. -/
def Matrix.position (IsRowMajor : Bool) (rows cols k : Nat) : Nat × Nat :=
  if IsRowMajor then (k / cols, k % cols) else (k % rows, k / rows)

/-- Eigen's assignment `dst = src` to a dynamic matrix of storage order `IsRowMajor`: `dst`
takes the shape of `src` and `dst(i, j) = src(i, j)` for every coefficient. -/
def Matrix.assign {α : Type} (IsRowMajor : Bool) (src : Matrix α) : Matrix α :=
  { IsRowMajor := IsRowMajor
    rows := src.rows
    cols := src.cols
    data := (List.range (src.rows * src.cols)).filterMap fun k =>
      src.coeff (Matrix.position IsRowMajor src.rows src.cols k).1
        (Matrix.position IsRowMajor src.rows src.cols k).2 }

/-- The row-major matrix of `rows x cols` coefficients whose storage holds `buffer`: a
matrix after `resize(rows, cols)` and a read of `buffer` into `data()`. -/
def Matrix.ofRowMajorBuffer {α : Type} (rows cols : Nat) (buffer : List α) : Matrix α :=
  { IsRowMajor := true, rows := rows, cols := cols, data := buffer }

end Eigen

namespace Textra

/-- Modelled from the spec: `Textra::to_RowMajor` (`h5ppTextra.h` is not part of the
sources).  A column-major block is "transposed/relabelled to row-major before staging":
the result is the row-major matrix with the same coefficients. -/
def to_RowMajor {α : Type} (matrix : Eigen.Matrix α) : Eigen.Matrix α :=
  Eigen.Matrix.assign true matrix

end Textra

/-! ## `h5ppFile.h` -/

/-- The enumeration `h5pp::AccessMode`. -/
inductive AccessMode where
  | READONLY
  | READWRITE
  deriving DecidableEq, Repr

/-- The enumeration `h5pp::CreateMode`. -/
inductive CreateMode where
  | OPEN
  | TRUNCATE
  | RENAME
  deriving DecidableEq, Repr

/-- The members of `h5pp::File` that the embedded member functions read.  `retval` is the
member `mutable herr_t retval = 0`, in which the status of backend calls is kept. -/
structure File where
  accessMode : AccessMode := .READWRITE
  createMode : CreateMode := .RENAME
  defaultExtendable : Bool := false
  compressionLevel : Nat := 0
  hasInitialized : Bool := false
  retval : Int := 0
  deriving DecidableEq, Repr

/-- The answers of the HDF5 library that do not follow from the content of the file. -/
structure Hdf5 where
  /-- The file that `H5Fopen(FilePath, ..)` opens, `none` when the call fails. -/
  H5Fopen : Option H5F
  /-- Whether `H5Fclose` succeeds. -/
  H5Fclose : Bool
  /-- Whether `H5Dwrite` succeeds, when that does not depend on the buffer it is handed. -/
  H5Dwrite : Bool

/-- Running `body` in a `try` block whose `catch(std::exception &ex)` runs `handler`.  A
read past the end of a vector throws nothing, so the handler does not run for it. -/
def Outcome.tryCatch {α : Type} (body : Outcome α) (handler : Error → Outcome α) :
    Outcome α :=
  match body.result with
  | .ok _ => body
  | .error .outOfRange => body
  | .error ex => ⟨body.calls ++ (handler ex).calls, (handler ex).result⟩

/-- The conversion of an `hsize_t` to `int`: the low 32 bits, read as a two's complement
number. -/
def hsize_t_to_int (x : Nat) : Int :=
  if x % 2 ^ 32 < 2 ^ 31 then (x % 2 ^ 32 : Nat) else (x % 2 ^ 32 : Nat) - 2 ^ 32

namespace Hdf5

/-- Modelled from the spec: `h5pp::Hdf5::openLink` (`openEntry(container, name) -> handle
| Error`); the handle is the dataset the name resolves to. -/
def openLink (file : H5F) (name : String) : Outcome H5D :=
  match file name with
  | some d => Outcome.call .openLink d
  | none => ⟨[.openLink], .error (.openFailed name)⟩

/-- Modelled from the spec: `h5pp::Hdf5::checkIfLinkExistsRecursively`
(`entryExists(container, name) -> bool`). -/
def checkIfLinkExistsRecursively (file : H5F) (name : String) : Outcome Bool :=
  Outcome.call .checkIfLinkExists (file name).isSome

end Hdf5

namespace File

/-- The record `h5pp::DatasetProperties` as `h5ppFile.h` fills it, without its two
dataspace handles `memSpace` and `dataSpace`, which only the backend reads. -/
structure DatasetProperties where
  linkExists : Bool
  extendable : Bool
  dataType : H5T
  size : Nat
  ndims : Nat
  dims : List Nat
  chunkDims : List Nat
  dsetName : String
  compressionLevel : Nat
  deriving DecidableEq, Repr

/-- The member function `File::openFileHandle`. -/
def openFileHandle (self : File) (lib : Hdf5) : Outcome H5F :=
  if self.hasInitialized then
    match self.accessMode, lib.H5Fopen with
    | _, some fileHandle => Outcome.call .H5Fopen fileHandle
    | .READONLY, none =>
      ⟨[.H5Fopen], .error (.runtime
        "Could not open file handle: Failed to open file in read-only mode")⟩
    | .READWRITE, none =>
      ⟨[.H5Fopen], .error (.runtime
        "Could not open file handle: Failed to open file in read-write mode")⟩
  else Outcome.raise (.runtime "Could not open file handle: File hasn't initialized")

/-- The member function `File::closeFileHandle`. -/
def closeFileHandle (lib : Hdf5) : Outcome Unit :=
  if lib.H5Fclose then Outcome.call .H5Fclose ()
  else ⟨[.H5Fclose], .error (.runtime "Failed to close file handle")⟩

/-- The member function `File::linkExists`. -/
def linkExists (self : File) (lib : Hdf5) (link : String) : Outcome Bool := do
  let file ← self.openFileHandle lib
  let found ← Hdf5.checkIfLinkExistsRecursively file link
  closeFileHandle lib
  return found

/-- The member function `File::determineIfExtendable`.  `max_size_contiguous` is the
constant `h5pp::Constants::max_size_contiguous` of `h5ppConstants.h`. -/
def determineIfExtendable (self : File) (lib : Hdf5) (max_size_contiguous : Nat)
    (data : Container) (dsetName : String) (userPrefersExtendable : Option Bool)
    (dsetExists : Option Bool) : Outcome Bool := do
  let size := data.getSize
  let rank := data.getRank
  let datatype := data.getH5Type
  let isLarge : Bool := decide (size * datatype.size % 2 ^ 64 ≥ max_size_contiguous)
  let dsetExists ←
    (match dsetExists with
      | none => self.linkExists lib dsetName
      | some known => Outcome.ret known)
  Outcome.call .H5Tclose ()
  let isUnlimited ←
    (if dsetExists then do
      let file ← self.openFileHandle lib
      let dataSet ← Hdf5.openLink file dsetName
      let dataSpace ← Outcome.call .H5Dget_space dataSet.space
      let ndims ← Outcome.call .H5Sget_simple_extent_ndims
        (H5Sget_simple_extent_ndims dataSpace)
      let old_dims := List.replicate ndims 0
      let max_dims := List.replicate ndims 0
      let (old_dims, max_dims) ← Outcome.call .H5Sget_simple_extent_dims
        (fillBuffer old_dims dataSpace.dims, fillBuffer max_dims dataSpace.maxDims)
      let isUnlimited : Bool :=
        old_dims.any (fun i => decide (hsize_t_to_int i < 0))
          || max_dims.any (fun i => decide (hsize_t_to_int i < 0))
      Outcome.call .H5Sclose ()
      Outcome.call .H5Dclose ()
      closeFileHandle lib
      return isUnlimited
    else Outcome.ret false)
  -- a preference that disagrees with an existing dataset is only logged
  if userPrefersExtendable.isSome ∧ ¬ dsetExists then
    return userPrefersExtendable.getD false
  else if dsetExists ∧ isUnlimited then return true
  else if dsetExists ∧ ¬ isUnlimited then return false
  else if ¬ dsetExists ∧ self.defaultExtendable ∧ rank ≥ 1 then return true
  else if ¬ dsetExists ∧ isLarge ∧ rank ≥ 1 then return true
  else return false

/-- The overload `File::writeDataset(const DataType &data, const DatasetProperties &props)`
for a container with a `data()` member.  `buffer` is what `data.data()` points to and
`new_dsetSize` is `h5pp::Utils::getByteSize(data)`.  `H5Dwrite` is the answer of the
backend to the call `H5Dwrite(dataset, props.dataType, props.memSpace, props.dataSpace,
H5P_DEFAULT, data.data())` as it depends on the buffer the call is handed: whether the
call succeeds; left out, it is the answer `lib.H5Dwrite` for every buffer.  The value
returned is the buffer that was handed to `H5Dwrite`. -/
def writeDatasetProps {α : Type} (self : File) (lib : Hdf5) (buffer : List α)
    (new_dsetSize : Nat) (props : DatasetProperties)
    (H5Dwrite : List α → Bool := fun _ => lib.H5Dwrite) : Outcome (List α) := do
  let file ← self.openFileHandle lib
  -- createDatasetLink(file, props)
  (if ¬ props.linkExists then Outcome.call .createDatasetLink () else Outcome.ret ())
  (if props.extendable then Outcome.call .setExtentDataset () else Outcome.ret ())
  -- the dataset of the file, or (`none`) the one that createDatasetLink just made
  let dataset : Option H5D ←
    (match file props.dsetName with
      | some d => Outcome.call .openLink (some d)
      | none =>
        if props.linkExists then ⟨[.openLink], .error (.openFailed props.dsetName)⟩
        else Outcome.call .openLink none)
  Outcome.call .H5Dget_space ()
  Outcome.call .select_hyperslab ()
  let written ← Outcome.tryCatch
    (do
      (if props.linkExists ∧ ¬ props.extendable then do
        let old_dsetSize ← Outcome.call .H5Dget_storage_size
          ((dataset.map (·.storageSize)).getD 0)
        (if old_dsetSize ≠ new_dsetSize then
          Outcome.raise (.runtime "Overwriting non-extendable dataset with different size")
        else Outcome.ret ())
      else Outcome.ret ())
      let retval ← Outcome.call .H5Dwrite (H5Dwrite buffer)
      (if ¬ retval then Outcome.raise (.runtime "Failed to write data to file")
      else Outcome.ret ())
      return buffer)
    (fun ex => do
      Outcome.call .closeLink ()
      closeFileHandle lib
      Outcome.raise
        (.runtime ("Write to file failed [" ++ props.dsetName ++ "]: " ++ ex.what)))
  Outcome.call .closeLink ()
  closeFileHandle lib
  return written

/-- The overload `File::writeDataset(const DataType &data, const std::string &datasetPath,
std::optional<bool> extendable)` for an Eigen matrix `data`, of whose type
`is_eigen_1d` is the value of `tc::is_eigen_1d<DataType>` and for which `info` holds the
answers of the helper templates.  `H5Dwrite` is the answer of the backend to the call
of that name, as in the overload that takes the properties.  The value returned is the
buffer that was handed to `H5Dwrite`. -/
def writeDataset {α : Type} (self : File) (lib : Hdf5) (max_size_contiguous : Nat)
    (is_eigen_1d : Bool) (data : Eigen.Matrix α) (info : Container) (datasetPath : String)
    (extendable : Option Bool) (H5Dwrite : List α → Bool := fun _ => lib.H5Dwrite) :
    Outcome (List α) := do
  if self.accessMode = .READONLY then
    Outcome.raise (.runtime "Attempted to write to read-only file")
  else
  let linkExists ← self.linkExists lib datasetPath
  let extendable ← self.determineIfExtendable lib max_size_contiguous info datasetPath
    extendable (some linkExists)
  let props : DatasetProperties :=
    { linkExists := linkExists
      extendable := extendable
      dataType := info.getH5Type
      size := info.getSize
      ndims := info.getRank
      dims := info.getDimensions
      chunkDims := info.getChunkDimensions
      dsetName := datasetPath
      compressionLevel := self.compressionLevel }
  -- tc::is_eigen_type<DataType>::value holds
  if ¬ is_eigen_1d then
    -- converted to row-major storage order first
    let tempRowm := Textra.to_RowMajor data
    self.writeDatasetProps lib tempRowm.data info.getBytesTotal props H5Dwrite
  else if props.dataType.cls = .H5T_STRING then
    let props := { props with size := (info.setStringSize props.dataType).1 }
    self.writeDatasetProps lib data.data info.getBytesTotal props H5Dwrite
  else
    self.writeDatasetProps lib data.data info.getBytesTotal props H5Dwrite

/-- The function `File::readDataset(DataType &data, const std::string &datasetPath)` for
an Eigen matrix `data` of storage order `IsRowMajor` (the branch
`tc::is_eigen_core<DataType>`).  `H5LTread_dataset` holds the elements that the call of
that name delivers into the destination buffer, `none` when the call fails. -/
def readDataset {α : Type} (self : File) (lib : Hdf5) (H5LTread_dataset : Option (List α))
    (IsRowMajor : Bool) (datasetPath : String) : Outcome (Eigen.Matrix α) := do
  let file ← self.openFileHandle lib
  let data ← Outcome.tryCatch
    (do
      let dataset ← Hdf5.openLink file datasetPath
      let memspace ← Outcome.call .H5Dget_space dataset.space
      let _datatype ← Outcome.call .H5Dget_type dataset.dataType
      let ndims ← Outcome.call .H5Sget_simple_extent_ndims
        (H5Sget_simple_extent_ndims memspace)
      let dims := List.replicate ndims 0
      let dims ← Outcome.call .H5Sget_simple_extent_dims
        (H5Sget_simple_extent_dims memspace dims)
      -- the product of the extents is only logged
      match dims[0]?, dims[1]? with
      | some rows, some cols =>
        if IsRowMajor then
          -- row-major in the file and in the container: no need to swap layout
          let retval ← Outcome.call .H5LTread_dataset H5LTread_dataset
          match retval with
          | none => Outcome.raise (.runtime "Failed to read Eigen Matrix rowmajor dataset")
          | some buffer =>
            Outcome.call .H5Tclose ()
            Outcome.call .closeLink ()
            return Eigen.Matrix.ofRowMajorBuffer rows cols buffer
        else
          -- row-major in the file, column-major in the container: the layout is swapped
          let retval ← Outcome.call .H5LTread_dataset H5LTread_dataset
          match retval with
          | none => Outcome.raise (.runtime "Failed to read Eigen Matrix colmajor dataset")
          | some buffer =>
            let matrixRowmajor := Eigen.Matrix.ofRowMajorBuffer rows cols buffer
            let data := Eigen.Matrix.assign false matrixRowmajor
            Outcome.call .H5Tclose ()
            Outcome.call .closeLink ()
            return data
      | _, _ => Outcome.raise .outOfRange)
    (fun ex => do
      closeFileHandle lib
      Outcome.raise (.runtime ("readDataset failed. Reason: " ++ ex.what)))
  closeFileHandle lib
  return data

end File

/-! ## Handles held open by a run -/

/-- The kinds of handle the embedded functions acquire. -/
inductive HandleKind where
  /-- The container: the file handle of `openFileHandle`. -/
  | file
  /-- An entry: the dataset handle of `openLink`. -/
  | entry
  /-- A shape descriptor: the dataspace handle of `H5Dget_space`. -/
  | space
  /-- A datatype handle of `H5Dget_type`. -/
  | type
  deriving DecidableEq, Repr

/-- The kind of handle a backend call returns to its caller, when it succeeds. -/
def H5Call.acquires : H5Call → Option HandleKind
  | .H5Fopen => some .file
  | .openLink => some .entry
  | .openObject => some .entry
  | .H5Dget_space => some .space
  | .H5Dget_type => some .type
  | _ => none

/-- The kind of handle a backend call releases. -/
def H5Call.releases : H5Call → Option HandleKind
  | .H5Fclose => some .file
  | .closeLink => some .entry
  | .H5Dclose => some .entry
  | .H5Sclose => some .space
  | .H5Tclose => some .type
  | _ => none

/-- The handles open after the backend calls `calls`, each of which succeeded, were issued
with the handles `held` open: a call that acquires a handle adds it, a call that releases
one removes one handle of that kind. -/
def openHandles (held : List HandleKind) : List H5Call → List HandleKind
  | [] => held
  | c :: calls =>
    match c.acquires, c.releases with
    | some k, _ => openHandles (held ++ [k]) calls
    | none, some k => openHandles (held.erase k) calls
    | none, none => openHandles held calls

/-! ## The member `retval` as state -/

/-- What a member function of `File` that assigns members runs on: the object and the
backend calls issued so far. -/
structure Run where
  self : File
  calls : List H5Call
  deriving DecidableEq, Repr

/-- A member function that may assign members of the object, and may throw: the
assignments made before a throw stay. -/
abbrev Member (α : Type) := ExceptT Error (StateM Run) α

/-- An embedded function that assigns no member, run as part of a member function. -/
def Outcome.run {α : Type} (x : Outcome α) : Member α := do
  modify fun s => { s with calls := s.calls ++ x.calls }
  match x.result with
  | .ok a => pure a
  | .error ex => throw ex

/-- Running `body` in a `try` block whose `catch(std::exception &ex)` runs `handler`, for
member functions.  A read past the end of a vector throws nothing, so the handler does not
run for it. -/
def Member.tryCatch {α : Type} (body : Member α) (handler : Error → Member α) : Member α :=
  MonadExcept.tryCatch body fun ex =>
    match ex with
    | .outOfRange => throw ex
    | _ => handler ex

/-- A call of the member function `x` on the object `self`: what it returns or throws, and
the object and the backend calls issued when it ends. -/
def Member.callOn {α : Type} (x : Member α) (self : File) : Except Error α × Run :=
  Id.run ((ExceptT.run x).run { self := self, calls := [] })

/-- Running the member function `x` from the state `s`: what it returns or throws, and the
state it ends in. -/
def Member.exec {α : Type} (x : Member α) (s : Run) : Except Error α × Run :=
  Id.run ((ExceptT.run x).run s)

/-- A member function that leaves the member `compressionLevel` of the object as it was,
whether it returns or throws. -/
structure Member.KeepsLevel {α : Type} (x : Member α) : Prop where
  level_eq : ∀ s : Run, (x.exec s).2.self.compressionLevel = s.self.compressionLevel

namespace File

/-- The types of destination that `File::readDataset` tells apart with `if constexpr`. -/
inductive Destination where
  /-- A matrix, `tc::is_eigen_core<DataType>`, with its `data.IsRowMajor`. -/
  | eigenCore (IsRowMajor : Bool)
  /-- A tensor, `tc::is_eigen_tensor<DataType>()`, with its `DataType::NumDimensions` and
  whether `DataType::Options == Eigen::RowMajor`. -/
  | eigenTensor (NumDimensions : Nat) (IsRowMajor : Bool)
  /-- A `std::vector`. -/
  | stdVector
  /-- A `std::string`. -/
  | stdString
  /-- An arithmetic type. -/
  | arithmetic
  /-- Any other type. -/
  | unknown
  deriving DecidableEq, Repr

/-- The function `File::readDataset(DataType &data, const std::string &datasetPath)` for
every type of destination, as far as the backend calls, the member `retval` and the
exceptions go; the elements read are left out.  `H5LTread_dataset` is the status that the
call of that name returns in this invocation, negative when the read fails.  The two
`assert`s have no effect. -/
def readDatasetAs (lib : Hdf5) (H5LTread_dataset : Int) (dest : Destination)
    (datasetPath : String) : Member Unit := do
  let file ← Outcome.run ((← get).self.openFileHandle lib)
  Member.tryCatch
    (do
    let dataset ← Outcome.run (Hdf5.openLink file datasetPath)
    let memspace ← Outcome.run (Outcome.call .H5Dget_space dataset.space)
    let _datatype ← Outcome.run (Outcome.call .H5Dget_type dataset.dataType)
    let ndims ← Outcome.run (Outcome.call .H5Sget_simple_extent_ndims
      (H5Sget_simple_extent_ndims memspace))
    let dims := List.replicate ndims 0
    let dims ← Outcome.run (Outcome.call .H5Sget_simple_extent_dims
      (H5Sget_simple_extent_dims memspace dims))
    match dest with
    | .eigenCore IsRowMajor =>
      -- resize(dims[0], dims[1])
      if dims.length < 2 then throw Error.outOfRange
      if IsRowMajor then
        let status ← Outcome.run (Outcome.call .H5LTread_dataset H5LTread_dataset)
        modify fun s => { s with self := { s.self with retval := status } }
        if (← get).self.retval < 0 then
          throw (Error.runtime "Failed to read Eigen Matrix rowmajor dataset")
      else
        let status ← Outcome.run (Outcome.call .H5LTread_dataset H5LTread_dataset)
        modify fun s => { s with self := { s.self with retval := status } }
        if (← get).self.retval < 0 then
          throw (Error.runtime "Failed to read Eigen Matrix colmajor dataset")
    | .eigenTensor NumDimensions IsRowMajor =>
      -- std::copy(dims.begin(), dims.end(), eigenDims.begin())
      if NumDimensions < dims.length then throw Error.outOfRange
      if IsRowMajor then
        let status ← Outcome.run (Outcome.call .H5LTread_dataset H5LTread_dataset)
        modify fun s => { s with self := { s.self with retval := status } }
        if (← get).self.retval < 0 then
          throw (Error.runtime "Failed to read Eigen Tensor rowmajor dataset")
      else
        -- the status of the read is dropped
        let _ ← Outcome.run (Outcome.call .H5LTread_dataset H5LTread_dataset)
        if (← get).self.retval < 0 then
          throw (Error.runtime "Failed to read Eigen Tensor colmajor dataset")
    | .stdVector =>
      -- data.resize(dims[0])
      if dims.length < 1 then throw Error.outOfRange
      -- the status of the read is dropped
      let _ ← Outcome.run (Outcome.call .H5LTread_dataset H5LTread_dataset)
      if (← get).self.retval < 0 then
        throw (Error.runtime "Failed to read std::vector dataset")
    | .stdString =>
      let _stringsize ← Outcome.run (Outcome.call .H5Dget_storage_size dataset.storageSize)
      let status ← Outcome.run (Outcome.call .H5LTread_dataset H5LTread_dataset)
      modify fun s => { s with self := { s.self with retval := status } }
      if (← get).self.retval < 0 then
        throw (Error.runtime "Failed to read std::string dataset")
    | .arithmetic =>
      let status ← Outcome.run (Outcome.call .H5LTread_dataset H5LTread_dataset)
      modify fun s => { s with self := { s.self with retval := status } }
      if (← get).self.retval < 0 then
        throw (Error.runtime "Failed to read arithmetic type dataset")
    | .unknown =>
      throw (Error.runtime "Attempted to read dataset of unknown type")
    Outcome.run (Outcome.call .H5Tclose ())
    Outcome.run (Outcome.call .closeLink ()))
    (fun ex => do
      Outcome.run (closeFileHandle lib)
      throw (Error.runtime ("readDataset failed. Reason: " ++ ex.what)))
  Outcome.run (closeFileHandle lib)

/-- The record `h5pp::AttributeProperties` as `h5ppFile.h` fills it, without its dataspace
handle `memSpace`, which only the backend reads. -/
structure AttributeProperties where
  dataType : H5T
  size : Nat
  ndims : Nat
  dims : List Nat
  attrName : String
  linkPath : String
  deriving DecidableEq, Repr

/-- The overload `File::writeAttribute(const DataType &attribute, const
AttributeProperties &aprops)`.  `checkIfAttributeExists` is the answer of
`h5pp::Hdf5::checkIfAttributeExists(file, aprops.linkPath, aprops.attrName)` and `H5Awrite`
the status that `H5Awrite` returns, negative when it fails. -/
def writeAttribute (self : File) (lib : Hdf5) (checkIfAttributeExists : Bool)
    (H5Awrite : Int) (aprops : AttributeProperties) : Outcome Unit := do
  let file ← self.openFileHandle lib
  let linkFound ← Hdf5.checkIfLinkExistsRecursively file aprops.linkPath
  if linkFound then
    let attributeFound ← Outcome.call .checkIfAttributeExists checkIfAttributeExists
    if ¬ attributeFound then
      let _linkObject ← Hdf5.openLink file aprops.linkPath
      Outcome.call .H5Acreate ()
      Outcome.tryCatch
        (do
          let retval ← Outcome.call .H5Awrite H5Awrite
          (if retval < 0 then
            Outcome.raise (.runtime
              ("Failed to write attribute. Attribute name: [ " ++ aprops.attrName ++ " ]"))
          else Outcome.ret ()))
        (fun ex => do
          Outcome.call .H5Aclose ()
          Outcome.call .closeLink ()
          closeFileHandle lib
          Outcome.raise (.runtime ("Link [ " ++ aprops.linkPath ++ " ]: " ++ ex.what)))
      Outcome.call .H5Aclose ()
      Outcome.call .closeLink ()
      closeFileHandle lib
    else
      -- nothing is done, and the file handle stays open
      Outcome.ret ()
  else
    closeFileHandle lib
    Outcome.raise (.logic_error
      ("Link " ++ aprops.linkPath ++ " does not exist, yet attribute is being written."))

end File

/-! ## Attribute properties in `h5ppScan.h` -/

/-- The record `h5pp::AttributeProperties` of `h5ppAttributeProperties.h`: every member is
optional, a handle is the object it refers to, and a property list left at `H5P_DEFAULT`
is `none`. -/
structure AttributeProperties where
  attributeId : Option H5A := none
  linkObject : Option H5D := none
  dataType : Option H5T := none
  memSpace : Option H5S := none
  plist_attr_create : Option H5P := none
  plist_attr_access : Option H5P := none
  attrName : Option String := none
  linkName : Option String := none
  attrExists : Option Bool := none
  linkExists : Option Bool := none
  size : Option Nat := none
  bytes : Option Nat := none
  ndims : Option Nat := none
  dims : Option (List Nat) := none
  deriving DecidableEq, Repr

/-- The call `H5Aopen_name(linkObject, attrName)`: the attribute of that name on the object, `none`
for the invalid handle that is returned when there is none or the object is not open. -/
def H5Aopen_name (linkObject : Option H5D) (attrName : String) : Option H5A :=
  linkObject.bind fun d => d.attributes.lookup attrName

namespace hdf5

/-- Modelled from the spec: `h5pp::hdf5::checkIfAttributeExists` (`h5ppHdf5.h` is not part
of the sources), `attributeExists(container, linkName, attrName) -> bool`.  A value the
caller already holds is returned as it is, otherwise the file is asked. -/
def checkIfAttributeExists (file : H5F) (linkName attrName : String)
    (_linkExists attrExists : Option Bool) : Outcome Bool :=
  match attrExists with
  | some known => Outcome.ret known
  | none => Outcome.call .checkIfAttributeExists
      (H5Aopen_name (file linkName) attrName).isSome

/-- Modelled from the spec: `h5pp::hdf5::openLink` (`openEntry(container, name) -> handle
| Error`); the handle is the dataset the name resolves to. -/
def openLink (file : H5F) (name : String) : Outcome H5D :=
  match file name with
  | some d => Outcome.call .openLink d
  | none => ⟨[.openLink], .error (.openFailed name)⟩

end hdf5

namespace scan

/-- The function `h5pp::scan::getAttributeProperties_read`: the properties of an existing
attribute, asked from the file. -/
def getAttributeProperties_read (file : H5F) (attrName linkName : String)
    (attrExists linkExists : Option Bool) : Outcome AttributeProperties := do
  let attrProps : AttributeProperties := {}
  let linkExists ← hdf5.checkIfLinkExists file linkName linkExists
  let attrProps := { attrProps with linkExists := some linkExists }
  let attrExists ← hdf5.checkIfAttributeExists file linkName attrName attrProps.linkExists
    attrExists
  let attrProps := { attrProps with
    attrExists := some attrExists
    linkName := some linkName
    attrName := some attrName }
  if attrExists then
    let linkObject ← hdf5.openObject file linkName
    let attributeId ← Outcome.call .H5Aopen_name (H5Aopen_name (some linkObject) attrName)
    -- H5Iget_type: whether the handle is one of an attribute
    let isAttribute ← Outcome.call .H5Iget_type attributeId.isSome
    match isAttribute, attributeId with
    | true, some attr =>
      let dataType ← Outcome.call .H5Aget_type attr.dataType
      let memSpace ← Outcome.call .H5Aget_space attr.space
      let rank ← Outcome.call .H5Sget_simple_extent_ndims
        (H5Sget_simple_extent_ndims memSpace)
      let ndims := max 1 rank
      let dims := List.replicate ndims 0
      let dims ← Outcome.call .H5Sget_simple_extent_dims
        (H5Sget_simple_extent_dims memSpace dims)
      let size ← Outcome.call .H5Sget_simple_extent_npoints
        (H5Sget_simple_extent_npoints memSpace)
      let bytes ← Outcome.call .H5Aget_storage_size attr.storageSize
      return { attrProps with
        linkObject := some linkObject
        attributeId := some attr
        dataType := some dataType
        memSpace := some memSpace
        ndims := some ndims
        dims := some dims
        size := some size
        bytes := some bytes }
    | _, _ =>
      Outcome.raise (.runtime
        ("Given attribute name does not point to an attribute: [\x7b" ++ attrName ++ "]"))
  else
    return attrProps

/-- The function `h5pp::scan::getAttributeProperties_bootstrap`: the properties of an
attribute to be written, inferred from the container. -/
def getAttributeProperties_bootstrap (h : Helpers) (file : H5F) (data : Container)
    (attrName linkName : String) (attrExists linkExists : Option Bool) :
    Outcome AttributeProperties := do
  let dataProps : AttributeProperties := {}
  let linkExists ← hdf5.checkIfLinkExists file linkName linkExists
  let dataProps := { dataProps with linkExists := some linkExists }
  let attrExists ← hdf5.checkIfAttributeExists file linkName attrName dataProps.linkExists
    attrExists
  let dataProps := { dataProps with
    attrExists := some attrExists
    linkName := some linkName
    attrName := some attrName }
  let linkObject ←
    (if linkExists then do
      let linkObject ← hdf5.openLink file linkName
      return some linkObject
    else Outcome.ret dataProps.linkObject)
  let dataProps := { dataProps with linkObject := linkObject }
  let attributeId ←
    (if attrExists then Outcome.call .H5Aopen_name (H5Aopen_name dataProps.linkObject attrName)
    else Outcome.ret dataProps.attributeId)
  let dataProps := { dataProps with attributeId := attributeId }
  let (size, dataType) := data.setStringSize data.getH5Type
  let bytes := data.getBytesTotal
  let ndims := data.getRank
  let dims := data.getDimensions
  return { dataProps with
    dataType := some dataType
    size := some size
    bytes := some bytes
    ndims := some ndims
    dims := some dims
    memSpace := some (h.getMemSpace size ndims dims) }

/-- The function `h5pp::scan::getAttributeProperties_write`: the properties with which
the container is written into an attribute, reconciled with the attribute when it
exists. -/
def getAttributeProperties_write (h : Helpers) (file : H5F) (data : Container)
    (attrName linkName : String) (_attrExists linkExists : Option Bool) :
    Outcome AttributeProperties := do
  let linkExists ← hdf5.checkIfLinkExists file linkName linkExists
  -- the value the caller holds for the attribute is not passed on
  let attrExists ← hdf5.checkIfAttributeExists file linkName attrName (some linkExists) none
  if linkExists ∧ attrExists then
    -- overwrite mode
    let attrProps ← getAttributeProperties_read file attrName linkName (some attrExists)
      (some linkExists)
    if attrProps.ndims ≠ some data.getRank then
      Outcome.raise (.rankMismatch (attrProps.ndims.getD 0) data.getRank)
    else
    let equalTypes ← Outcome.call .checkEqualTypesRecursive
      (match attrProps.dataType with
        | some t => h.checkEqualTypesRecursive t data.getH5Type
        | none => false)
    if !equalTypes then
      match attrProps.linkName with
      | some name => Outcome.raise (.typeMismatch name)
      | none => Outcome.raise (.runtime "bad optional access")
    else
    let dataProps : AttributeProperties := {}
    -- properties that are immutable on overwrites
    let dataProps := { dataProps with
      attributeId := attrProps.attributeId
      linkObject := attrProps.linkObject
      attrName := attrProps.attrName
      linkExists := attrProps.linkExists
      attrExists := attrProps.attrExists
      dataType := some data.getH5Type
      ndims := some data.getRank
      plist_attr_access := attrProps.plist_attr_create }
    -- the rest is inferred from the data
    let (size, dataType) := data.setStringSize data.getH5Type
    let bytes := data.getBytesTotal
    let ndims := data.getRank
    let dims := data.getDimensions
    return { dataProps with
      dataType := some dataType
      size := some size
      bytes := some bytes
      ndims := some ndims
      dims := some dims
      memSpace := some (h.getMemSpace size ndims dims) }
  else
    getAttributeProperties_bootstrap h file data attrName linkName (some attrExists)
      (some linkExists)

end scan

/-! ## Compression level, construction and destruction in `h5ppFile.h` -/

/-- The function `h5pp::checkIfCompressionIsAvailable`: the answer `avail` of
`H5Zfilter_avail(H5Z_FILTER_DEFLATE)`, an `htri_t`, returned as a `bool`.  What
`H5Zget_filter_info` reports is only logged. -/
def checkIfCompressionIsAvailable (H5Zfilter_avail : Int) : Bool :=
  decide (H5Zfilter_avail ≠ 0)

namespace File

/-- The member function `File::setCompressionLevel`. -/
def setCompressionLevel (self : File) (H5Zfilter_avail : Int)
    (compressionLevelZeroToNine : Nat) : File :=
  if checkIfCompressionIsAvailable H5Zfilter_avail then
    if compressionLevelZeroToNine < 10 then
      { self with compressionLevel := compressionLevelZeroToNine }
    else self
  else self

/-- The member function `File::setCreateMode`. -/
def setCreateMode (self : File) (createMode_ : CreateMode) : File :=
  { self with createMode := createMode_ }

/-- The member function `File::setAccessMode`. -/
def setAccessMode (self : File) (accessMode_ : AccessMode) : File :=
  { self with accessMode := accessMode_ }

/-- The member function `File::enableDefaultExtendable`. -/
def enableDefaultExtendable (self : File) : File := { self with defaultExtendable := true }

/-- The member function `File::disableDefaultExtendable`. -/
def disableDefaultExtendable (self : File) : File := { self with defaultExtendable := false }

/-- The member function `File::initialize`, of which `failure` is the exception that
`H5Eset_auto` or `setOutputFilePath` ends it with, if any. -/
def init (failure : Option Error) : Member Unit := do
  match failure with
  | some ex => throw ex
  | none => pure ()
  modify fun s => { s with self := { s.self with hasInitialized := true } }
  Outcome.run (Outcome.call .incrementCounter ())

/-- The constructor `File()`, run on the members as their initializers leave them. -/
def File_default : Member Unit := pure ()

/-- The constructor `File(const std::string &FileName_, AccessMode accessMode_, CreateMode
createMode_, size_t logLevel_)`, run on the members as their initializers leave them. -/
def File_path (accessMode_ : AccessMode) (createMode_ : CreateMode)
    (failure : Option Error) : Member Unit := do
  modify fun s =>
    { s with self := { s.self with accessMode := accessMode_, createMode := createMode_ } }
  if accessMode_ = .READONLY ∧ createMode_ = .TRUNCATE then
    -- "Options READONLY and TRUNCATE are incompatible."
    return
  init failure

/-- The copy assignment `File::operator=(const File &other)`; `sameObject` is whether
`&other == this`. -/
def operator_assign (other : File) (sameObject : Bool) (failure : Option Error) :
    Member Unit := do
  if ¬ sameObject then
    if (← get).self.hasInitialized then
      Outcome.run (Outcome.call .decrementCounter ())
    if other.hasInitialized then
      modify fun s =>
        { s with self := { s.self with accessMode := other.accessMode, createMode := .OPEN } }
      init failure

/-- The copy constructor `File(const File &other)`, run on the members as their
initializers leave them. -/
def File_copy (other : File) (failure : Option Error) : Member Unit :=
  operator_assign other false failure

/-- The destructor `File::~File`.  The property lists that are closed when the count is 1
are left out; `catch(...)` lets nothing escape. -/
def destructor : Member Unit :=
  Outcome.run (Outcome.call .decrementCounter ())

/-- The member functions of `File` embedded here that assign a member of an object that
has been constructed, each with its arguments and the answers of the library. -/
inductive Operation where
  | setCompressionLevel (H5Zfilter_avail : Int) (compressionLevelZeroToNine : Nat)
  | setCreateMode (createMode_ : CreateMode)
  | setAccessMode (accessMode_ : AccessMode)
  | enableDefaultExtendable
  | disableDefaultExtendable
  | operator_assign (other : File) (sameObject : Bool) (failure : Option Error)
  | readDataset (lib : Hdf5) (H5LTread_dataset : Int) (dest : Destination)
      (datasetPath : String)

/-- The object after the operation, whether it returned or threw. -/
def Operation.apply (self : File) : Operation → File
  | .setCompressionLevel H5Zfilter_avail level => self.setCompressionLevel H5Zfilter_avail level
  | .setCreateMode createMode_ => self.setCreateMode createMode_
  | .setAccessMode accessMode_ => self.setAccessMode accessMode_
  | .enableDefaultExtendable => self.enableDefaultExtendable
  | .disableDefaultExtendable => self.disableDefaultExtendable
  | .operator_assign other sameObject failure =>
    ((File.operator_assign other sameObject failure).callOn self).2.self
  | .readDataset lib H5LTread_dataset dest datasetPath =>
    ((File.readDatasetAs lib H5LTread_dataset dest datasetPath).callOn self).2.self

/-- The overload `File::writeDataset(const DataType &data, const T (&dims)[N], const
std::string &datasetPath, std::optional<bool> extendable)` for an Eigen matrix `data`,
with the same parameters as `writeDataset` and the array `dims`. -/
def writeDataset_dims {α : Type} (self : File) (lib : Hdf5) (max_size_contiguous : Nat)
    (is_eigen_1d : Bool) (data : Eigen.Matrix α) (info : Container) (dims : List Nat)
    (datasetPath : String) (extendable : Option Bool) : Outcome (List α) := do
  if self.accessMode = .READONLY then
    Outcome.raise (.runtime "Attempted to write to read-only file")
  else
  let linkExists ← self.linkExists lib datasetPath
  let extendable ← self.determineIfExtendable lib max_size_contiguous info datasetPath
    extendable none
  let props : DatasetProperties :=
    { linkExists := linkExists
      extendable := extendable
      dataType := info.getH5Type
      dims := dims
      ndims := dims.length
      chunkDims := dims
      dsetName := datasetPath
      size := dims.foldl (fun size dim => size * dim % 2 ^ 64) 1
      compressionLevel := self.compressionLevel }
  -- tc::is_eigen_type<DataType>::value holds
  if ¬ is_eigen_1d then
    -- converted to row-major storage order first
    let temp_rowm := Textra.to_RowMajor data
    self.writeDatasetProps lib temp_rowm.data info.getBytesTotal props
  else if props.dataType.cls = .H5T_STRING then
    -- the size that setStringSize returns is dropped
    self.writeDatasetProps lib data.data info.getBytesTotal props
  else
    self.writeDatasetProps lib data.data info.getBytesTotal props

/-- The overload `File::writeDataset(const DataType *data, const T (&dims)[N], const
std::string &datasetPath, std::optional<bool> extendable)` for `N = 2`: the buffer is
wrapped in a row-major tensor map of `dims[0] x dims[1]` coefficients, which is handed to
`writeDataset`.  `is_eigen_1d` and `info` are the answers of the helper templates for the
tensor map. -/
def writeDataset_pointer {α : Type} (self : File) (lib : Hdf5) (max_size_contiguous : Nat)
    (is_eigen_1d : Bool) (data : List α) (info : Container) (dims : Nat × Nat)
    (datasetPath : String) (extendable : Option Bool) : Outcome (List α) :=
  let tensorWrap := Eigen.Matrix.ofRowMajorBuffer dims.1 dims.2 data
  self.writeDataset lib max_size_contiguous is_eigen_1d tensorWrap info datasetPath
    extendable

end File

/-! ## Paths and `File::getNewFileName` -/

namespace fs

/-- A `std::filesystem::path` as far as `getNewFileName` looks at it: the parent path and
the filename. -/
structure path where
  parent_path : String
  filename : String
  deriving DecidableEq, Repr

namespace path

/-- `path::extension`: the part of the filename from its last dot on; empty for `.`, for
`..`, for a filename without a dot and for one whose only dot leads it. -/
def extension (p : path) : String :=
  if p.filename = "." ∨ p.filename = ".." then ""
  else
    let chars := p.filename.toList
    let afterLastDot := (chars.reverse.takeWhile (fun c => c ≠ '.')).reverse
    if afterLastDot.length = chars.length then ""
    else if afterLastDot.length + 1 = chars.length then ""
    else String.mk ('.' :: afterLastDot)

/-- `path::stem`: the filename without its extension. -/
def stem (p : path) : String :=
  String.mk (p.filename.toList.take (p.filename.length - p.extension.length))

/-- `path::replace_filename`. -/
def replace_filename (p : path) (replacement : String) : path :=
  { p with filename := replacement }

end path

end fs

namespace File

/-- The largest value of an `int`. -/
def INT_MAX : Nat := 2 ^ 31 - 1

/-- The sibling path `<stem>-<i><extension>` of `fileName`, which the loop of
`File::getNewFileName` makes with its counter at `i`. -/
def getNewFileName_candidate (fileName : fs.path) (i : Nat) : fs.path :=
  fileName.replace_filename (fileName.stem ++ "-" ++ toString i ++ fileName.extension)

/-- The loop of `File::getNewFileName`, of which `fuel` bounds the number of times the
condition `fs::exists(newFileName)` is tested: `none` when that bound is reached.  `i` is
an `int`: `i++` at its largest value is undefined behaviour. -/
def getNewFileName_loop (fs_exists : fs.path → Bool) (fileName : fs.path) :
    (fuel : Nat) → (i : Nat) → (newFileName : fs.path) → Option (Except Error fs.path)
  | 0, _, _ => none
  | fuel + 1, i, newFileName =>
    if fs_exists newFileName then
      if i = INT_MAX then some (.error .signedOverflow)
      else
        getNewFileName_loop fs_exists fileName fuel (i + 1)
          (newFileName.replace_filename
            (fileName.stem ++ "-" ++ toString i ++ fileName.extension))
    else some (.ok newFileName)

/-- The member function `File::getNewFileName`, with `fs::exists` as a parameter. -/
def getNewFileName (fs_exists : fs.path → Bool) (fileName : fs.path) (fuel : Nat) :
    Option (Except Error fs.path) :=
  getNewFileName_loop fs_exists fileName fuel 1 fileName

end File

/-! ## Example inputs -/

namespace Examples

/-- An exact comparison of datatypes ("element type must match exactly") and simple
stand-ins for the other helpers. -/
def helpers : Helpers where
  checkEqualTypesRecursive := fun a b => decide (a = b)
  decideLayout := fun _ desiredLayout => desiredLayout.getD .H5D_CONTIGUOUS
  getDefaultChunkDimensions := fun _ dims desiredChunkDims => desiredChunkDims.getD dims
  getMemSpace := fun _ _ dims => { dims := dims, maxDims := dims }
  getDataSpace := fun _ _ dims _ => { dims := dims, maxDims := dims }
  setDatasetCreationPropertyLayout := fun props =>
    { layout := props.layout.getD .H5D_CONTIGUOUS, chunk := props.chunkDims.getD [],
      deflate := 0 }
  setDatasetCreationPropertyCompression := fun props =>
    { layout := props.layout.getD .H5D_CONTIGUOUS, chunk := props.chunkDims.getD [],
      deflate := props.compressionLevel.getD 0 }
  setDataSpaceExtent := fun props =>
    { dims := props.dims.getD [], maxDims := props.dims.getD [] }

/-- The datatype of a `double`. -/
def H5T_NATIVE_DOUBLE : H5T := { cls := .H5T_FLOAT, size := 8 }

/-- The datatype of an `int`. -/
def H5T_NATIVE_INT : H5T := { cls := .H5T_INTEGER, size := 4 }

/-- The datatype `H5T_C_S1`: a string of one byte. -/
def H5T_C_S1 : H5T := { cls := .H5T_STRING, size := 1 }

/-- A container of `double`s of the given rank and extent. -/
def doubles (rank : Nat) (dims : List Nat) : Container where
  getRank := rank
  getDimensions := dims
  getSize := dims.prod
  getBytesTotal := 8 * dims.prod
  getH5Type := H5T_NATIVE_DOUBLE
  setStringSize := fun dataType => (dims.prod, dataType)
  getChunkDimensions := dims

/-- A container of `int`s of the given rank and extent. -/
def ints (rank : Nat) (dims : List Nat) : Container where
  getRank := rank
  getDimensions := dims
  getSize := dims.prod
  getBytesTotal := 4 * dims.prod
  getH5Type := H5T_NATIVE_INT
  setStringSize := fun dataType => (dims.prod, dataType)
  getChunkDimensions := dims

/-- Modelled from the spec: a `std::string` of `length` characters.  "For text containers,
the element type's size must first be fixed to the container's actual string length
(`setStringSize`)": the call leaves the datatype with that size. -/
def text (length : Nat) : Container where
  getRank := 1
  getDimensions := [1]
  getSize := length
  getBytesTotal := length
  getH5Type := H5T_C_S1
  setStringSize := fun dataType => (length, { dataType with size := length })
  getChunkDimensions := [1]

/-- A dataset of `double`s with the given extent, maximum extent, layout and chunk
shape. -/
def dataset (dims maxDims : List Nat) (layout : H5D_layout_t) (chunk : List Nat) : H5D where
  dataType := H5T_NATIVE_DOUBLE
  space := { dims := dims, maxDims := maxDims }
  storageSize := 8 * dims.prod
  layout := layout
  chunk := chunk

/-- A dataset that holds a string of one byte. -/
def textDataset : H5D where
  dataType := H5T_C_S1
  space := { dims := [1], maxDims := [1] }
  storageSize := 1
  layout := .H5D_CONTIGUOUS
  chunk := []

/-- The file whose only dataset is `d`, under the name `name`. -/
def fileWith (name : String) (d : H5D) : H5F :=
  fun n => if n = name then some d else none

/-- The file without datasets. -/
def emptyFile : H5F := fun _ => none

/-- The column-major 3 x 2 matrix `[[1,2],[3,4],[5,6]]`. -/
def block32 : Eigen.Matrix Nat :=
  { IsRowMajor := false, rows := 3, cols := 2, data := [1, 3, 5, 2, 4, 6] }

/-- An initialized, writable `File`. -/
def openedFile : File := { hasInitialized := true }

/-- A library whose calls succeed on the given file. -/
def library (file : H5F) : Hdf5 := { H5Fopen := some file, H5Fclose := true, H5Dwrite := true }

/-- A dataset of `int`s with the given extent, maximum extent, layout and chunk shape. -/
def intDataset (dims maxDims : List Nat) (layout : H5D_layout_t) (chunk : List Nat) :
    H5D where
  dataType := H5T_NATIVE_INT
  space := { dims := dims, maxDims := maxDims }
  storageSize := 4 * dims.prod
  layout := layout
  chunk := chunk

/-- A scalar dataset of one `double`: its dataspace has rank 0. -/
def scalarDataset : H5D where
  dataType := H5T_NATIVE_DOUBLE
  space := { dims := [], maxDims := [] }
  storageSize := 8
  layout := .H5D_CONTIGUOUS
  chunk := []

/-- The properties with which an attribute of one `double` is written. -/
def doubleAttribute (attrName linkPath : String) : File.AttributeProperties where
  dataType := H5T_NATIVE_DOUBLE
  size := 1
  ndims := 0
  dims := []
  attrName := attrName
  linkPath := linkPath

/-- An attribute of three `double`s. -/
def doubleTriple : H5A where
  dataType := H5T_NATIVE_DOUBLE
  space := { dims := [3], maxDims := [3] }
  storageSize := 24

/-- A dataset of `double`s of extent `[3, 2]` that carries the attribute `a`. -/
def datasetWithAttribute : H5D where
  dataType := H5T_NATIVE_DOUBLE
  space := { dims := [3, 2], maxDims := [3, 2] }
  storageSize := 48
  layout := .H5D_CONTIGUOUS
  chunk := []
  attributes := [("a", doubleTriple)]

/-- The path `/data/out.h5`. -/
def outputPath : fs.path := { parent_path := "/data", filename := "out.h5" }

/-- A file system in which exactly the paths whose filename has at most 17 characters
exist: next to `out.h5`, every `out-<k>.h5` with `k` of at most 10 digits. -/
def shortNamesExist (p : fs.path) : Bool := decide (p.filename.length ≤ 17)

/-- A file system in which `out.h5` and `out-1.h5` exist. -/
def twoFilesExist (p : fs.path) : Bool :=
  decide (p.filename = "out.h5" ∨ p.filename = "out-1.h5")

end Examples

/-! ## Lemmas on outcomes and on the scan functions -/

namespace Outcome
theorem bind_eq {α β : Type} (x : Outcome α) (f : α → Outcome β) : x >>= f = x.andThen f := rfl
theorem pure_eq {α : Type} (a : α) : (pure a : Outcome α) = ret a := rfl
@[simp] theorem ret_andThen {α β : Type} (a : α) (f : α → Outcome β) : (ret a).andThen f = f a := by
  simp [ret, andThen]
@[simp] theorem call_andThen {α β : Type} (c : H5Call) (a : α) (f : α → Outcome β) :
    (call c a).andThen f = ⟨c :: (f a).calls, (f a).result⟩ := by
  simp [call, andThen]
@[simp] theorem raise_andThen {α β : Type} (e : Error) (f : α → Outcome β) :
    (raise e : Outcome α).andThen f = raise e := by
  simp [raise, andThen]
theorem andThen_result_of_ok {α β : Type} {x : Outcome α} {a : α} (f : α → Outcome β)
    (hx : x.result = .ok a) : (x.andThen f).result = (f a).result := by
  simp [andThen, hx]

theorem andThen_calls_of_ok {α β : Type} {x : Outcome α} {a : α} (f : α → Outcome β)
    (hx : x.result = .ok a) : (x.andThen f).calls = x.calls ++ (f a).calls := by
  simp [andThen, hx]

theorem andThen_congr_of_ok {α β : Type} {x : Outcome α} {a : α} (f g : α → Outcome β)
    (hx : x.result = .ok a) (hfg : f a = g a) : x.andThen f = x.andThen g := by
  simp [andThen, hx, hfg]

end Outcome

namespace scan

theorem read_existing (file : H5F) (dsetName : String) (e : H5D) (he : file dsetName = some e) :
    ∃ r, (getDatasetProperties_read file dsetName (some true)).result = .ok r
      ∧ r.ndims = some (max 1 e.space.dims.length)
      ∧ r.dataType = some e.dataType
      ∧ r.layout = some e.layout
      ∧ r.dataSet = some e
      ∧ r.dsetName = some dsetName
      ∧ r.dsetExists = some true
      ∧ r.plist_dset_create = some (H5Dget_create_plist e)
      ∧ ∀ c ∈ (getDatasetProperties_read file dsetName (some true)).calls,
          c.modifiesEntry = false := by
  simp only [getDatasetProperties_read, hdf5.checkIfDatasetExists, hdf5.openObject, he,
    Outcome.bind_eq, Outcome.pure_eq, Outcome.ret_andThen, Outcome.call_andThen, if_true]
  by_cases hl : e.layout = .H5D_CHUNKED
  · simp [hl, H5Dget_create_plist, Outcome.call, Outcome.ret, H5Sget_simple_extent_ndims,
      H5Call.modifiesEntry, Outcome.andThen]
  · simp [hl, H5Dget_create_plist, Outcome.call, Outcome.ret, H5Sget_simple_extent_ndims,
      H5Call.modifiesEntry, Outcome.andThen]

theorem write_existing (h : Helpers) (file : H5F) (dsetName : String) (data : Container)
    (dsetExists : Option Bool) (desiredLayout : Option H5D_layout_t)
    (desiredChunkDims : Option (List Nat)) (desiredCompressionLevel : Option Nat)
    (e : H5D) (he : file dsetName = some e) (hx : dsetExists ≠ some false) :
    ∃ r, (getDatasetProperties_read file dsetName (some true)).result = .ok r ∧
    ∃ p : DatasetProperties,
      (p.dataSet = r.dataSet ∧ p.dsetName = r.dsetName ∧ p.dsetExists = r.dsetExists
        ∧ p.layout = r.layout ∧ p.chunkDims = r.chunkDims
        ∧ p.plist_dset_access = r.plist_dset_create ∧ p.plist_dset_create = none
        ∧ p.dataType = some (data.setStringSize data.getH5Type).2
        ∧ p.ndims = some data.getRank
        ∧ p.dims = some data.getDimensions
        ∧ p.size = some (data.setStringSize data.getH5Type).1
        ∧ p.bytes = some data.getBytesTotal
        ∧ p.memSpace = some (h.getMemSpace (data.setStringSize data.getH5Type).1
            data.getRank data.getDimensions)
        ∧ p.compressionLevel = some 0
        ∧ p.dataSpace = some (h.setDataSpaceExtent { p with
            dataSpace := some (h.getDataSpace (data.setStringSize data.getH5Type).1
              data.getRank data.getDimensions e.layout) })) ∧
      (getDatasetProperties_write h file dsetName data dsetExists desiredLayout
          desiredChunkDims desiredCompressionLevel).result =
        if max 1 e.space.dims.length ≠ data.getRank then
          .error (.rankMismatch (max 1 e.space.dims.length) data.getRank)
        else if h.checkEqualTypesRecursive e.dataType data.getH5Type = false then
          .error (.typeMismatch dsetName)
        else
          match sizeChecks e.layout e.space.maxDims data.getDimensions
              (max 1 e.space.dims.length) 0 with
          | .error err => .error err
          | .ok _ => .ok p := by
  obtain ⟨r, hr, h1, h2, h3, h4, h5, h6, h7, -⟩ := read_existing file dsetName e he
  refine ⟨r, hr, ?_⟩
  have hex : (match dsetExists with
      | none => hdf5.checkIfLinkExists file dsetName dsetExists
      | some known => Outcome.ret known).result = .ok true := by
    cases dsetExists with
    | none => simp [hdf5.checkIfLinkExists, he, Outcome.call]
    | some b => cases b <;> simp_all [Outcome.ret]
  simp only [getDatasetProperties_write, Outcome.bind_eq, Outcome.pure_eq]
  rw [Outcome.andThen_result_of_ok _ hex]
  simp only [if_true]
  rw [Outcome.andThen_result_of_ok _ hr]
  simp only [h1, h2, h3, h4, h5, h6, h7]
  let q : DatasetProperties :=
    { dataSet := some e, dataType := some (data.setStringSize data.getH5Type).2,
      dataSpace := some (h.getDataSpace (data.setStringSize data.getH5Type).1 data.getRank
        data.getDimensions e.layout),
      memSpace := some (h.getMemSpace (data.setStringSize data.getH5Type).1 data.getRank
        data.getDimensions),
      plist_dset_create := none, plist_dset_access := some (H5Dget_create_plist e),
      dsetName := some dsetName, dsetExists := some true, layout := some e.layout,
      ndims := some data.getRank, dims := some data.getDimensions, chunkDims := r.chunkDims,
      size := some (data.setStringSize data.getH5Type).1, bytes := some data.getBytesTotal,
      compressionLevel := some 0 }
  refine ⟨{ q with dataSpace := some (h.setDataSpaceExtent q) }, by simp [q], ?_⟩
  by_cases hrank : max 1 e.space.dims.length = data.getRank
  · cases hty : h.checkEqualTypesRecursive e.dataType data.getH5Type
    · simp [hrank, hty, Outcome.andThen, Outcome.call, Outcome.raise]
    · simp only [hrank, hty, Outcome.andThen, Outcome.call, Outcome.raise, Outcome.ret,
        hdf5.getMaxDimensions]
      cases hs : sizeChecks e.layout e.space.maxDims data.getDimensions data.getRank 0 <;>
        simp [hs, q]
  · simp [hrank, Outcome.raise]

/-- What the loop of size checks computes, when every index it reads is in range. -/
theorem sizeChecks_spec (layout : H5D_layout_t) (dsetMaxDims dims : List Nat) :
    ∀ (remaining idx : Nat), idx + remaining ≤ dsetMaxDims.length →
      (∀ i, idx ≤ i → i < idx + remaining → i < dims.length) →
      (sizeChecks layout dsetMaxDims dims remaining idx = .ok () ∧
        ∀ i, idx ≤ i → i < idx + remaining → ∀ m d, dsetMaxDims[i]? = some m →
          dims[i]? = some d → m ≠ H5S_UNLIMITED →
            (layout = .H5D_CHUNKED → d ≤ m) ∧ (layout ≠ .H5D_CHUNKED → d = m)) ∨
      (∃ i m d, idx ≤ i ∧ i < idx + remaining ∧ dsetMaxDims[i]? = some m ∧
          dims[i]? = some d ∧ m ≠ H5S_UNLIMITED ∧
          ((layout = .H5D_CHUNKED ∧ m < d ∧
              sizeChecks layout dsetMaxDims dims remaining idx
                = .error (.dimensionTooLarge i m d)) ∨
           (layout ≠ .H5D_CHUNKED ∧ d ≠ m ∧
              sizeChecks layout dsetMaxDims dims remaining idx
                = .error (.dimensionsNotEqual i m d)))) := by
  intro remaining
  induction remaining with
  | zero =>
    intro idx _ _
    left
    refine ⟨rfl, ?_⟩
    intro i h1 h2
    omega
  | succ n ih =>
    intro idx hlen hdims
    have hm : idx < dsetMaxDims.length := by omega
    have hd : idx < dims.length := hdims idx (le_refl _) (by omega)
    obtain ⟨m, hmv⟩ : ∃ m, dsetMaxDims[idx]? = some m := ⟨_, List.getElem?_eq_getElem hm⟩
    obtain ⟨d, hdv⟩ : ∃ d, dims[idx]? = some d := ⟨_, List.getElem?_eq_getElem hd⟩
    have hrec := ih (idx + 1) (by omega) (fun i h1 h2 => hdims i (by omega) (by omega))
    have step : ∀ i, idx ≤ i → i < idx + (n + 1) → i = idx ∨ (idx + 1 ≤ i ∧ i < idx + 1 + n) := by
      intro i h1 h2
      omega
    by_cases hu : m = H5S_UNLIMITED
    · have hs : sizeChecks layout dsetMaxDims dims (n + 1) idx
          = sizeChecks layout dsetMaxDims dims n (idx + 1) := by
        simp [sizeChecks, hmv, hu]
      rw [hs]
      rcases hrec with ⟨hok, hall⟩ | ⟨i, m', d', h1, h2, h3, h4, h5, h6⟩
      · left
        refine ⟨hok, ?_⟩
        intro i h1 h2 m' d' hm' hd' hne
        rcases step i h1 h2 with rfl | ⟨h3, h4⟩
        · rw [hmv] at hm'
          cases hm'
          exact absurd hu hne
        · exact hall i h3 h4 m' d' hm' hd' hne
      · right
        exact ⟨i, m', d', by omega, by omega, h3, h4, h5, h6⟩
    · by_cases hl : layout = .H5D_CHUNKED
      · by_cases hgt : m < d
        · right
          refine ⟨idx, m, d, le_refl _, by omega, hmv, hdv, hu, Or.inl ⟨hl, hgt, ?_⟩⟩
          simp [sizeChecks, hmv, hdv, hu, hl, hgt]
        · have hs : sizeChecks layout dsetMaxDims dims (n + 1) idx
              = sizeChecks layout dsetMaxDims dims n (idx + 1) := by
            simp [sizeChecks, hmv, hdv, hu, hl, hgt]
          rw [hs]
          rcases hrec with ⟨hok, hall⟩ | ⟨i, m', d', h1, h2, h3, h4, h5, h6⟩
          · left
            refine ⟨hok, ?_⟩
            intro i h1 h2 m' d' hm' hd' hne
            rcases step i h1 h2 with rfl | ⟨h3, h4⟩
            · rw [hmv] at hm'
              rw [hdv] at hd'
              cases hm'
              cases hd'
              exact ⟨fun _ => by omega, fun hn => absurd hl hn⟩
            · exact hall i h3 h4 m' d' hm' hd' hne
          · right
            exact ⟨i, m', d', by omega, by omega, h3, h4, h5, h6⟩
      · by_cases hne : d = m
        · have hs : sizeChecks layout dsetMaxDims dims (n + 1) idx
              = sizeChecks layout dsetMaxDims dims n (idx + 1) := by
            simp [sizeChecks, hmv, hdv, hu, hl, hne]
          rw [hs]
          rcases hrec with ⟨hok, hall⟩ | ⟨i, m', d', h1, h2, h3, h4, h5, h6⟩
          · left
            refine ⟨hok, ?_⟩
            intro i h1 h2 m' d' hm' hd' hne'
            rcases step i h1 h2 with rfl | ⟨h3, h4⟩
            · rw [hmv] at hm'
              rw [hdv] at hd'
              cases hm'
              cases hd'
              exact ⟨fun hc => absurd hc hl, fun _ => hne⟩
            · exact hall i h3 h4 m' d' hm' hd' hne'
          · right
            exact ⟨i, m', d', by omega, by omega, h3, h4, h5, h6⟩
        · right
          refine ⟨idx, m, d, le_refl _, by omega, hmv, hdv, hu, Or.inr ⟨hl, hne, ?_⟩⟩
          simp [sizeChecks, hmv, hdv, hu, hl, hne]

theorem sizeChecks_error_kind (layout : H5D_layout_t) (dsetMaxDims dims : List Nat) :
    ∀ (remaining idx : Nat) (err : Error),
      sizeChecks layout dsetMaxDims dims remaining idx = .error err →
      err = .outOfRange ∨ (∃ i m d, err = .dimensionTooLarge i m d) ∨
        (∃ i m d, err = .dimensionsNotEqual i m d) := by
  intro remaining
  induction remaining with
  | zero =>
    intro idx err herr
    simp [sizeChecks] at herr
  | succ n ih =>
    intro idx err herr
    simp only [sizeChecks] at herr
    split at herr
    · cases herr
      exact Or.inl rfl
    · split at herr
      · split at herr
        · cases herr
          exact Or.inl rfl
        · split at herr
          · cases herr
            exact Or.inr (Or.inl ⟨_, _, _, rfl⟩)
          · split at herr
            · cases herr
              exact Or.inr (Or.inr ⟨_, _, _, rfl⟩)
            · exact ih _ _ herr
      · exact ih _ _ herr

theorem sizeChecks_unlimited (layout : H5D_layout_t) (dsetMaxDims dims : List Nat) :
    ∀ (remaining idx : Nat), idx + remaining ≤ dsetMaxDims.length →
      (∀ m ∈ dsetMaxDims, m = H5S_UNLIMITED) →
      sizeChecks layout dsetMaxDims dims remaining idx = .ok () := by
  intro remaining
  induction remaining with
  | zero =>
    intro idx _ _
    rfl
  | succ n ih =>
    intro idx hlen hall
    have hm : idx < dsetMaxDims.length := by omega
    have hmv : dsetMaxDims[idx]? = some dsetMaxDims[idx] := List.getElem?_eq_getElem hm
    have hu : dsetMaxDims[idx] = H5S_UNLIMITED := hall _ (List.getElem_mem hm)
    simp only [sizeChecks, hmv, hu, ne_eq, not_true_eq_false, if_false]
    exact ih (idx + 1) (by omega) hall

theorem write_existing_calls (h : Helpers) (file : H5F) (dsetName : String) (data : Container)
    (dsetExists : Option Bool) (desiredLayout : Option H5D_layout_t)
    (desiredChunkDims : Option (List Nat)) (desiredCompressionLevel : Option Nat)
    (e : H5D) (he : file dsetName = some e) (hx : dsetExists ≠ some false) :
    ∀ c ∈ (getDatasetProperties_write h file dsetName data dsetExists desiredLayout
      desiredChunkDims desiredCompressionLevel).calls, c.modifiesEntry = false := by
  obtain ⟨r, hr, h1, h2, h3, h4, h5, h6, h7, hcalls⟩ := read_existing file dsetName e he
  have hex : (match dsetExists with
      | none => hdf5.checkIfLinkExists file dsetName dsetExists
      | some known => Outcome.ret known).result = .ok true := by
    cases dsetExists with
    | none => simp [hdf5.checkIfLinkExists, he, Outcome.call]
    | some b => cases b <;> simp_all [Outcome.ret]
  have hexc : ∀ c ∈ (match dsetExists with
      | none => hdf5.checkIfLinkExists file dsetName dsetExists
      | some known => Outcome.ret known).calls, c.modifiesEntry = false := by
    cases dsetExists with
    | none => simp [hdf5.checkIfLinkExists, he, Outcome.call, H5Call.modifiesEntry]
    | some b => simp [Outcome.ret]
  simp only [getDatasetProperties_write, Outcome.bind_eq, Outcome.pure_eq]
  rw [Outcome.andThen_calls_of_ok _ hex]
  simp only [if_true]
  rw [Outcome.andThen_calls_of_ok _ hr]
  simp only [h1, h2, h3, h4, h5, h6, h7]
  intro c hc
  rw [List.mem_append, List.mem_append] at hc
  rcases hc with hc | hc | hc
  · exact hexc c hc
  · exact hcalls c hc
  · by_cases hrank : max 1 e.space.dims.length = data.getRank
    · cases hty : h.checkEqualTypesRecursive e.dataType data.getH5Type
      · simp [hrank, hty, Outcome.andThen, Outcome.call, Outcome.raise] at hc
        subst hc
        rfl
      · simp only [hrank, hty, Outcome.andThen, Outcome.call, Outcome.raise, Outcome.ret,
          hdf5.getMaxDimensions] at hc
        cases hs : sizeChecks e.layout e.space.maxDims data.getDimensions data.getRank 0 <;>
          simp [hs] at hc <;> rcases hc with rfl | rfl | rfl <;> rfl
    · simp [hrank, Outcome.raise] at hc

theorem write_existing_overrides (h : Helpers) (file : H5F) (dsetName : String)
    (data : Container) (dsetExists : Option Bool)
    (desiredLayout desiredLayout' : Option H5D_layout_t)
    (desiredChunkDims desiredChunkDims' : Option (List Nat))
    (desiredCompressionLevel desiredCompressionLevel' : Option Nat)
    (e : H5D) (he : file dsetName = some e) (hx : dsetExists ≠ some false) :
    getDatasetProperties_write h file dsetName data dsetExists desiredLayout
        desiredChunkDims desiredCompressionLevel
      = getDatasetProperties_write h file dsetName data dsetExists desiredLayout'
        desiredChunkDims' desiredCompressionLevel' := by
  have hex : (match dsetExists with
      | none => hdf5.checkIfLinkExists file dsetName dsetExists
      | some known => Outcome.ret known).result = .ok true := by
    cases dsetExists with
    | none => simp [hdf5.checkIfLinkExists, he, Outcome.call]
    | some b => cases b <;> simp_all [Outcome.ret]
  simp only [getDatasetProperties_write, Outcome.bind_eq, Outcome.pure_eq]
  exact Outcome.andThen_congr_of_ok _ _ hex (by simp)

end scan

/-! ## Claims on `h5ppScan.h` -/

namespace scan

/-- C2, counterexample.  A scalar dataset has rank 0 on disk.  Written from a container of
rank 0, `getDatasetProperties_write` raises the rank-mismatch error although the ranks are
equal; written from a container of rank 1 it does not raise it although the ranks differ. -/
theorem getDatasetProperties_write_rank_counterexample :
    ¬ ((∃ a b, (getDatasetProperties_write Examples.helpers
            (Examples.fileWith "/s" (Examples.dataset [] [] .H5D_CONTIGUOUS [])) "/s"
            (Examples.doubles 0 []) none none none none).result
          = .error (.rankMismatch a b)) ↔
        H5Sget_simple_extent_ndims (Examples.dataset [] [] .H5D_CONTIGUOUS []).space
          ≠ (Examples.doubles 0 []).getRank) ∧
    ¬ ((∃ a b, (getDatasetProperties_write Examples.helpers
            (Examples.fileWith "/s" (Examples.dataset [] [] .H5D_CONTIGUOUS [])) "/s"
            (Examples.doubles 1 [1]) none none none none).result
          = .error (.rankMismatch a b)) ↔
        H5Sget_simple_extent_ndims (Examples.dataset [] [] .H5D_CONTIGUOUS []).space
          ≠ (Examples.doubles 1 [1]).getRank) := by
  constructor
  · intro hiff
    have hres : (getDatasetProperties_write Examples.helpers
        (Examples.fileWith "/s" (Examples.dataset [] [] .H5D_CONTIGUOUS [])) "/s"
        (Examples.doubles 0 []) none none none none).result
          = .error (.rankMismatch 1 0) := by rfl
    exact hiff.mp ⟨1, 0, hres⟩ rfl
  · intro hiff
    have hres : (getDatasetProperties_write Examples.helpers
        (Examples.fileWith "/s" (Examples.dataset [] [] .H5D_CONTIGUOUS [])) "/s"
        (Examples.doubles 1 [1]) none none none none).result
          = .error .outOfRange := by rfl
    obtain ⟨a, b, hab⟩ := hiff.mpr (by decide)
    rw [hres] at hab
    cases hab

/-- C2, amended.  For every existing entry and every container,
`getDatasetProperties_write` raises the rank-mismatch error if and only if the rank that
`getDatasetProperties_read` reports for the entry, `max(1, on-disk rank)`, differs from the
rank of the container: an entry of on-disk rank 0 is treated as one of rank 1. -/
theorem getDatasetProperties_write_rankMismatch_iff (h : Helpers) (file : H5F)
    (dsetName : String) (data : Container) (dsetExists : Option Bool)
    (desiredLayout : Option H5D_layout_t) (desiredChunkDims : Option (List Nat))
    (desiredCompressionLevel : Option Nat) (e : H5D)
    (he : file dsetName = some e) (hx : dsetExists ≠ some false) :
    (∃ a b, (getDatasetProperties_write h file dsetName data dsetExists desiredLayout
        desiredChunkDims desiredCompressionLevel).result = .error (.rankMismatch a b)) ↔
      max 1 (H5Sget_simple_extent_ndims e.space) ≠ data.getRank := by
  obtain ⟨r, -, p, -, hres⟩ := write_existing h file dsetName data dsetExists desiredLayout
    desiredChunkDims desiredCompressionLevel e he hx
  rw [hres]
  unfold H5Sget_simple_extent_ndims
  by_cases hrank : max 1 e.space.dims.length = data.getRank
  · simp only [hrank, ne_eq, not_true_eq_false, if_false, iff_false]
    rintro ⟨a, b, hab⟩
    cases hty : h.checkEqualTypesRecursive e.dataType data.getH5Type
    · simp [hty] at hab
    · simp only [hty, Bool.true_eq_false, if_false] at hab
      cases hs : sizeChecks e.layout e.space.maxDims data.getDimensions data.getRank 0 with
      | ok u => simp [hs] at hab
      | error err =>
        simp only [hs, Except.error.injEq] at hab
        rcases sizeChecks_error_kind _ _ _ _ _ _ hs with h1 | ⟨i, m, d, h1⟩ | ⟨i, m, d, h1⟩ <;>
          rw [h1] at hab <;> cases hab
  · simp only [hrank, ne_eq, not_false_eq_true, if_true, iff_true]
    exact ⟨_, _, rfl⟩

/-- C2, witness: a scalar dataset and a container of rank 0. -/
theorem getDatasetProperties_write_rankMismatch_iff_witness :
    Examples.fileWith "/s" (Examples.dataset [] [] .H5D_CONTIGUOUS []) "/s"
        = some (Examples.dataset [] [] .H5D_CONTIGUOUS []) ∧
    (none : Option Bool) ≠ some false ∧
    ((∃ a b, (getDatasetProperties_write Examples.helpers
          (Examples.fileWith "/s" (Examples.dataset [] [] .H5D_CONTIGUOUS [])) "/s"
          (Examples.doubles 0 []) none none none none).result
        = .error (.rankMismatch a b)) ↔
      max 1 (H5Sget_simple_extent_ndims (Examples.dataset [] [] .H5D_CONTIGUOUS []).space)
        ≠ (Examples.doubles 0 []).getRank) :=
  ⟨by rfl, by decide,
    getDatasetProperties_write_rankMismatch_iff Examples.helpers
      (Examples.fileWith "/s" (Examples.dataset [] [] .H5D_CONTIGUOUS [])) "/s"
      (Examples.doubles 0 []) none none none none
      (Examples.dataset [] [] .H5D_CONTIGUOUS []) (by rfl) (by decide)⟩

/-- C3.  For every existing entry whose rank, as `getDatasetProperties_read` reports it
(`max(1, on-disk rank)`), matches the rank of the container: when the recursive type
comparison reports that the element type of the entry differs from that of the container,
`getDatasetProperties_write` raises the type-mismatch error, and none of the backend calls
issued up to the error modifies an entry. -/
theorem getDatasetProperties_write_typeMismatch (h : Helpers) (file : H5F)
    (dsetName : String) (data : Container) (dsetExists : Option Bool)
    (desiredLayout : Option H5D_layout_t) (desiredChunkDims : Option (List Nat))
    (desiredCompressionLevel : Option Nat) (e : H5D)
    (he : file dsetName = some e) (hx : dsetExists ≠ some false)
    (hrank : max 1 (H5Sget_simple_extent_ndims e.space) = data.getRank)
    (htype : h.checkEqualTypesRecursive e.dataType data.getH5Type = false) :
    (getDatasetProperties_write h file dsetName data dsetExists desiredLayout
        desiredChunkDims desiredCompressionLevel).result = .error (.typeMismatch dsetName) ∧
    ∀ c ∈ (getDatasetProperties_write h file dsetName data dsetExists desiredLayout
        desiredChunkDims desiredCompressionLevel).calls, c.modifiesEntry = false := by
  refine ⟨?_, write_existing_calls h file dsetName data dsetExists desiredLayout
    desiredChunkDims desiredCompressionLevel e he hx⟩
  obtain ⟨r, -, p, -, hres⟩ := write_existing h file dsetName data dsetExists desiredLayout
    desiredChunkDims desiredCompressionLevel e he hx
  rw [hres]
  unfold H5Sget_simple_extent_ndims at hrank
  simp [hrank, htype]

/-- C3, witness: a 3 x 3 dataset of `double`s written from a 3 x 3 container of `int`s. -/
theorem getDatasetProperties_write_typeMismatch_witness :
    Examples.fileWith "/d" (Examples.dataset [3, 3] [3, 3] .H5D_CONTIGUOUS []) "/d"
        = some (Examples.dataset [3, 3] [3, 3] .H5D_CONTIGUOUS []) ∧
    (none : Option Bool) ≠ some false ∧
    max 1 (H5Sget_simple_extent_ndims
        (Examples.dataset [3, 3] [3, 3] .H5D_CONTIGUOUS []).space)
      = (Examples.ints 2 [3, 3]).getRank ∧
    Examples.helpers.checkEqualTypesRecursive
        (Examples.dataset [3, 3] [3, 3] .H5D_CONTIGUOUS []).dataType
        (Examples.ints 2 [3, 3]).getH5Type = false ∧
    ((getDatasetProperties_write Examples.helpers
        (Examples.fileWith "/d" (Examples.dataset [3, 3] [3, 3] .H5D_CONTIGUOUS [])) "/d"
        (Examples.ints 2 [3, 3]) none none none none).result = .error (.typeMismatch "/d") ∧
      ∀ c ∈ (getDatasetProperties_write Examples.helpers
        (Examples.fileWith "/d" (Examples.dataset [3, 3] [3, 3] .H5D_CONTIGUOUS [])) "/d"
        (Examples.ints 2 [3, 3]) none none none none).calls, c.modifiesEntry = false) :=
  ⟨by rfl, by decide, by decide, by decide,
    getDatasetProperties_write_typeMismatch Examples.helpers
      (Examples.fileWith "/d" (Examples.dataset [3, 3] [3, 3] .H5D_CONTIGUOUS [])) "/d"
      (Examples.ints 2 [3, 3]) none none none none
      (Examples.dataset [3, 3] [3, 3] .H5D_CONTIGUOUS []) (by rfl) (by decide) (by decide)
      (by decide)⟩

/-- C4, counterexample.  A scalar dataset (CONTIGUOUS, on-disk rank 0) written from a
container of rank 1 and extent `[2]` with the same element type passes the rank test of
`getDatasetProperties_write` (`max(1, 0) = 1`) and its type test, and the new extent differs
from the extent of the entry; yet the dimensions-not-equal error is not raised: the loop of
size checks runs for the index 0 and reads the maximum extents, of which there are none,
out of range. -/
theorem getDatasetProperties_write_contiguous_scalar_counterexample :
    Examples.scalarDataset.layout = .H5D_CONTIGUOUS ∧
    max 1 (H5Sget_simple_extent_ndims Examples.scalarDataset.space)
      = (Examples.doubles 1 [2]).getRank ∧
    Examples.helpers.checkEqualTypesRecursive Examples.scalarDataset.dataType
      (Examples.doubles 1 [2]).getH5Type = true ∧
    (getDatasetProperties_write Examples.helpers
        (Examples.fileWith "/s" Examples.scalarDataset) "/s"
        (Examples.doubles 1 [2]) none none none none).result = .error .outOfRange ∧
    ¬ ((∃ i m g, (getDatasetProperties_write Examples.helpers
          (Examples.fileWith "/s" Examples.scalarDataset) "/s"
          (Examples.doubles 1 [2]) none none none none).result
            = .error (.dimensionsNotEqual i m g)) ↔
        ∃ i, i < (Examples.doubles 1 [2]).getRank ∧
          (Examples.doubles 1 [2]).getDimensions[i]?
            ≠ Examples.scalarDataset.space.dims[i]?) := by
  have hres : (getDatasetProperties_write Examples.helpers
      (Examples.fileWith "/s" Examples.scalarDataset) "/s"
      (Examples.doubles 1 [2]) none none none none).result = .error .outOfRange := by rfl
  refine ⟨by rfl, by decide, by decide, hres, ?_⟩
  intro hiff
  obtain ⟨i, m, g, hab⟩ := hiff.mpr ⟨0, by decide, by decide⟩
  rw [hres] at hab
  cases hab

/-- C4, amended.  For every existing CONTIGUOUS entry of on-disk rank at least 1 that
passes the rank test of the code (the rank that `getDatasetProperties_read` reports,
`max(1, on-disk rank)`, is the rank of the container) and whose element type the
comparison accepts, `getDatasetProperties_write` raises the dimensions-not-equal error if
and only if the new extent differs from the extent of the entry in some dimension.  The
code compares with the maximum extent, which for a contiguous dataset is its extent (HDF5
does not let a contiguous dataset grow); no extent is the marker `H5S_UNLIMITED`. -/
theorem getDatasetProperties_write_contiguous_dimensionsNotEqual_iff (h : Helpers)
    (file : H5F) (dsetName : String) (data : Container) (dsetExists : Option Bool)
    (desiredLayout : Option H5D_layout_t) (desiredChunkDims : Option (List Nat))
    (desiredCompressionLevel : Option Nat) (e : H5D)
    (he : file dsetName = some e) (hx : dsetExists ≠ some false)
    (hlayout : e.layout = .H5D_CONTIGUOUS)
    (hpos : 1 ≤ H5Sget_simple_extent_ndims e.space)
    (hrank : max 1 (H5Sget_simple_extent_ndims e.space) = data.getRank)
    (htype : h.checkEqualTypesRecursive e.dataType data.getH5Type = true)
    (hdims : data.getDimensions.length = data.getRank)
    (hmax : e.space.maxDims = e.space.dims)
    (hfinite : ∀ d ∈ e.space.dims, d ≠ H5S_UNLIMITED) :
    (∃ i m g, (getDatasetProperties_write h file dsetName data dsetExists desiredLayout
        desiredChunkDims desiredCompressionLevel).result
          = .error (.dimensionsNotEqual i m g)) ↔
      ∃ i, i < data.getRank ∧ data.getDimensions[i]? ≠ e.space.dims[i]? := by
  obtain ⟨r, -, p, -, hres⟩ := write_existing h file dsetName data dsetExists desiredLayout
    desiredChunkDims desiredCompressionLevel e he hx
  rw [hres]
  unfold H5Sget_simple_extent_ndims at hrank hpos
  have hlen : e.space.dims.length = data.getRank := by
    rw [← hrank]
    exact (max_eq_right hpos).symm
  simp only [hrank, ne_eq, not_true_eq_false, if_false, htype, Bool.true_eq_false]
  rw [hmax, hlayout]
  have hspec := sizeChecks_spec .H5D_CONTIGUOUS e.space.dims data.getDimensions
    data.getRank 0 (by omega) (by intro i _ hi; omega)
  rcases hspec with ⟨hok, hall⟩ | ⟨i, m, d, -, hi, hm, hd, hu, hbad⟩
  · rw [hok]
    constructor
    · rintro ⟨i, m, g, hab⟩
      cases hab
    · rintro ⟨i, hi, hdiff⟩
      exfalso
      have hi1 : i < e.space.dims.length := by omega
      have hi2 : i < data.getDimensions.length := by omega
      have hm : e.space.dims[i]? = some e.space.dims[i] := List.getElem?_eq_getElem hi1
      have hd : data.getDimensions[i]? = some data.getDimensions[i] :=
        List.getElem?_eq_getElem hi2
      have := (hall i (Nat.zero_le _) (by omega) _ _ hm hd
        (hfinite _ (List.getElem_mem hi1))).2 (by decide)
      rw [hm, hd, this] at hdiff
      exact hdiff rfl
  · rcases hbad with ⟨hl, -⟩ | ⟨-, hne, herr⟩
    · cases hl
    · rw [herr]
      constructor
      · intro _
        refine ⟨i, by omega, ?_⟩
        rw [hm, hd]
        intro hsome
        cases hsome
        exact hne rfl
      · intro _
        exact ⟨i, m, d, rfl⟩

/-- C4, witness: the extent `[4,4]` written onto a contiguous entry of extent `[3,3]`
differs from it in dimension 0, so the error is raised. -/
theorem getDatasetProperties_write_contiguous_dimensionsNotEqual_iff_witness :
    Examples.fileWith "/d" (Examples.dataset [3, 3] [3, 3] .H5D_CONTIGUOUS []) "/d"
        = some (Examples.dataset [3, 3] [3, 3] .H5D_CONTIGUOUS []) ∧
    (none : Option Bool) ≠ some false ∧
    1 ≤ H5Sget_simple_extent_ndims
      (Examples.dataset [3, 3] [3, 3] .H5D_CONTIGUOUS []).space ∧
    max 1 (H5Sget_simple_extent_ndims
        (Examples.dataset [3, 3] [3, 3] .H5D_CONTIGUOUS []).space)
      = (Examples.doubles 2 [4, 4]).getRank ∧
    (∃ i m g, (getDatasetProperties_write Examples.helpers
        (Examples.fileWith "/d" (Examples.dataset [3, 3] [3, 3] .H5D_CONTIGUOUS [])) "/d"
        (Examples.doubles 2 [4, 4]) none none none none).result
          = .error (.dimensionsNotEqual i m g)) :=
  ⟨by rfl, by decide, by decide, by decide,
    (getDatasetProperties_write_contiguous_dimensionsNotEqual_iff Examples.helpers
      (Examples.fileWith "/d" (Examples.dataset [3, 3] [3, 3] .H5D_CONTIGUOUS [])) "/d"
      (Examples.doubles 2 [4, 4]) none none none none
      (Examples.dataset [3, 3] [3, 3] .H5D_CONTIGUOUS []) (by rfl) (by decide) (by rfl)
      (by decide) (by decide) (by rfl) (by rfl) (by rfl) (by decide)).mpr
      ⟨0, by decide, by decide⟩⟩

/-- C5.  For every existing CHUNKED entry whose on-disk rank is the rank of the container
and whose element type the comparison accepts: `getDatasetProperties_write` raises the
dimension-too-large error
if and only if the new extent is strictly greater than the maximum extent of the entry in
some dimension whose maximum is bounded; the error names such a dimension; and when the
new extent is less than or equal to the maximum in every bounded dimension the write is
accepted.  A chunked dataset has rank at least 1. -/
theorem getDatasetProperties_write_chunked_dimensionTooLarge_iff (h : Helpers)
    (file : H5F) (dsetName : String) (data : Container) (dsetExists : Option Bool)
    (desiredLayout : Option H5D_layout_t) (desiredChunkDims : Option (List Nat))
    (desiredCompressionLevel : Option Nat) (e : H5D)
    (he : file dsetName = some e) (hx : dsetExists ≠ some false)
    (hlayout : e.layout = .H5D_CHUNKED)
    (hpos : 1 ≤ H5Sget_simple_extent_ndims e.space)
    (hrank : H5Sget_simple_extent_ndims e.space = data.getRank)
    (htype : h.checkEqualTypesRecursive e.dataType data.getH5Type = true)
    (hdims : data.getDimensions.length = data.getRank)
    (hwf : e.space.maxDims.length = e.space.dims.length) :
    ((∃ i m g, (getDatasetProperties_write h file dsetName data dsetExists desiredLayout
        desiredChunkDims desiredCompressionLevel).result
          = .error (.dimensionTooLarge i m g)) ↔
      ∃ (i m g : Nat), e.space.maxDims[i]? = some m ∧ data.getDimensions[i]? = some g ∧
        m ≠ H5S_UNLIMITED ∧ m < g) ∧
    (∀ i m g, (getDatasetProperties_write h file dsetName data dsetExists desiredLayout
        desiredChunkDims desiredCompressionLevel).result
          = .error (.dimensionTooLarge i m g) →
      e.space.maxDims[i]? = some m ∧ data.getDimensions[i]? = some g ∧
        m ≠ H5S_UNLIMITED ∧ m < g) ∧
    ((∀ (i m g : Nat), e.space.maxDims[i]? = some m → data.getDimensions[i]? = some g →
        m ≠ H5S_UNLIMITED → g ≤ m) →
      ∃ p, (getDatasetProperties_write h file dsetName data dsetExists desiredLayout
        desiredChunkDims desiredCompressionLevel).result = .ok p ∧
        p.dims = some data.getDimensions) := by
  obtain ⟨r, -, p, hp, hres⟩ := write_existing h file dsetName data dsetExists desiredLayout
    desiredChunkDims desiredCompressionLevel e he hx
  rw [hres]
  unfold H5Sget_simple_extent_ndims at hrank hpos
  have hmaxeq : max 1 e.space.dims.length = data.getRank := by
    rw [← hrank]
    exact max_eq_right hpos
  simp only [hmaxeq, ne_eq, not_true_eq_false, if_false, htype, Bool.true_eq_false]
  rw [hlayout]
  have hspec := sizeChecks_spec .H5D_CHUNKED e.space.maxDims data.getDimensions
    data.getRank 0 (by omega) (by intro i _ hi; omega)
  have hin : ∀ (i m : Nat), e.space.maxDims[i]? = some m → i < 0 + data.getRank := by
    intro i m hm
    have := (List.getElem?_eq_some_iff.mp hm).1
    omega
  rcases hspec with ⟨hok, hall⟩ | ⟨i, m, d, -, hi, hm, hd, hu, hbad⟩
  · rw [hok]
    refine ⟨⟨?_, ?_⟩, ?_, ?_⟩
    · rintro ⟨i, m, g, hab⟩
      cases hab
    · rintro ⟨i, m, g, hm, hg, hu, hlt⟩
      have := (hall i (Nat.zero_le _) (hin i m hm) m g hm hg hu).1 rfl
      omega
    · intro i m g hab
      cases hab
    · intro _
      exact ⟨p, rfl, hp.2.2.2.2.2.2.2.2.2.1⟩
  · rcases hbad with ⟨-, hlt, herr⟩ | ⟨hl, -⟩
    · rw [herr]
      refine ⟨⟨fun _ => ⟨i, m, d, hm, hd, hu, hlt⟩, fun _ => ⟨i, m, d, rfl⟩⟩, ?_, ?_⟩
      · intro i' m' g' hab
        cases hab
        exact ⟨hm, hd, hu, hlt⟩
      · intro hfine
        have := hfine i m d hm hd hu
        omega
    · exact absurd rfl hl

/-- C5, witness: a chunked entry of extent `[2,10]` and maximum extent `[2,100]`; the
extent `[2,200]` exceeds the maximum in dimension 1. -/
theorem getDatasetProperties_write_chunked_dimensionTooLarge_iff_witness :
    Examples.fileWith "/d" (Examples.dataset [2, 10] [2, 100] .H5D_CHUNKED [2, 10]) "/d"
        = some (Examples.dataset [2, 10] [2, 100] .H5D_CHUNKED [2, 10]) ∧
    (none : Option Bool) ≠ some false ∧
    (∃ i m g, (getDatasetProperties_write Examples.helpers
        (Examples.fileWith "/d" (Examples.dataset [2, 10] [2, 100] .H5D_CHUNKED [2, 10]))
        "/d" (Examples.doubles 2 [2, 200]) none none none none).result
          = .error (.dimensionTooLarge i m g)) :=
  ⟨by rfl, by decide,
    (getDatasetProperties_write_chunked_dimensionTooLarge_iff Examples.helpers
      (Examples.fileWith "/d" (Examples.dataset [2, 10] [2, 100] .H5D_CHUNKED [2, 10]))
      "/d" (Examples.doubles 2 [2, 200]) none none none none
      (Examples.dataset [2, 10] [2, 100] .H5D_CHUNKED [2, 10]) (by rfl) (by decide)
      (by rfl) (by decide) (by rfl) (by rfl) (by rfl) (by rfl)).1.mpr
      ⟨1, 100, 200, by rfl, by rfl, by decide, by decide⟩⟩

/-- C6.  For every existing CHUNKED entry whose dimensions are all unbounded, whose
on-disk rank is the rank of the container and whose element type the comparison accepts,
`getDatasetProperties_write` succeeds for every new extent, and the properties it returns report exactly the new
extent.  A chunked dataset has rank at least 1. -/
theorem getDatasetProperties_write_chunked_unlimited (h : Helpers)
    (file : H5F) (dsetName : String) (data : Container) (dsetExists : Option Bool)
    (desiredLayout : Option H5D_layout_t) (desiredChunkDims : Option (List Nat))
    (desiredCompressionLevel : Option Nat) (e : H5D)
    (he : file dsetName = some e) (hx : dsetExists ≠ some false)
    (hlayout : e.layout = .H5D_CHUNKED)
    (hpos : 1 ≤ H5Sget_simple_extent_ndims e.space)
    (hrank : H5Sget_simple_extent_ndims e.space = data.getRank)
    (htype : h.checkEqualTypesRecursive e.dataType data.getH5Type = true)
    (hwf : e.space.maxDims.length = e.space.dims.length)
    (hunlimited : ∀ m ∈ e.space.maxDims, m = H5S_UNLIMITED) :
    ∃ p, (getDatasetProperties_write h file dsetName data dsetExists desiredLayout
        desiredChunkDims desiredCompressionLevel).result = .ok p ∧
      p.dims = some data.getDimensions ∧ p.layout = some .H5D_CHUNKED := by
  obtain ⟨r, hr, p, hp, hres⟩ := write_existing h file dsetName data dsetExists
    desiredLayout desiredChunkDims desiredCompressionLevel e he hx
  obtain ⟨r', hr', -, -, hl, -⟩ := read_existing file dsetName e he
  rw [hr] at hr'
  cases hr'
  rw [hres]
  unfold H5Sget_simple_extent_ndims at hrank hpos
  have hmaxeq : max 1 e.space.dims.length = data.getRank := by
    rw [← hrank]
    exact max_eq_right hpos
  simp only [hmaxeq, ne_eq, not_true_eq_false, if_false, htype, Bool.true_eq_false]
  rw [sizeChecks_unlimited e.layout e.space.maxDims data.getDimensions data.getRank 0
    (by omega) hunlimited]
  refine ⟨p, rfl, hp.2.2.2.2.2.2.2.2.2.1, ?_⟩
  rw [hp.2.2.2.1, hl, hlayout]

/-- C6, witness: an entry of extent `[2,10]`, unbounded in both dimensions, accepts the
extent `[2,20]`. -/
theorem getDatasetProperties_write_chunked_unlimited_witness :
    Examples.fileWith "/d"
        (Examples.dataset [2, 10] [H5S_UNLIMITED, H5S_UNLIMITED] .H5D_CHUNKED [2, 10]) "/d"
      = some (Examples.dataset [2, 10] [H5S_UNLIMITED, H5S_UNLIMITED] .H5D_CHUNKED [2, 10]) ∧
    (none : Option Bool) ≠ some false ∧
    ∃ p, (getDatasetProperties_write Examples.helpers
        (Examples.fileWith "/d"
          (Examples.dataset [2, 10] [H5S_UNLIMITED, H5S_UNLIMITED] .H5D_CHUNKED [2, 10]))
        "/d" (Examples.doubles 2 [2, 20]) none none none none).result = .ok p ∧
      p.dims = some [2, 20] ∧ p.layout = some .H5D_CHUNKED :=
  ⟨by rfl, by decide,
    getDatasetProperties_write_chunked_unlimited Examples.helpers
      (Examples.fileWith "/d"
        (Examples.dataset [2, 10] [H5S_UNLIMITED, H5S_UNLIMITED] .H5D_CHUNKED [2, 10]))
      "/d" (Examples.doubles 2 [2, 20]) none none none none
      (Examples.dataset [2, 10] [H5S_UNLIMITED, H5S_UNLIMITED] .H5D_CHUNKED [2, 10])
      (by rfl) (by decide) (by rfl) (by decide) (by rfl) (by rfl) (by rfl)
      (by decide)⟩

/-- C7, counterexample.  For a name that resolves to no entry, `getDatasetProperties_read`
does not fail: it returns properties that hold the name and `dsetExists = false`. -/
theorem getDatasetProperties_read_missing_counterexample :
    (getDatasetProperties_read Examples.emptyFile "/does/not/exist" none).result
      = .ok { dsetName := some "/does/not/exist", dsetExists := some false } := by
  rfl

/-- C7, amended.  For every name that does not resolve to an existing entry (the caller
not passing `dsetExists = true`), `getDatasetProperties_read` raises no error: it returns
properties in which only the name and `dsetExists = false` are set, and it opens no
object. -/
theorem getDatasetProperties_read_missing (file : H5F) (dsetName : String)
    (dsetExists : Option Bool) (hmissing : file dsetName = none)
    (hx : dsetExists ≠ some true) :
    (getDatasetProperties_read file dsetName dsetExists).result
      = .ok { dsetName := some dsetName, dsetExists := some false } ∧
    H5Call.openObject ∉ (getDatasetProperties_read file dsetName dsetExists).calls := by
  cases dsetExists with
  | none =>
    simp [getDatasetProperties_read, hdf5.checkIfDatasetExists, hmissing, Outcome.bind_eq,
      Outcome.pure_eq, Outcome.ret, Outcome.call, Outcome.andThen]
  | some known =>
    cases known with
    | true => exact absurd rfl hx
    | false =>
      simp [getDatasetProperties_read, hdf5.checkIfDatasetExists, Outcome.bind_eq,
        Outcome.pure_eq, Outcome.ret, Outcome.andThen]

/-- C7, witness: the name `/does/not/exist` in a file without datasets. -/
theorem getDatasetProperties_read_missing_witness :
    Examples.emptyFile "/does/not/exist" = none ∧ (none : Option Bool) ≠ some true ∧
    (getDatasetProperties_read Examples.emptyFile "/does/not/exist" none).result
      = .ok { dsetName := some "/does/not/exist", dsetExists := some false } ∧
    H5Call.openObject ∉
      (getDatasetProperties_read Examples.emptyFile "/does/not/exist" none).calls :=
  ⟨by rfl, by decide,
    getDatasetProperties_read_missing Examples.emptyFile "/does/not/exist" none (by rfl)
      (by decide)⟩

/-- C8.  When the entry does not exist (it is known not to exist, or nothing is known and
the name resolves to no entry), `getDatasetProperties_write` returns exactly what
`getDatasetProperties_bootstrap` returns for the same arguments, after the same backend
calls. -/
theorem getDatasetProperties_write_eq_bootstrap (h : Helpers) (file : H5F)
    (dsetName : String) (data : Container) (dsetExists : Option Bool)
    (desiredLayout : Option H5D_layout_t) (desiredChunkDims : Option (List Nat))
    (desiredCompressionLevel : Option Nat)
    (hnot : dsetExists = some false ∨ (dsetExists = none ∧ file dsetName = none)) :
    getDatasetProperties_write h file dsetName data dsetExists desiredLayout
        desiredChunkDims desiredCompressionLevel
      = getDatasetProperties_bootstrap h file dsetName data dsetExists desiredLayout
        desiredChunkDims desiredCompressionLevel := by
  rcases hnot with rfl | ⟨rfl, hmissing⟩
  · simp [getDatasetProperties_write, getDatasetProperties_bootstrap,
      hdf5.checkIfLinkExists, Outcome.bind_eq, Outcome.pure_eq]
  · simp [getDatasetProperties_write, getDatasetProperties_bootstrap,
      hdf5.checkIfLinkExists, hmissing, Outcome.bind_eq, Outcome.pure_eq, Outcome.call,
      Outcome.andThen, Outcome.ret]

/-- C8, witness: a 3 x 3 container of `double`s written to a file without datasets. -/
theorem getDatasetProperties_write_eq_bootstrap_witness :
    ((none : Option Bool) = some false ∨
      ((none : Option Bool) = none ∧ Examples.emptyFile "/new" = none)) ∧
    getDatasetProperties_write Examples.helpers Examples.emptyFile "/new"
        (Examples.doubles 2 [3, 3]) none (some .H5D_CHUNKED) (some [1, 3]) (some 5)
      = getDatasetProperties_bootstrap Examples.helpers Examples.emptyFile "/new"
        (Examples.doubles 2 [3, 3]) none (some .H5D_CHUNKED) (some [1, 3]) (some 5) :=
  ⟨Or.inr ⟨rfl, rfl⟩,
    getDatasetProperties_write_eq_bootstrap Examples.helpers Examples.emptyFile "/new"
      (Examples.doubles 2 [3, 3]) none (some .H5D_CHUNKED) (some [1, 3]) (some 5)
      (Or.inr ⟨rfl, rfl⟩)⟩

/-- C9, counterexample.  A dataset that holds a string of one byte is overwritten with a
string of five characters (the comparison of datatypes being exact).  The write
succeeds, and the element type it returns, the datatype of the container with its size
fixed to the length of the string, is not the element type that
`getDatasetProperties_read` reports for the entry. -/
theorem getDatasetProperties_write_elementType_counterexample :
    ∃ p r, (getDatasetProperties_write Examples.helpers
          (Examples.fileWith "/t" Examples.textDataset) "/t" (Examples.text 5)
          none none none none).result = .ok p ∧
      (getDatasetProperties_read (Examples.fileWith "/t" Examples.textDataset) "/t"
          (some true)).result = .ok r ∧
      p.dataType = some { cls := .H5T_STRING, size := 5 } ∧
      r.dataType = some { cls := .H5T_STRING, size := 1 } ∧
      p.dataType ≠ r.dataType := by
  refine ⟨_, _, rfl, rfl, rfl, rfl, by decide⟩

/-- C9, amended.  For every successful `getDatasetProperties_write` on an existing entry,
the layout and the chunk extent returned are those that `getDatasetProperties_read`
reports for the entry, whatever `desiredLayout` and `desiredChunkDims` were passed (the
result does not depend on them).  The element type returned is not copied from the entry:
it is the datatype of the container as `setStringSize` leaves it, where the recursive
comparison has accepted the datatype of the container against that of the entry; it is
the element type of the entry when that comparison is exact and `setStringSize` leaves
the datatype alone.  The extent, the element count, the byte count and the two selections
are derived from the data. -/
theorem getDatasetProperties_write_existing_frame (h : Helpers) (file : H5F)
    (dsetName : String) (data : Container) (dsetExists : Option Bool)
    (desiredLayout : Option H5D_layout_t) (desiredChunkDims : Option (List Nat))
    (desiredCompressionLevel : Option Nat) (e : H5D) (p : DatasetProperties)
    (he : file dsetName = some e) (hx : dsetExists ≠ some false)
    (hp : (getDatasetProperties_write h file dsetName data dsetExists desiredLayout
        desiredChunkDims desiredCompressionLevel).result = .ok p) :
    ∃ r, (getDatasetProperties_read file dsetName (some true)).result = .ok r ∧
      p.layout = r.layout ∧ p.chunkDims = r.chunkDims ∧
      (∀ desiredLayout' desiredChunkDims',
        (getDatasetProperties_write h file dsetName data dsetExists desiredLayout'
          desiredChunkDims' desiredCompressionLevel).result = .ok p) ∧
      (∃ t, r.dataType = some t ∧ h.checkEqualTypesRecursive t data.getH5Type = true) ∧
      p.dataType = some (data.setStringSize data.getH5Type).2 ∧
      ((∀ a b, h.checkEqualTypesRecursive a b = true → a = b) →
        (data.setStringSize data.getH5Type).2 = data.getH5Type →
        p.dataType = r.dataType) ∧
      p.dims = some data.getDimensions ∧
      p.size = some (data.setStringSize data.getH5Type).1 ∧
      p.bytes = some data.getBytesTotal ∧
      p.memSpace = some (h.getMemSpace (data.setStringSize data.getH5Type).1
        data.getRank data.getDimensions) ∧
      p.dataSpace = some (h.setDataSpaceExtent { p with
        dataSpace := some (h.getDataSpace (data.setStringSize data.getH5Type).1
          data.getRank data.getDimensions e.layout) }) := by
  obtain ⟨r, hr, q, hq, hres⟩ := write_existing h file dsetName data dsetExists
    desiredLayout desiredChunkDims desiredCompressionLevel e he hx
  obtain ⟨r', hr', -, hty, -⟩ := read_existing file dsetName e he
  rw [hr] at hr'
  cases hr'
  rw [hres] at hp
  have hover : ∀ desiredLayout' desiredChunkDims',
      (getDatasetProperties_write h file dsetName data dsetExists desiredLayout'
        desiredChunkDims' desiredCompressionLevel).result = .ok p := by
    intro desiredLayout' desiredChunkDims'
    rw [write_existing_overrides h file dsetName data dsetExists desiredLayout'
      desiredLayout desiredChunkDims' desiredChunkDims desiredCompressionLevel
      desiredCompressionLevel e he hx, hres]
    exact hp
  by_cases hrank : max 1 e.space.dims.length = data.getRank
  · cases htype : h.checkEqualTypesRecursive e.dataType data.getH5Type
    · simp [hrank, htype] at hp
    · simp only [hrank, htype, ne_eq, not_true_eq_false, if_false, Bool.true_eq_false]
        at hp
      cases hs : sizeChecks e.layout e.space.maxDims data.getDimensions data.getRank 0 with
      | error err => simp [hs] at hp
      | ok u =>
        simp only [hs, Except.ok.injEq] at hp
        subst hp
        obtain ⟨-, -, -, h4, h5, -, -, h8, -, h10, h11, h12, h13, -, h15⟩ := hq
        refine ⟨r, hr, h4, h5, hover, ⟨e.dataType, hty, htype⟩, h8, ?_, h10, h11, h12, h13,
          h15⟩
        intro hexact hsame
        rw [h8, hsame, hty, hexact _ _ htype]
  · simp [hrank] at hp

/-- C9, witness: a chunked entry of extent `[2,10]` overwritten with the extent
`[2,20]`. -/
theorem getDatasetProperties_write_existing_frame_witness :
    Examples.fileWith "/d"
        (Examples.dataset [2, 10] [H5S_UNLIMITED, H5S_UNLIMITED] .H5D_CHUNKED [2, 10]) "/d"
      = some (Examples.dataset [2, 10] [H5S_UNLIMITED, H5S_UNLIMITED] .H5D_CHUNKED [2, 10]) ∧
    (none : Option Bool) ≠ some false ∧
    ∃ p, (getDatasetProperties_write Examples.helpers
        (Examples.fileWith "/d"
          (Examples.dataset [2, 10] [H5S_UNLIMITED, H5S_UNLIMITED] .H5D_CHUNKED [2, 10]))
        "/d" (Examples.doubles 2 [2, 20]) none (some .H5D_CONTIGUOUS) (some [1, 1])
        none).result = .ok p ∧
      ∃ r, (getDatasetProperties_read
          (Examples.fileWith "/d"
            (Examples.dataset [2, 10] [H5S_UNLIMITED, H5S_UNLIMITED] .H5D_CHUNKED [2, 10]))
          "/d" (some true)).result = .ok r ∧
        p.layout = r.layout ∧ p.chunkDims = r.chunkDims :=
  ⟨by rfl, by decide, _, by rfl,
    (getDatasetProperties_write_existing_frame Examples.helpers
      (Examples.fileWith "/d"
        (Examples.dataset [2, 10] [H5S_UNLIMITED, H5S_UNLIMITED] .H5D_CHUNKED [2, 10]))
      "/d" (Examples.doubles 2 [2, 20]) none (some .H5D_CONTIGUOUS) (some [1, 1]) none
      (Examples.dataset [2, 10] [H5S_UNLIMITED, H5S_UNLIMITED] .H5D_CHUNKED [2, 10]) _
      (by rfl) (by decide) (by rfl)).imp fun _ hr => ⟨hr.1, hr.2.1, hr.2.2.1⟩⟩

end scan

/-! ## Lemmas on Eigen matrices and on `h5ppFile.h` -/

namespace Outcome

theorem andThen_result_ok {α β : Type} {x : Outcome α} {f : α → Outcome β} {b : β}
    (hb : (x.andThen f).result = .ok b) : ∃ a, x.result = .ok a ∧ (f a).result = .ok b := by
  unfold andThen at hb
  cases hx : x.result with
  | ok a =>
    rw [hx] at hb
    exact ⟨a, rfl, hb⟩
  | error e =>
    rw [hx] at hb
    cases hb

theorem tryCatch_result_ok {α : Type} {body : Outcome α} {handler : Error → Outcome α}
    {b : α} (hhandler : ∀ ex, (handler ex).result ≠ .ok b)
    (hb : (body.tryCatch handler).result = .ok b) : body.result = .ok b := by
  unfold tryCatch at hb
  cases hx : body.result with
  | ok a =>
    simp only [hx] at hb
    exact hb
  | error e =>
    rw [hx] at hb
    cases e with
    | outOfRange =>
      simp only at hb
      rw [hx] at hb
      cases hb
    | _ => exact absurd hb (hhandler _)

theorem andThen_ok_mem {α β : Type} {x : Outcome α} {f : α → Outcome β} {b : β}
    {c : H5Call} {P : Prop} (hb : (x.andThen f).result = .ok b)
    (hf : ∀ a, x.result = .ok a → (f a).result = .ok b → P ∧ c ∈ (f a).calls) :
    P ∧ c ∈ (x.andThen f).calls := by
  obtain ⟨a, hx, hfa⟩ := andThen_result_ok hb
  obtain ⟨hP, hc⟩ := hf a hx hfa
  refine ⟨hP, ?_⟩
  rw [andThen_calls_of_ok f hx]
  exact List.mem_append_right _ hc

theorem andThen_ok_mem_left {α β : Type} {x : Outcome α} {f : α → Outcome β} {b : β}
    {c : H5Call} {P : Prop} (hb : (x.andThen f).result = .ok b)
    (hx : ∀ a, x.result = .ok a → (f a).result = .ok b → P ∧ c ∈ x.calls) :
    P ∧ c ∈ (x.andThen f).calls := by
  obtain ⟨a, hxa, hfa⟩ := andThen_result_ok hb
  obtain ⟨hP, hc⟩ := hx a hxa hfa
  refine ⟨hP, ?_⟩
  rw [andThen_calls_of_ok f hxa]
  exact List.mem_append_left _ hc

theorem tryCatch_of_ok {α : Type} {body : Outcome α} {handler : Error → Outcome α} {b : α}
    (hb : body.result = .ok b) : body.tryCatch handler = body := by
  simp only [tryCatch, hb]

end Outcome

namespace Eigen

theorem map_some_filterMap {α β : Type} (l : List β) (f : β → Option α)
    (h : ∀ x ∈ l, (f x).isSome = true) : (l.filterMap f).map some = l.map f := by
  induction l with
  | nil => rfl
  | cons x xs ih =>
    have hx := h x (List.mem_cons_self x xs)
    obtain ⟨y, hy⟩ := Option.isSome_iff_exists.mp hx
    have ih' := ih (fun z hz => h z (List.mem_cons_of_mem x hz))
    simp [List.filterMap_cons, hy, ih']

theorem length_filterMap_range {α : Type} (n : Nat) (f : Nat → Option α)
    (h : ∀ k, k < n → (f k).isSome = true) : ((List.range n).filterMap f).length = n := by
  have hm := map_some_filterMap (List.range n) f (fun x hx => h x (List.mem_range.mp hx))
  have hl := congrArg List.length hm
  simpa using hl

theorem getElem?_filterMap_range {α : Type} (n : Nat) (f : Nat → Option α)
    (h : ∀ k, k < n → (f k).isSome = true) (k : Nat) (hk : k < n) :
    ((List.range n).filterMap f)[k]? = f k := by
  have hm := map_some_filterMap (List.range n) f (fun x hx => h x (List.mem_range.mp hx))
  have hk' := congrArg (fun l => l[k]?) hm
  simp only [List.getElem?_map, List.getElem?_range hk, Option.map_some'] at hk'
  obtain ⟨y, hy⟩ := Option.isSome_iff_exists.mp (h k hk)
  rw [hy] at hk' ⊢
  cases hv : ((List.range n).filterMap f)[k]? with
  | none => simp [hv] at hk'
  | some z =>
    simp only [hv, Option.map_some', Option.some.injEq] at hk'
    rw [hk']

theorem index_lt {i j rows cols : Nat} (hi : i < rows) (hj : j < cols) :
    i * cols + j < rows * cols := by
  have h1 : (i + 1) * cols ≤ rows * cols := Nat.mul_le_mul_right cols hi
  have h2 : (i + 1) * cols = i * cols + cols := Nat.succ_mul i cols
  omega

theorem position_lt (IsRowMajor : Bool) {rows cols k : Nat} (hk : k < rows * cols) :
    (Matrix.position IsRowMajor rows cols k).1 < rows ∧
      (Matrix.position IsRowMajor rows cols k).2 < cols := by
  have hr : 0 < rows := Nat.pos_of_ne_zero (by rintro rfl; simp at hk)
  have hc : 0 < cols := Nat.pos_of_ne_zero (by rintro rfl; simp at hk)
  cases IsRowMajor with
  | true =>
    simp only [Matrix.position, if_true]
    exact ⟨Nat.div_lt_of_lt_mul (by rw [Nat.mul_comm]; exact hk), Nat.mod_lt _ hc⟩
  | false =>
    simp only [Matrix.position, Bool.false_eq_true, if_false]
    exact ⟨Nat.mod_lt _ hr, Nat.div_lt_of_lt_mul hk⟩

theorem coeff_isSome {α : Type} (m : Matrix α) (hlen : m.data.length = m.rows * m.cols)
    {i j : Nat} (hi : i < m.rows) (hj : j < m.cols) : (m.coeff i j).isSome = true := by
  unfold Matrix.coeff
  split
  · have := index_lt hi hj
    rw [Option.isSome_iff_exists]
    exact ⟨_, List.getElem?_eq_getElem (by omega)⟩
  · have := index_lt hj hi
    have hcomm := Nat.mul_comm m.cols m.rows
    rw [Option.isSome_iff_exists]
    exact ⟨_, List.getElem?_eq_getElem (by omega)⟩

theorem assign_data_length {α : Type} (IsRowMajor : Bool) (src : Matrix α)
    (hlen : src.data.length = src.rows * src.cols) :
    (Matrix.assign IsRowMajor src).data.length = src.rows * src.cols := by
  unfold Matrix.assign
  exact length_filterMap_range _ _ (fun k hk =>
    coeff_isSome src hlen (position_lt IsRowMajor hk).1 (position_lt IsRowMajor hk).2)

theorem assign_data_getElem? {α : Type} (IsRowMajor : Bool) (src : Matrix α)
    (hlen : src.data.length = src.rows * src.cols) {k : Nat}
    (hk : k < src.rows * src.cols) :
    (Matrix.assign IsRowMajor src).data[k]?
      = src.coeff (Matrix.position IsRowMajor src.rows src.cols k).1
          (Matrix.position IsRowMajor src.rows src.cols k).2 := by
  unfold Matrix.assign
  exact getElem?_filterMap_range _ _ (fun k hk =>
    coeff_isSome src hlen (position_lt IsRowMajor hk).1 (position_lt IsRowMajor hk).2) k hk

/-- The storage of the row-major copy of a matrix holds `m(i, j)` at position
`i * cols + j`. -/
theorem assign_rowMajor_getElem? {α : Type} (src : Matrix α)
    (hlen : src.data.length = src.rows * src.cols) {i j : Nat}
    (hi : i < src.rows) (hj : j < src.cols) :
    (Matrix.assign true src).data[i * src.cols + j]? = src.coeff i j := by
  rw [assign_data_getElem? true src hlen (index_lt hi hj)]
  have hc : 0 < src.cols := by omega
  have h1 : (i * src.cols + j) / src.cols = i := by
    rw [Nat.add_comm, Nat.add_mul_div_right _ _ hc, Nat.div_eq_of_lt hj, Nat.zero_add]
  have h2 : (i * src.cols + j) % src.cols = j := by
    rw [Nat.add_comm, Nat.add_mul_mod_self_right, Nat.mod_eq_of_lt hj]
  simp only [Matrix.position, if_true, h1, h2]

/-- A column-major matrix is recovered from a row-major buffer that holds its
coefficients. -/
theorem assign_colMajor_ofRowMajorBuffer {α : Type} (m : Matrix α) (buffer : List α)
    (hcol : m.IsRowMajor = false) (hlen : m.data.length = m.rows * m.cols)
    (hbuf : buffer.length = m.rows * m.cols)
    (hcoeff : ∀ i j, i < m.rows → j < m.cols → buffer[i * m.cols + j]? = m.coeff i j) :
    Matrix.assign false (Matrix.ofRowMajorBuffer m.rows m.cols buffer) = m := by
  have hdata : (Matrix.assign false (Matrix.ofRowMajorBuffer m.rows m.cols buffer)).data
      = m.data := by
    apply List.ext_getElem?
    intro k
    by_cases hk : k < m.rows * m.cols
    · have hpos := position_lt false hk
      rw [assign_data_getElem? false (Matrix.ofRowMajorBuffer m.rows m.cols buffer)
        (by simpa [Matrix.ofRowMajorBuffer] using hbuf)
        (by simpa [Matrix.ofRowMajorBuffer] using hk)]
      simp only [Matrix.position, Bool.false_eq_true, if_false, Matrix.ofRowMajorBuffer,
        Matrix.coeff, if_true] at hpos ⊢
      rw [hcoeff _ _ hpos.1 hpos.2]
      simp only [Matrix.coeff, hcol, Bool.false_eq_true, if_false]
      rw [Nat.mul_comm (k / m.rows) m.rows, Nat.mod_add_div]
    · have h1 : (Matrix.assign false
          (Matrix.ofRowMajorBuffer m.rows m.cols buffer)).data.length ≤ k := by
        rw [assign_data_length false _ (by simpa [Matrix.ofRowMajorBuffer] using hbuf)]
        simp only [Matrix.ofRowMajorBuffer]
        omega
      rw [List.getElem?_eq_none h1, List.getElem?_eq_none (by omega)]
  cases m with
  | mk isRowMajor rows cols data =>
    simp only at hcol hdata
    subst hcol
    simp only [Matrix.assign, Matrix.ofRowMajorBuffer] at hdata ⊢
    rw [hdata]

end Eigen

namespace File

theorem writeDatasetProps_ok {α : Type} (self : File) (lib : Hdf5) (buffer : List α)
    (new_dsetSize : Nat) (props : DatasetProperties) (H5Dwrite : List α → Bool)
    (written : List α)
    (hw : (self.writeDatasetProps lib buffer new_dsetSize props H5Dwrite).result
      = .ok written) :
    (written = buffer ∧ H5Dwrite buffer = true) ∧
      H5Call.H5Dwrite ∈
        (self.writeDatasetProps lib buffer new_dsetSize props H5Dwrite).calls := by
  simp only [writeDatasetProps, Outcome.bind_eq, Outcome.pure_eq] at hw ⊢
  refine Outcome.andThen_ok_mem hw fun file _ hw => ?_
  refine Outcome.andThen_ok_mem hw fun _ _ hw => ?_
  refine Outcome.andThen_ok_mem hw fun _ _ hw => ?_
  refine Outcome.andThen_ok_mem hw fun dataset _ hw => ?_
  refine Outcome.andThen_ok_mem hw fun _ _ hw => ?_
  refine Outcome.andThen_ok_mem hw fun _ _ hw => ?_
  refine Outcome.andThen_ok_mem_left hw fun w hbody hw => ?_
  obtain ⟨_, -, hw⟩ := Outcome.andThen_result_ok hw
  obtain ⟨_, -, hw⟩ := Outcome.andThen_result_ok hw
  simp only [Outcome.ret, Except.ok.injEq] at hw
  subst hw
  have hbody' := Outcome.tryCatch_result_ok (by
    intro ex hok
    obtain ⟨_, -, hok⟩ := Outcome.andThen_result_ok hok
    obtain ⟨_, -, hok⟩ := Outcome.andThen_result_ok hok
    cases hok) hbody
  rw [Outcome.tryCatch_of_ok hbody']
  refine Outcome.andThen_ok_mem hbody' fun _ _ hb => ?_
  simp only [Outcome.call_andThen] at hb ⊢
  cases hacc : H5Dwrite buffer with
  | false =>
    rw [hacc] at hb
    simp [Outcome.andThen, Outcome.raise] at hb
  | true =>
    rw [hacc] at hb
    simp [Outcome.andThen, Outcome.ret] at hb
    exact ⟨⟨hb.symm, rfl⟩, List.mem_cons_self _ _⟩

theorem writeDataset_ok {α : Type} (self : File) (lib : Hdf5)
    (max_size_contiguous : Nat) (is_eigen_1d : Bool) (data : Eigen.Matrix α)
    (info : Container) (datasetPath : String) (extendable : Option Bool)
    (H5Dwrite : List α → Bool) (staged : List α)
    (hw : (self.writeDataset lib max_size_contiguous is_eigen_1d data info datasetPath
      extendable H5Dwrite).result = .ok staged) :
    (staged = (if is_eigen_1d then data.data else (Textra.to_RowMajor data).data) ∧
      H5Dwrite staged = true) ∧
    H5Call.H5Dwrite ∈ (self.writeDataset lib max_size_contiguous is_eigen_1d data info
      datasetPath extendable H5Dwrite).calls := by
  simp only [writeDataset, Outcome.bind_eq, Outcome.pure_eq] at hw ⊢
  split at hw
  · cases hw
  · rename_i hro
    rw [if_neg hro]
    refine Outcome.andThen_ok_mem hw fun linkExists _ hw => ?_
    refine Outcome.andThen_ok_mem hw fun ext _ hw => ?_
    cases is_eigen_1d with
    | false =>
      simp only [Bool.false_eq_true, not_false_eq_true, if_true, if_false] at hw ⊢
      obtain ⟨⟨h1, h2⟩, h3⟩ := writeDatasetProps_ok _ _ _ _ _ _ _ hw
      subst h1
      exact ⟨⟨rfl, h2⟩, h3⟩
    | true =>
      simp only [not_true_eq_false, if_false, if_true] at hw ⊢
      by_cases hstr : info.getH5Type.cls = .H5T_STRING
      · rw [if_pos hstr] at hw ⊢
        obtain ⟨⟨h1, h2⟩, h3⟩ := writeDatasetProps_ok _ _ _ _ _ _ _ hw
        subst h1
        exact ⟨⟨rfl, h2⟩, h3⟩
      · rw [if_neg hstr] at hw ⊢
        obtain ⟨⟨h1, h2⟩, h3⟩ := writeDatasetProps_ok _ _ _ _ _ _ _ hw
        subst h1
        exact ⟨⟨rfl, h2⟩, h3⟩

theorem writeDataset_new_outcome {α : Type} (self : File) (lib : Hdf5)
    (max_size_contiguous : Nat) (is_eigen_1d : Bool) (data : Eigen.Matrix α)
    (info : Container) (datasetPath : String) (extendable : Option Bool)
    (H5Dwrite : List α → Bool) (file : H5F)
    (hmode : self.accessMode = .READWRITE) (hinit : self.hasInitialized = true)
    (hopen : lib.H5Fopen = some file) (hclose : lib.H5Fclose = true)
    (hnew : file datasetPath = none) :
    ∃ ext : Bool, self.writeDataset lib max_size_contiguous is_eigen_1d data info
        datasetPath extendable H5Dwrite =
      ⟨[.H5Fopen, .checkIfLinkExists, .H5Fclose, .H5Tclose, .H5Fopen, .createDatasetLink]
          ++ (if ext then [.setExtentDataset] else [])
          ++ [.openLink, .H5Dget_space, .select_hyperslab, .H5Dwrite, .closeLink, .H5Fclose],
        if H5Dwrite (if is_eigen_1d then data.data else (Textra.to_RowMajor data).data) then
          .ok (if is_eigen_1d then data.data else (Textra.to_RowMajor data).data)
        else .error (.runtime ("Write to file failed [" ++ datasetPath ++ "]: "
          ++ "Failed to write data to file"))⟩ := by
  have hopen' : self.openFileHandle lib = Outcome.call .H5Fopen file := by
    simp [openFileHandle, hinit, hopen]
  have hclose' : closeFileHandle lib = Outcome.call .H5Fclose () := by
    simp [closeFileHandle, hclose]
  have hlink : self.linkExists lib datasetPath
      = ⟨[.H5Fopen, .checkIfLinkExists, .H5Fclose], .ok false⟩ := by
    simp [linkExists, hopen', hclose', Hdf5.checkIfLinkExistsRecursively, hnew,
      Outcome.bind_eq, Outcome.pure_eq, Outcome.call, Outcome.andThen, Outcome.ret]
  obtain ⟨ext, hext⟩ : ∃ ext, self.determineIfExtendable lib
      max_size_contiguous info datasetPath extendable (some false)
        = ⟨[.H5Tclose], .ok ext⟩ := by
    simp only [determineIfExtendable, Outcome.bind_eq, Outcome.pure_eq, Outcome.ret_andThen,
      Outcome.call_andThen, Bool.false_eq_true, if_false]
    simp only [Outcome.ret]
    split_ifs <;> exact ⟨_, rfl⟩
  have hprops : ∀ (buffer : List α) (n : Nat) (props : DatasetProperties),
      props.linkExists = false → props.dsetName = datasetPath →
      self.writeDatasetProps lib buffer n props H5Dwrite =
        ⟨[.H5Fopen, .createDatasetLink]
            ++ (if props.extendable then [.setExtentDataset] else [])
            ++ [.openLink, .H5Dget_space, .select_hyperslab, .H5Dwrite, .closeLink,
              .H5Fclose],
          if H5Dwrite buffer then .ok buffer
          else .error (.runtime
            ("Write to file failed [" ++ datasetPath ++ "]: "
              ++ "Failed to write data to file"))⟩ := by
    intro buffer n props hl hn
    simp only [writeDatasetProps, hopen', hclose', hl, hn, hnew, Outcome.bind_eq,
      Outcome.pure_eq]
    by_cases he : props.extendable = true <;> cases hacc : H5Dwrite buffer <;>
      simp [he, hnew, hacc, Outcome.call, Outcome.andThen, Outcome.ret, Outcome.tryCatch,
        Outcome.raise, Error.what]
  have hro : ¬ (self.accessMode = .READONLY) := by
    rw [hmode]
    decide
  refine ⟨ext, ?_⟩
  simp only [writeDataset, if_neg hro, hlink, Outcome.bind_eq, Outcome.pure_eq,
    Outcome.andThen, hext]
  cases is_eigen_1d with
  | false =>
    simp only [Bool.false_eq_true, not_false_eq_true, if_true, if_false]
    rw [hprops _ _ _ rfl rfl]
    simp
  | true =>
    simp only [not_true_eq_false, if_false, if_true]
    by_cases hstr : info.getH5Type.cls = .H5T_STRING
    · rw [if_pos hstr, hprops _ _ _ rfl rfl]
      simp
    · rw [if_neg hstr, hprops _ _ _ rfl rfl]
      simp

theorem readDataset_colMajor_outcome {α : Type} (self : File) (lib : Hdf5)
    (buffer : List α) (datasetPath : String) (file : H5F) (d : H5D) (rows cols : Nat)
    (hinit : self.hasInitialized = true)
    (hopen : lib.H5Fopen = some file) (hclose : lib.H5Fclose = true)
    (hd : file datasetPath = some d) (hdims : d.space.dims = [rows, cols]) :
    self.readDataset lib (some buffer) false datasetPath
      = ⟨[.H5Fopen, .openLink, .H5Dget_space, .H5Dget_type, .H5Sget_simple_extent_ndims,
          .H5Sget_simple_extent_dims, .H5LTread_dataset, .H5Tclose, .closeLink, .H5Fclose],
        .ok (Eigen.Matrix.assign false (Eigen.Matrix.ofRowMajorBuffer rows cols buffer))⟩ := by
  have hopen' : self.openFileHandle lib = Outcome.call .H5Fopen file := by
    simp [openFileHandle, hinit, hopen]
  have hclose' : closeFileHandle lib = Outcome.call .H5Fclose () := by
    simp [closeFileHandle, hclose]
  simp [readDataset, hopen', hclose', Hdf5.openLink, hd, hdims, H5Sget_simple_extent_ndims,
    H5Sget_simple_extent_dims, fillBuffer, Outcome.bind_eq, Outcome.pure_eq, Outcome.call,
    Outcome.andThen, Outcome.ret, Outcome.tryCatch]

theorem staged_rowMajor {α : Type} (is_eigen_1d : Bool) (M : Eigen.Matrix α)
    (hcol : M.IsRowMajor = false) (hlen : M.data.length = M.rows * M.cols)
    (h1d : is_eigen_1d = true → M.rows = 1 ∨ M.cols = 1) :
    (if is_eigen_1d then M.data else (Textra.to_RowMajor M).data).length = M.rows * M.cols ∧
      ∀ i j, i < M.rows → j < M.cols →
        (if is_eigen_1d then M.data else (Textra.to_RowMajor M).data)[i * M.cols + j]?
          = M.coeff i j := by
  cases is_eigen_1d with
  | false =>
    simp only [Bool.false_eq_true, if_false]
    exact ⟨Eigen.assign_data_length true M hlen,
      fun i j hi hj => Eigen.assign_rowMajor_getElem? M hlen hi hj⟩
  | true =>
    simp only [if_true]
    refine ⟨hlen, fun i j hi hj => ?_⟩
    simp only [Eigen.Matrix.coeff, hcol, Bool.false_eq_true, if_false]
    rcases h1d rfl with h1 | h1
    · have hi0 : i = 0 := by omega
      subst hi0
      simp [h1]
    · have hj0 : j = 0 := by omega
      subst hj0
      simp [h1]

theorem fillBuffer_replicate (vals : List Nat) (n : Nat) (hn : n = vals.length) :
    fillBuffer (List.replicate n 0) vals = vals := by
  subst hn
  simp [fillBuffer]

/-- What `determineIfExtendable` answers for an existing dataset: whether one of its
current or maximum dimensions, converted to `int`, is negative. -/
theorem determineIfExtendable_existing (self : File) (lib : Hdf5)
    (max_size_contiguous : Nat) (data : Container) (dsetName : String)
    (userPrefersExtendable dsetExists : Option Bool) (file : H5F) (e : H5D)
    (hinit : self.hasInitialized = true) (hopen : lib.H5Fopen = some file)
    (hclose : lib.H5Fclose = true) (he : file dsetName = some e)
    (hx : dsetExists ≠ some false)
    (hwf : e.space.maxDims.length = e.space.dims.length) :
    (self.determineIfExtendable lib max_size_contiguous data dsetName
        userPrefersExtendable dsetExists).result
      = .ok (e.space.dims.any (fun i => decide (hsize_t_to_int i < 0))
          || e.space.maxDims.any (fun i => decide (hsize_t_to_int i < 0))) := by
  have hopen' : self.openFileHandle lib = Outcome.call .H5Fopen file := by
    simp [openFileHandle, hinit, hopen]
  have hclose' : closeFileHandle lib = Outcome.call .H5Fclose () := by
    simp [closeFileHandle, hclose]
  have hex : (match dsetExists with
      | none => self.linkExists lib dsetName
      | some known => Outcome.ret known).result = .ok true := by
    cases dsetExists with
    | none =>
      simp [linkExists, hopen', hclose', Hdf5.checkIfLinkExistsRecursively, he,
        Outcome.bind_eq, Outcome.pure_eq, Outcome.call, Outcome.andThen, Outcome.ret]
    | some b => cases b <;> simp_all [Outcome.ret]
  simp only [determineIfExtendable, Outcome.bind_eq, Outcome.pure_eq]
  rw [Outcome.andThen_result_of_ok _ hex]
  simp only [hopen', hclose', Hdf5.openLink, he, H5Sget_simple_extent_ndims,
    fillBuffer_replicate e.space.dims _ rfl, fillBuffer_replicate e.space.maxDims _ hwf.symm,
    Outcome.call_andThen, Outcome.ret_andThen, if_true]
  simp only [Outcome.call, Outcome.andThen, Outcome.ret]
  cases e.space.dims.any (fun i => decide (hsize_t_to_int i < 0))
    || e.space.maxDims.any (fun i => decide (hsize_t_to_int i < 0)) <;> simp

end File

/-! ## Claims on `h5ppFile.h` -/

namespace File

/-- C1.  For every column-major matrix `M` with `r` rows and `c` columns, whatever the
backend answers to `H5Dwrite` for the buffers it can be handed: whenever
`File::writeDataset` returns, it has called `H5Dwrite`, the buffer `staged` that it handed
to the call is one for which the call succeeds, and that buffer is row-major: its element
at position `i * c + j` is `M(i, j)`; `File::readDataset` of that buffer, from a dataset
of extent `[r, c]`, into a column-major matrix calls `H5LTread_dataset`, closes what it
opened and yields `M`.  On a writable file in which the dataset does not exist yet, the
write creates the dataset and hands a row-major buffer to `H5Dwrite`: it returns when the
call succeeds for that buffer and throws when it does not.  (`Textra::to_RowMajor` is
modelled from the spec; a matrix type for which `is_eigen_1d` holds has one row or one
column.) -/
theorem writeDataset_readDataset_colMajor {α : Type} (self : File) (lib : Hdf5)
    (max_size_contiguous : Nat) (is_eigen_1d : Bool) (M : Eigen.Matrix α)
    (info : Container) (datasetPath : String) (extendable : Option Bool)
    (H5Dwrite : List α → Bool)
    (hcol : M.IsRowMajor = false) (hlen : M.data.length = M.rows * M.cols)
    (h1d : is_eigen_1d = true → M.rows = 1 ∨ M.cols = 1) :
    (∀ staged, (self.writeDataset lib max_size_contiguous is_eigen_1d M info datasetPath
        extendable H5Dwrite).result = .ok staged →
      H5Call.H5Dwrite ∈ (self.writeDataset lib max_size_contiguous is_eigen_1d M info
        datasetPath extendable H5Dwrite).calls ∧
      H5Dwrite staged = true ∧
      (∀ i j, i < M.rows → j < M.cols →
        ∃ x, M.coeff i j = some x ∧ staged[i * M.cols + j]? = some x) ∧
      ∀ (reader : File) (lib' : Hdf5) (file : H5F) (d : H5D),
        reader.hasInitialized = true → lib'.H5Fopen = some file → lib'.H5Fclose = true →
        file datasetPath = some d → d.space.dims = [M.rows, M.cols] →
        reader.readDataset lib' (some staged) false datasetPath
          = ⟨[.H5Fopen, .openLink, .H5Dget_space, .H5Dget_type,
              .H5Sget_simple_extent_ndims, .H5Sget_simple_extent_dims, .H5LTread_dataset,
              .H5Tclose, .closeLink, .H5Fclose], .ok M⟩) ∧
    (∀ file, self.accessMode = .READWRITE → self.hasInitialized = true →
      lib.H5Fopen = some file → lib.H5Fclose = true → file datasetPath = none →
      ∃ (staged : List α) (ext : Bool),
        (∀ i j, i < M.rows → j < M.cols →
          ∃ x, M.coeff i j = some x ∧ staged[i * M.cols + j]? = some x) ∧
        self.writeDataset lib max_size_contiguous is_eigen_1d M info datasetPath
            extendable H5Dwrite
          = ⟨[.H5Fopen, .checkIfLinkExists, .H5Fclose, .H5Tclose, .H5Fopen,
                .createDatasetLink]
              ++ (if ext then [.setExtentDataset] else [])
              ++ [.openLink, .H5Dget_space, .select_hyperslab, .H5Dwrite, .closeLink,
                .H5Fclose],
            if H5Dwrite staged then .ok staged
            else .error (.runtime ("Write to file failed [" ++ datasetPath ++ "]: "
              ++ "Failed to write data to file"))⟩) := by
  have hprop := staged_rowMajor is_eigen_1d M hcol hlen h1d
  have hcoeff : ∀ i j, i < M.rows → j < M.cols →
      ∃ x, M.coeff i j = some x ∧
        (if is_eigen_1d then M.data else (Textra.to_RowMajor M).data)[i * M.cols + j]?
          = some x := by
    intro i j hi hj
    obtain ⟨x, hx⟩ := Option.isSome_iff_exists.mp (Eigen.coeff_isSome M hlen hi hj)
    exact ⟨x, hx, by rw [hprop.2 i j hi hj, hx]⟩
  refine ⟨?_, fun file hmode hinit hopen hclose hnew => ?_⟩
  · intro staged hw
    obtain ⟨⟨hs, hacc⟩, hcall⟩ := writeDataset_ok self lib max_size_contiguous is_eigen_1d M
      info datasetPath extendable H5Dwrite staged hw
    subst hs
    refine ⟨hcall, hacc, hcoeff, fun reader lib' file d hinit hopen hclose hd hdims => ?_⟩
    rw [readDataset_colMajor_outcome reader lib' _ datasetPath file d M.rows M.cols hinit
      hopen hclose hd hdims]
    rw [Eigen.assign_colMajor_ofRowMajorBuffer M _ hcol hlen hprop.1 hprop.2]
  · obtain ⟨ext, hext⟩ := writeDataset_new_outcome self lib max_size_contiguous is_eigen_1d
      M info datasetPath extendable H5Dwrite file hmode hinit hopen hclose hnew
    exact ⟨_, ext, hcoeff, hext⟩

/-- C1, witness: with a backend whose `H5Dwrite` succeeds for the buffer
`[1,2,3,4,5,6]` and for no other, the column-major 3 x 2 block `[[1,2],[3,4],[5,6]]` is
written: `H5Dwrite` is called with that buffer, and reading that buffer back yields the
block. -/
theorem writeDataset_readDataset_colMajor_witness :
    Examples.block32.IsRowMajor = false ∧
    Examples.block32.data.length = Examples.block32.rows * Examples.block32.cols ∧
    Examples.openedFile.writeDataset (Examples.library Examples.emptyFile) 1000 false
        Examples.block32 (Examples.doubles 2 [3, 2]) "/m" none
        (fun buffer => decide (buffer = [1, 2, 3, 4, 5, 6]))
      = ⟨[.H5Fopen, .checkIfLinkExists, .H5Fclose, .H5Tclose, .H5Fopen, .createDatasetLink,
          .openLink, .H5Dget_space, .select_hyperslab, .H5Dwrite, .closeLink, .H5Fclose],
        .ok [1, 2, 3, 4, 5, 6]⟩ ∧
    (Examples.openedFile.writeDataset (Examples.library Examples.emptyFile) 1000 false
        Examples.block32 (Examples.doubles 2 [3, 2]) "/m" none
        (fun buffer => decide (buffer = Examples.block32.data))).result
      = .error (.runtime "Write to file failed [/m]: Failed to write data to file") ∧
    H5Call.H5Dwrite ∈ (Examples.openedFile.writeDataset
        (Examples.library Examples.emptyFile) 1000 false Examples.block32
        (Examples.doubles 2 [3, 2]) "/m" none
        (fun buffer => decide (buffer = [1, 2, 3, 4, 5, 6]))).calls ∧
    (∃ x, Examples.block32.coeff 2 1 = some x ∧
      [1, 2, 3, 4, 5, 6][2 * Examples.block32.cols + 1]? = some x) ∧
    Examples.openedFile.readDataset
        (Examples.library (Examples.fileWith "/m"
          (Examples.dataset [3, 2] [3, 2] .H5D_CONTIGUOUS [])))
        (some [1, 2, 3, 4, 5, 6]) false "/m"
      = ⟨[.H5Fopen, .openLink, .H5Dget_space, .H5Dget_type, .H5Sget_simple_extent_ndims,
          .H5Sget_simple_extent_dims, .H5LTread_dataset, .H5Tclose, .closeLink, .H5Fclose],
        .ok Examples.block32⟩ :=
  have h := (writeDataset_readDataset_colMajor Examples.openedFile
    (Examples.library Examples.emptyFile) 1000 false Examples.block32
    (Examples.doubles 2 [3, 2]) "/m" none (fun buffer => decide (buffer = [1, 2, 3, 4, 5, 6]))
    (by rfl) (by rfl) (by decide)).1 [1, 2, 3, 4, 5, 6] (by rfl)
  ⟨by rfl, by rfl, by rfl, by rfl, h.1, h.2.2.1 2 1 (by decide) (by decide),
    h.2.2.2 Examples.openedFile
      (Examples.library (Examples.fileWith "/m"
        (Examples.dataset [3, 2] [3, 2] .H5D_CONTIGUOUS [])))
      (Examples.fileWith "/m" (Examples.dataset [3, 2] [3, 2] .H5D_CONTIGUOUS []))
      (Examples.dataset [3, 2] [3, 2] .H5D_CONTIGUOUS []) (by rfl) (by rfl) (by rfl)
      (by rfl) (by rfl)⟩

/-- C10, failing input.  A dataset of extent `[2147483648]` whose maximum extent is the
same finite `[2147483648]` is bounded in its only dimension, yet `determineIfExtendable`
answers `true` for it, whatever the preference of the user: the dimension is converted to
`int`, where `2^31` is negative. -/
theorem determineIfExtendable_finite_dimension :
    (∀ d ∈ (Examples.dataset [2147483648] [2147483648] .H5D_CONTIGUOUS []).space.maxDims,
      d ≠ H5S_UNLIMITED) ∧
    (Examples.openedFile.determineIfExtendable
        (Examples.library (Examples.fileWith "/big"
          (Examples.dataset [2147483648] [2147483648] .H5D_CONTIGUOUS [])))
        1000000 (Examples.doubles 1 [2147483648]) "/big" none none).result = .ok true ∧
    (Examples.openedFile.determineIfExtendable
        (Examples.library (Examples.fileWith "/big"
          (Examples.dataset [2147483648] [2147483648] .H5D_CONTIGUOUS [])))
        1000000 (Examples.doubles 1 [2147483648]) "/big" (some false) none).result
      = .ok true ∧
    (Examples.openedFile.determineIfExtendable
        (Examples.library (Examples.fileWith "/big"
          (Examples.dataset [2147483648] [2147483648] .H5D_CONTIGUOUS [])))
        1000000 (Examples.doubles 1 [2147483648]) "/big" (some true) none).result
      = .ok true := by
  refine ⟨by decide, by rfl, by rfl, by rfl⟩

end File

/-! ## Lemmas and claims on `File::determineIfExtendable` for a dataset to be created -/

namespace File

/-- What `determineIfExtendable` answers when the dataset does not exist: the preference
of the user when there is one, otherwise whether the rank is at least 1 and the policy is
on or the data are large. -/
theorem determineIfExtendable_new (self : File) (lib : Hdf5) (max_size_contiguous : Nat)
    (data : Container) (dsetName : String) (userPrefersExtendable dsetExists : Option Bool)
    (file : H5F)
    (hnew : dsetExists = some false ∨ (dsetExists = none ∧ self.hasInitialized = true ∧
      lib.H5Fopen = some file ∧ lib.H5Fclose = true ∧ file dsetName = none)) :
    (self.determineIfExtendable lib max_size_contiguous data dsetName
        userPrefersExtendable dsetExists).result
      = .ok (match userPrefersExtendable with
          | some preference => preference
          | none => decide (1 ≤ data.getRank ∧ (self.defaultExtendable = true ∨
              max_size_contiguous ≤ data.getSize * data.getH5Type.size % 2 ^ 64))) := by
  have hex : (match dsetExists with
      | none => self.linkExists lib dsetName
      | some known => Outcome.ret known).result = .ok false := by
    rcases hnew with rfl | ⟨rfl, hinit, hopen, hclose, hmissing⟩
    · rfl
    · simp [linkExists, openFileHandle, closeFileHandle, hinit, hopen, hclose,
        Hdf5.checkIfLinkExistsRecursively, hmissing, Outcome.bind_eq, Outcome.pure_eq,
        Outcome.call, Outcome.andThen, Outcome.ret]
  simp only [determineIfExtendable, Outcome.bind_eq, Outcome.pure_eq]
  rw [Outcome.andThen_result_of_ok _ hex]
  simp only [Outcome.call_andThen, Outcome.ret_andThen, Bool.false_eq_true, if_false]
  cases userPrefersExtendable with
  | some preference => simp [Outcome.ret]
  | none =>
    by_cases hpol : self.defaultExtendable = true <;>
    by_cases hrank : 1 ≤ data.getRank <;>
    by_cases hlarge : max_size_contiguous ≤ data.getSize * data.getH5Type.size % 2 ^ 64 <;>
    simp only [Nat.reducePow] at hlarge <;>
    simp [Outcome.ret, hpol, hrank, hlarge]

/-- C11: for a dataset that does not exist yet and an explicit preference `p` of the
user, `determineIfExtendable` returns `p`, whatever the size of the data, the threshold
and the `defaultExtendable` policy are. -/
theorem determineIfExtendable_new_preference (self : File) (lib : Hdf5)
    (max_size_contiguous : Nat) (data : Container) (dsetName : String) (p : Bool)
    (dsetExists : Option Bool) (file : H5F)
    (hnew : dsetExists = some false ∨ (dsetExists = none ∧ self.hasInitialized = true ∧
      lib.H5Fopen = some file ∧ lib.H5Fclose = true ∧ file dsetName = none)) :
    (self.determineIfExtendable lib max_size_contiguous data dsetName (some p)
        dsetExists).result = .ok p := by
  rw [determineIfExtendable_new self lib max_size_contiguous data dsetName (some p)
    dsetExists file hnew]

/-- C11 at a concrete input: a small matrix, the policy off, the link looked up in an
empty file, preference `true`. -/
theorem determineIfExtendable_new_preference_witness :
    (Examples.openedFile.determineIfExtendable (Examples.library Examples.emptyFile) 1000
        (Examples.doubles 2 [3, 2]) "m" (some true) none).result = .ok true :=
  determineIfExtendable_new_preference Examples.openedFile
    (Examples.library Examples.emptyFile) 1000 (Examples.doubles 2 [3, 2]) "m" true none
    Examples.emptyFile (Or.inr ⟨rfl, rfl, rfl, rfl, rfl⟩)

/-- C12 as stated fails twice: with the policy on, a rank-0 container is not extendable
although the policy is enabled; with the policy off, data whose byte count equals the
threshold (16 doubles, threshold 128) are extendable although they do not exceed it. -/
theorem determineIfExtendable_heuristic_counterexample :
    (({ hasInitialized := true, defaultExtendable := true } : File).determineIfExtendable
        (Examples.library Examples.emptyFile) 128 (Examples.doubles 0 []) "s" none
        (some false)).result = .ok false ∧
    (Examples.openedFile.determineIfExtendable (Examples.library Examples.emptyFile) 128
        (Examples.doubles 1 [16]) "v" none (some false)).result = .ok true ∧
    Examples.openedFile.defaultExtendable = false ∧
    (Examples.doubles 1 [16]).getSize * (Examples.doubles 1 [16]).getH5Type.size = 128 :=
  ⟨by rfl, by rfl, rfl, by decide⟩

/-- C12, amended: for a dataset that does not exist yet and no preference of the user,
`determineIfExtendable` returns true exactly when the rank is at least 1 and either the
policy is on or the byte count (element count times element size, as a 64-bit product) is
at least the threshold. -/
theorem determineIfExtendable_new_heuristic (self : File) (lib : Hdf5)
    (max_size_contiguous : Nat) (data : Container) (dsetName : String)
    (dsetExists : Option Bool) (file : H5F)
    (hnew : dsetExists = some false ∨ (dsetExists = none ∧ self.hasInitialized = true ∧
      lib.H5Fopen = some file ∧ lib.H5Fclose = true ∧ file dsetName = none)) :
    (self.determineIfExtendable lib max_size_contiguous data dsetName none
        dsetExists).result
      = .ok (decide (1 ≤ data.getRank ∧ (self.defaultExtendable = true ∨
          max_size_contiguous ≤ data.getSize * data.getH5Type.size % 2 ^ 64))) := by
  rw [determineIfExtendable_new self lib max_size_contiguous data dsetName none
    dsetExists file hnew]

/-- C12 (amended) at a concrete input: 16 doubles against a threshold of 128 bytes. -/
theorem determineIfExtendable_new_heuristic_witness :
    (Examples.openedFile.determineIfExtendable (Examples.library Examples.emptyFile) 128
        (Examples.doubles 1 [16]) "v" none (some false)).result
      = .ok (decide (1 ≤ (Examples.doubles 1 [16]).getRank ∧
          (Examples.openedFile.defaultExtendable = true ∨
            128 ≤ (Examples.doubles 1 [16]).getSize *
              (Examples.doubles 1 [16]).getH5Type.size % 2 ^ 64))) :=
  determineIfExtendable_new_heuristic Examples.openedFile
    (Examples.library Examples.emptyFile) 128 (Examples.doubles 1 [16]) "v" (some false)
    Examples.emptyFile (Or.inl rfl)

/-- C13 as stated fails: for a rank-0 container and a dataset that does not exist, the
preference `true` of the user is returned; and for a rank-0 container and an existing
dataset with an unlimited dimension the answer is true as well. -/
theorem determineIfExtendable_scalar_counterexample :
    (Examples.doubles 0 []).getRank = 0 ∧
    (Examples.openedFile.determineIfExtendable (Examples.library Examples.emptyFile) 1000
        (Examples.doubles 0 []) "s" (some true) (some false)).result = .ok true ∧
    (Examples.openedFile.determineIfExtendable
        (Examples.library (Examples.fileWith "s"
          (Examples.dataset [1] [H5S_UNLIMITED] .H5D_CHUNKED [1]))) 1000
        (Examples.doubles 0 []) "s" none (some true)).result = .ok true :=
  ⟨rfl, by rfl, by rfl⟩

/-- C13, amended: for a rank-0 container and a dataset that does not exist yet,
`determineIfExtendable` returns the preference of the user when there is one and false
otherwise, whatever the policy, the threshold and the byte count are. -/
theorem determineIfExtendable_scalar_new (self : File) (lib : Hdf5)
    (max_size_contiguous : Nat) (data : Container) (dsetName : String)
    (userPrefersExtendable dsetExists : Option Bool) (file : H5F)
    (hrank : data.getRank = 0)
    (hnew : dsetExists = some false ∨ (dsetExists = none ∧ self.hasInitialized = true ∧
      lib.H5Fopen = some file ∧ lib.H5Fclose = true ∧ file dsetName = none)) :
    (self.determineIfExtendable lib max_size_contiguous data dsetName
        userPrefersExtendable dsetExists).result
      = .ok (userPrefersExtendable.getD false) := by
  rw [determineIfExtendable_new self lib max_size_contiguous data dsetName
    userPrefersExtendable dsetExists file hnew]
  cases userPrefersExtendable with
  | some preference => rfl
  | none => simp [hrank]

/-- C13 (amended) at a concrete input: a scalar, the policy on, a threshold of 0, no
preference. -/
theorem determineIfExtendable_scalar_new_witness :
    (({ hasInitialized := true, defaultExtendable := true } : File).determineIfExtendable
        (Examples.library Examples.emptyFile) 0 (Examples.doubles 0 []) "s" none
        none).result = .ok ((none : Option Bool).getD false) :=
  determineIfExtendable_scalar_new { hasInitialized := true, defaultExtendable := true }
    (Examples.library Examples.emptyFile) 0 (Examples.doubles 0 []) "s" none none
    Examples.emptyFile rfl (Or.inr ⟨rfl, rfl, rfl, rfl, rfl⟩)

end File

/-! ## Claims on the reads and writes of `h5ppFile.h` -/

namespace File

/-- C14, failing input.  `File::readDataset` and `File::writeDataset` compare no sizes of
types.  The same matrix destination is read from a dataset of 8-byte `double`s and from a
dataset of 4-byte `int`s: both reads issue `H5LTread_dataset` and return.  A matrix of
8-byte `double`s is written onto an extendable dataset of 4-byte `int`s: `H5Dwrite` is
issued and the write returns. -/
theorem readDataset_writeDataset_typeSize_unchecked :
    (Examples.dataset [3, 2] [3, 2] .H5D_CONTIGUOUS []).dataType.size = 8 ∧
    (Examples.intDataset [3, 2] [3, 2] .H5D_CONTIGUOUS []).dataType.size = 4 ∧
    Examples.openedFile.readDataset
        (Examples.library (Examples.fileWith "/m"
          (Examples.dataset [3, 2] [3, 2] .H5D_CONTIGUOUS [])))
        (some [1, 2, 3, 4, 5, 6]) false "/m"
      = ⟨[.H5Fopen, .openLink, .H5Dget_space, .H5Dget_type, .H5Sget_simple_extent_ndims,
          .H5Sget_simple_extent_dims, .H5LTread_dataset, .H5Tclose, .closeLink, .H5Fclose],
        .ok Examples.block32⟩ ∧
    Examples.openedFile.readDataset
        (Examples.library (Examples.fileWith "/m"
          (Examples.intDataset [3, 2] [3, 2] .H5D_CONTIGUOUS [])))
        (some [1, 2, 3, 4, 5, 6]) false "/m"
      = ⟨[.H5Fopen, .openLink, .H5Dget_space, .H5Dget_type, .H5Sget_simple_extent_ndims,
          .H5Sget_simple_extent_dims, .H5LTread_dataset, .H5Tclose, .closeLink, .H5Fclose],
        .ok Examples.block32⟩ ∧
    (Examples.doubles 2 [3, 2]).getH5Type.size = 8 ∧
    Examples.openedFile.writeDataset
        (Examples.library (Examples.fileWith "/m"
          (Examples.intDataset [3, 2] [H5S_UNLIMITED, H5S_UNLIMITED] .H5D_CHUNKED [3, 2])))
        1000 false Examples.block32 (Examples.doubles 2 [3, 2]) "/m" none
      = ⟨[.H5Fopen, .checkIfLinkExists, .H5Fclose, .H5Tclose, .H5Fopen, .openLink,
          .H5Dget_space, .H5Sget_simple_extent_ndims, .H5Sget_simple_extent_dims, .H5Sclose,
          .H5Dclose, .H5Fclose, .H5Fopen, .setExtentDataset, .openLink, .H5Dget_space,
          .select_hyperslab, .H5Dwrite, .closeLink, .H5Fclose],
        .ok [1, 2, 3, 4, 5, 6]⟩ := by
  refine ⟨rfl, rfl, by rfl, by rfl, rfl, by rfl⟩

/-- C15, failing input.  On a dataset of extent `[3]`: a read into a row-major tensor whose
backend read fails throws and leaves `retval` negative; on the object it leaves, a read
into a `std::vector` whose backend read succeeds throws a read error, after the backend
read; and on a fresh object, reads into a `std::vector` and into a column-major tensor
whose backend read fails return normally. -/
theorem readDatasetAs_stale_retval :
    ((readDatasetAs (Examples.library (Examples.fileWith "/v"
          (Examples.dataset [3] [3] .H5D_CONTIGUOUS []))) (-1) (.eigenTensor 1 true)
        "/v").callOn Examples.openedFile).1
      = .error (.runtime
          "readDataset failed. Reason: Failed to read Eigen Tensor rowmajor dataset") ∧
    ((readDatasetAs (Examples.library (Examples.fileWith "/v"
          (Examples.dataset [3] [3] .H5D_CONTIGUOUS []))) (-1) (.eigenTensor 1 true)
        "/v").callOn Examples.openedFile).2.self
      = { Examples.openedFile with retval := -1 } ∧
    (readDatasetAs (Examples.library (Examples.fileWith "/v"
          (Examples.dataset [3] [3] .H5D_CONTIGUOUS []))) 0 .stdVector "/v").callOn
        ((readDatasetAs (Examples.library (Examples.fileWith "/v"
            (Examples.dataset [3] [3] .H5D_CONTIGUOUS []))) (-1) (.eigenTensor 1 true)
          "/v").callOn Examples.openedFile).2.self
      = (.error (.runtime "readDataset failed. Reason: Failed to read std::vector dataset"),
          { self := { Examples.openedFile with retval := -1 },
            calls := [.H5Fopen, .openLink, .H5Dget_space, .H5Dget_type,
              .H5Sget_simple_extent_ndims, .H5Sget_simple_extent_dims, .H5LTread_dataset,
              .H5Fclose] }) ∧
    (readDatasetAs (Examples.library (Examples.fileWith "/v"
          (Examples.dataset [3] [3] .H5D_CONTIGUOUS []))) (-1) .stdVector "/v").callOn
        Examples.openedFile
      = (.ok (),
          { self := Examples.openedFile,
            calls := [.H5Fopen, .openLink, .H5Dget_space, .H5Dget_type,
              .H5Sget_simple_extent_ndims, .H5Sget_simple_extent_dims, .H5LTread_dataset,
              .H5Tclose, .closeLink, .H5Fclose] }) ∧
    ((readDatasetAs (Examples.library (Examples.fileWith "/v"
          (Examples.dataset [3] [3] .H5D_CONTIGUOUS []))) (-1) (.eigenTensor 1 false)
        "/v").callOn Examples.openedFile).1 = .ok () := by
  refine ⟨by rfl, by rfl, by rfl, by rfl, by rfl⟩

/-- C16, failing input.  Counting the handles that the backend calls of a run acquire and
release: a successful `File::readDataset` ends with the dataspace handle of `H5Dget_space`
open; a `File::readDataset` whose backend read fails ends with the dataset, dataspace and
datatype handles open, its `catch` closing the file handle only; and a successful
`File::writeDataset` ends with the dataspace handle of `H5Dget_space` open. -/
theorem readDataset_writeDataset_open_handles :
    (Examples.openedFile.readDataset
        (Examples.library (Examples.fileWith "/m"
          (Examples.dataset [3, 2] [3, 2] .H5D_CONTIGUOUS [])))
        (some [1, 2, 3, 4, 5, 6]) false "/m").result = .ok Examples.block32 ∧
    openHandles [] (Examples.openedFile.readDataset
        (Examples.library (Examples.fileWith "/m"
          (Examples.dataset [3, 2] [3, 2] .H5D_CONTIGUOUS [])))
        (some [1, 2, 3, 4, 5, 6]) false "/m").calls = [.space] ∧
    (Examples.openedFile.readDataset
        (Examples.library (Examples.fileWith "/m"
          (Examples.dataset [3, 2] [3, 2] .H5D_CONTIGUOUS [])))
        (none : Option (List Nat)) false "/m")
      = ⟨[.H5Fopen, .openLink, .H5Dget_space, .H5Dget_type, .H5Sget_simple_extent_ndims,
          .H5Sget_simple_extent_dims, .H5LTread_dataset, .H5Fclose],
        .error (.runtime
          "readDataset failed. Reason: Failed to read Eigen Matrix colmajor dataset")⟩ ∧
    openHandles [] (Examples.openedFile.readDataset
        (Examples.library (Examples.fileWith "/m"
          (Examples.dataset [3, 2] [3, 2] .H5D_CONTIGUOUS [])))
        (none : Option (List Nat)) false "/m").calls = [.entry, .space, .type] ∧
    Examples.openedFile.writeDataset (Examples.library Examples.emptyFile) 1000 false
        Examples.block32 (Examples.doubles 2 [3, 2]) "/m" none
      = ⟨[.H5Fopen, .checkIfLinkExists, .H5Fclose, .H5Tclose, .H5Fopen, .createDatasetLink,
          .openLink, .H5Dget_space, .select_hyperslab, .H5Dwrite, .closeLink, .H5Fclose],
        .ok [1, 2, 3, 4, 5, 6]⟩ ∧
    openHandles [] (Examples.openedFile.writeDataset (Examples.library Examples.emptyFile)
        1000 false Examples.block32 (Examples.doubles 2 [3, 2]) "/m" none).calls
      = [.space] := by
  refine ⟨by rfl, by rfl, by rfl, by rfl, by rfl, by rfl⟩

/-- C17, failing input.  `File::writeAttribute` on a link that exists and an attribute that
exists already returns normally after `openFileHandle` and the two existence checks: no
`H5Fclose` is issued, and the file handle stays open.  When the attribute does not exist
yet, the same call closes the file handle once. -/
theorem writeAttribute_existing_attribute_no_close :
    Examples.openedFile.writeAttribute
        (Examples.library (Examples.fileWith "/m"
          (Examples.dataset [3, 2] [3, 2] .H5D_CONTIGUOUS [])))
        true 0 (Examples.doubleAttribute "a" "/m")
      = ⟨[.H5Fopen, .checkIfLinkExists, .checkIfAttributeExists], .ok ()⟩ ∧
    (Examples.openedFile.writeAttribute
        (Examples.library (Examples.fileWith "/m"
          (Examples.dataset [3, 2] [3, 2] .H5D_CONTIGUOUS [])))
        true 0 (Examples.doubleAttribute "a" "/m")).calls.count .H5Fclose = 0 ∧
    openHandles [] (Examples.openedFile.writeAttribute
        (Examples.library (Examples.fileWith "/m"
          (Examples.dataset [3, 2] [3, 2] .H5D_CONTIGUOUS [])))
        true 0 (Examples.doubleAttribute "a" "/m")).calls = [.file] ∧
    Examples.openedFile.writeAttribute
        (Examples.library (Examples.fileWith "/m"
          (Examples.dataset [3, 2] [3, 2] .H5D_CONTIGUOUS [])))
        false 0 (Examples.doubleAttribute "a" "/m")
      = ⟨[.H5Fopen, .checkIfLinkExists, .checkIfAttributeExists, .openLink, .H5Acreate,
          .H5Awrite, .H5Aclose, .closeLink, .H5Fclose], .ok ()⟩ := by
  refine ⟨by rfl, by rfl, by rfl, by rfl⟩

end File

/-! ## Lemmas and claims on reading back what was resolved -/

namespace scan

/-- What `getDatasetProperties_bootstrap` resolves: it always returns, with the shape and
the sizes of the container, the layout and the chunk shape the helpers choose, the
compression level capped at 9, and the handles the helpers make. -/
theorem bootstrap_result (h : Helpers) (file : H5F) (dsetName : String) (data : Container)
    (dsetExists : Option Bool) (desiredLayout : Option H5D_layout_t)
    (desiredChunkDims : Option (List Nat)) (desiredCompressionLevel : Option Nat) :
    ∃ p, (getDatasetProperties_bootstrap h file dsetName data dsetExists desiredLayout
        desiredChunkDims desiredCompressionLevel).result = .ok p
      ∧ p.ndims = some data.getRank
      ∧ p.dims = some data.getDimensions
      ∧ p.size = some (data.setStringSize data.getH5Type).1
      ∧ p.bytes = some data.getBytesTotal
      ∧ p.dataType = some (data.setStringSize data.getH5Type).2
      ∧ p.layout = some (h.decideLayout data.getBytesTotal desiredLayout)
      ∧ p.chunkDims = some (h.getDefaultChunkDimensions
          (data.setStringSize data.getH5Type).1 data.getDimensions desiredChunkDims)
      ∧ p.compressionLevel = some (match desiredCompressionLevel with
          | some level => min 9 level
          | none => 0) := by
  cases dsetExists <;>
    simp [getDatasetProperties_bootstrap, hdf5.checkIfLinkExists, Outcome.bind_eq,
      Outcome.pure_eq, Outcome.call, Outcome.ret, Outcome.andThen]

end scan

/-! ## Claims on reading back what was resolved -/

namespace scan

/-- C19, failing input.  For an existing dataset whose dataspace is scalar (rank 0),
`getDatasetProperties_read` reports rank 1, the extent `[0]` (the zeroed buffer, into
which `H5Sget_simple_extent_dims` writes nothing) and the element count 1: the element
count is not the product of the extent. -/
theorem getDatasetProperties_read_scalar_extent :
    Examples.scalarDataset.space.dims = [] ∧
    ∃ r, (getDatasetProperties_read (Examples.fileWith "/s" Examples.scalarDataset) "/s"
        none).result = .ok r ∧
      r.ndims = some 1 ∧ r.dims = some [0] ∧ r.size = some 1 ∧
      r.size ≠ r.dims.map List.prod := by
  refine ⟨rfl, _, rfl, rfl, rfl, rfl, by decide⟩

end scan

/-! ## Lemmas and claims on overwriting a dataset that cannot grow -/

namespace File

/-- The run of `determineIfExtendable` for a dataset that is known to exist: the backend
calls it issues, none of which changes the dataset, and its answer. -/
theorem determineIfExtendable_known_existing (self : File) (lib : Hdf5)
    (max_size_contiguous : Nat) (data : Container) (dsetName : String)
    (userPrefersExtendable : Option Bool) (file : H5F) (e : H5D)
    (hinit : self.hasInitialized = true) (hopen : lib.H5Fopen = some file)
    (hclose : lib.H5Fclose = true) (he : file dsetName = some e)
    (hwf : e.space.maxDims.length = e.space.dims.length) :
    self.determineIfExtendable lib max_size_contiguous data dsetName
        userPrefersExtendable (some true)
      = ⟨[.H5Tclose, .H5Fopen, .openLink, .H5Dget_space, .H5Sget_simple_extent_ndims,
          .H5Sget_simple_extent_dims, .H5Sclose, .H5Dclose, .H5Fclose],
        .ok (e.space.dims.any (fun i => decide (hsize_t_to_int i < 0))
          || e.space.maxDims.any (fun i => decide (hsize_t_to_int i < 0)))⟩ := by
  have hopen' : self.openFileHandle lib = Outcome.call .H5Fopen file := by
    simp [openFileHandle, hinit, hopen]
  have hclose' : closeFileHandle lib = Outcome.call .H5Fclose () := by
    simp [closeFileHandle, hclose]
  have h1 : fillBuffer (List.replicate e.space.dims.length 0) e.space.dims = e.space.dims :=
    fillBuffer_replicate _ _ rfl
  have h2 : fillBuffer (List.replicate e.space.dims.length 0) e.space.maxDims
      = e.space.maxDims := fillBuffer_replicate _ _ hwf.symm
  simp only [determineIfExtendable, hopen', hclose', Hdf5.openLink, he,
    H5Sget_simple_extent_ndims, Outcome.bind_eq, Outcome.pure_eq, Outcome.ret_andThen,
    Outcome.call_andThen, if_true, h1, h2]
  cases hu : (e.space.dims.any (fun i => decide (hsize_t_to_int i < 0))
      || e.space.maxDims.any (fun i => decide (hsize_t_to_int i < 0))) <;>
    cases userPrefersExtendable <;>
    simp [hu, Outcome.call, Outcome.andThen, Outcome.ret]

/-- The run of `writeDataset(data, props)` on an existing dataset that is not extendable
and whose storage size differs from the byte size of the data: the error is thrown before
`H5Dwrite`, and the `catch` closes the dataset and the file. -/
theorem writeDatasetProps_different_size {α : Type} (self : File) (lib : Hdf5)
    (buffer : List α) (new_dsetSize : Nat) (props : DatasetProperties) (file : H5F)
    (e : H5D) (hinit : self.hasInitialized = true) (hopen : lib.H5Fopen = some file)
    (hclose : lib.H5Fclose = true) (he : file props.dsetName = some e)
    (hexists : props.linkExists = true) (hfixed : props.extendable = false)
    (hsize : e.storageSize ≠ new_dsetSize) :
    self.writeDatasetProps lib buffer new_dsetSize props
      = ⟨[.H5Fopen, .openLink, .H5Dget_space, .select_hyperslab, .H5Dget_storage_size,
          .closeLink, .H5Fclose],
        .error (.runtime ("Write to file failed [" ++ props.dsetName ++ "]: " ++
          "Overwriting non-extendable dataset with different size"))⟩ := by
  have hopen' : self.openFileHandle lib = Outcome.call .H5Fopen file := by
    simp [openFileHandle, hinit, hopen]
  have hclose' : closeFileHandle lib = Outcome.call .H5Fclose () := by
    simp [closeFileHandle, hclose]
  simp [writeDatasetProps, hopen', hclose', he, hexists, hfixed, hsize, Outcome.bind_eq,
    Outcome.pure_eq, Outcome.call, Outcome.andThen, Outcome.ret, Outcome.raise,
    Outcome.tryCatch, Error.what]

end File

namespace File

/-- The run of `writeDataset(data, datasetPath, extendable)` on an existing dataset that
`determineIfExtendable` finds not extendable and whose storage size differs from the byte
size of the data. -/
theorem writeDataset_different_size {α : Type} (self : File) (lib : Hdf5)
    (max_size_contiguous : Nat) (is_eigen_1d : Bool) (data : Eigen.Matrix α)
    (info : Container) (datasetPath : String) (extendable : Option Bool) (file : H5F)
    (e : H5D) (hmode : self.accessMode = .READWRITE) (hinit : self.hasInitialized = true)
    (hopen : lib.H5Fopen = some file) (hclose : lib.H5Fclose = true)
    (he : file datasetPath = some e)
    (hwf : e.space.maxDims.length = e.space.dims.length)
    (hfixed : (e.space.dims.any (fun i => decide (hsize_t_to_int i < 0))
      || e.space.maxDims.any (fun i => decide (hsize_t_to_int i < 0))) = false)
    (hsize : e.storageSize ≠ info.getBytesTotal) :
    self.writeDataset lib max_size_contiguous is_eigen_1d data info datasetPath extendable
      = ⟨[.H5Fopen, .checkIfLinkExists, .H5Fclose, .H5Tclose, .H5Fopen, .openLink,
          .H5Dget_space, .H5Sget_simple_extent_ndims, .H5Sget_simple_extent_dims, .H5Sclose,
          .H5Dclose, .H5Fclose, .H5Fopen, .openLink, .H5Dget_space, .select_hyperslab,
          .H5Dget_storage_size, .closeLink, .H5Fclose],
        .error (.runtime ("Write to file failed [" ++ datasetPath ++ "]: " ++
          "Overwriting non-extendable dataset with different size"))⟩ := by
  have hopen' : self.openFileHandle lib = Outcome.call .H5Fopen file := by
    simp [openFileHandle, hinit, hopen]
  have hclose' : closeFileHandle lib = Outcome.call .H5Fclose () := by
    simp [closeFileHandle, hclose]
  have hlink : self.linkExists lib datasetPath
      = ⟨[.H5Fopen, .checkIfLinkExists, .H5Fclose], .ok true⟩ := by
    simp [linkExists, hopen', hclose', Hdf5.checkIfLinkExistsRecursively, he,
      Outcome.bind_eq, Outcome.pure_eq, Outcome.call, Outcome.andThen, Outcome.ret]
  have hext := determineIfExtendable_known_existing self lib max_size_contiguous info
    datasetPath extendable file e hinit hopen hclose he hwf
  rw [hfixed] at hext
  have hprops : ∀ (buffer : List α) (props : DatasetProperties),
      props.linkExists = true → props.extendable = false → props.dsetName = datasetPath →
      self.writeDatasetProps lib buffer info.getBytesTotal props
        = ⟨[.H5Fopen, .openLink, .H5Dget_space, .select_hyperslab, .H5Dget_storage_size,
            .closeLink, .H5Fclose],
          .error (.runtime ("Write to file failed [" ++ datasetPath ++ "]: " ++
            "Overwriting non-extendable dataset with different size"))⟩ := by
    intro buffer props h1 h2 h3
    rw [writeDatasetProps_different_size self lib buffer _ props file e hinit hopen hclose
      (by rw [h3]; exact he) h1 h2 hsize, h3]
  have hro : ¬ (self.accessMode = .READONLY) := by
    rw [hmode]
    decide
  simp only [writeDataset, if_neg hro, hlink, Outcome.bind_eq, Outcome.pure_eq,
    Outcome.andThen, hext]
  split_ifs <;> rw [hprops _ _ rfl rfl rfl] <;> rfl

end File

/-! ## Claims on overwriting a dataset that cannot grow -/

namespace File

/-- C20 as stated fails: a 3 x 2 matrix written onto the existing, not extendable dataset
of extent `[2, 3]`, a different extent with the same 48 bytes, raises nothing: `H5Dwrite`
is issued and the write returns. -/
theorem writeDataset_different_extent_counterexample :
    (Examples.doubles 2 [3, 2]).getDimensions
      ≠ (Examples.dataset [2, 3] [2, 3] .H5D_CONTIGUOUS []).space.dims ∧
    (Examples.openedFile.determineIfExtendable
        (Examples.library (Examples.fileWith "/m"
          (Examples.dataset [2, 3] [2, 3] .H5D_CONTIGUOUS [])))
        1000 (Examples.doubles 2 [3, 2]) "/m" none (some true)).result = .ok false ∧
    Examples.openedFile.writeDataset
        (Examples.library (Examples.fileWith "/m"
          (Examples.dataset [2, 3] [2, 3] .H5D_CONTIGUOUS [])))
        1000 false Examples.block32 (Examples.doubles 2 [3, 2]) "/m" none
      = ⟨[.H5Fopen, .checkIfLinkExists, .H5Fclose, .H5Tclose, .H5Fopen, .openLink,
          .H5Dget_space, .H5Sget_simple_extent_ndims, .H5Sget_simple_extent_dims, .H5Sclose,
          .H5Dclose, .H5Fclose, .H5Fopen, .openLink, .H5Dget_space, .select_hyperslab,
          .H5Dget_storage_size, .H5Dwrite, .closeLink, .H5Fclose],
        .ok [1, 2, 3, 4, 5, 6]⟩ := by
  refine ⟨by decide, by rfl, by rfl⟩

/-- C20, amended.  For every existing dataset that `determineIfExtendable` finds not
extendable (no current or maximum dimension is negative as an `int`) and every container
whose byte size differs from the storage size of the dataset, `File::writeDataset` on a
writable file throws "Overwriting non-extendable dataset with different size", wrapped by
its `catch`, and no backend call that creates, resizes or writes the dataset is issued:
`H5Dwrite` is not among the calls. -/
theorem writeDataset_nonextendable_different_size {α : Type} (self : File) (lib : Hdf5)
    (max_size_contiguous : Nat) (is_eigen_1d : Bool) (data : Eigen.Matrix α)
    (info : Container) (datasetPath : String) (extendable : Option Bool) (file : H5F)
    (e : H5D) (hmode : self.accessMode = .READWRITE) (hinit : self.hasInitialized = true)
    (hopen : lib.H5Fopen = some file) (hclose : lib.H5Fclose = true)
    (he : file datasetPath = some e)
    (hwf : e.space.maxDims.length = e.space.dims.length)
    (hfixed : (e.space.dims.any (fun i => decide (hsize_t_to_int i < 0))
      || e.space.maxDims.any (fun i => decide (hsize_t_to_int i < 0))) = false)
    (hsize : e.storageSize ≠ info.getBytesTotal) :
    (self.writeDataset lib max_size_contiguous is_eigen_1d data info datasetPath
        extendable).result
      = .error (.runtime ("Write to file failed [" ++ datasetPath ++ "]: " ++
          "Overwriting non-extendable dataset with different size")) ∧
    H5Call.H5Dwrite ∉ (self.writeDataset lib max_size_contiguous is_eigen_1d data info
        datasetPath extendable).calls ∧
    ∀ c ∈ (self.writeDataset lib max_size_contiguous is_eigen_1d data info datasetPath
        extendable).calls, c.modifiesEntry = false := by
  rw [writeDataset_different_size self lib max_size_contiguous is_eigen_1d data info
    datasetPath extendable file e hmode hinit hopen hclose he hwf hfixed hsize]
  refine ⟨rfl, ?_, ?_⟩
  · simp only []
    decide
  · simp only []
    decide

/-- C20 (amended) at a concrete input: a container of extent `[4, 4]` written onto the
existing contiguous dataset of extent `[3, 3]`. -/
theorem writeDataset_nonextendable_different_size_witness :
    (Examples.openedFile.writeDataset
        (Examples.library (Examples.fileWith "/m"
          (Examples.dataset [3, 3] [3, 3] .H5D_CONTIGUOUS [])))
        1000 false Examples.block32 (Examples.doubles 2 [4, 4]) "/m" none).result
      = .error (.runtime ("Write to file failed [" ++ "/m" ++ "]: " ++
          "Overwriting non-extendable dataset with different size")) ∧
    H5Call.H5Dwrite ∉ (Examples.openedFile.writeDataset
        (Examples.library (Examples.fileWith "/m"
          (Examples.dataset [3, 3] [3, 3] .H5D_CONTIGUOUS [])))
        1000 false Examples.block32 (Examples.doubles 2 [4, 4]) "/m" none).calls :=
  have h := writeDataset_nonextendable_different_size Examples.openedFile
    (Examples.library (Examples.fileWith "/m"
      (Examples.dataset [3, 3] [3, 3] .H5D_CONTIGUOUS [])))
    1000 false Examples.block32 (Examples.doubles 2 [4, 4]) "/m" none
    (Examples.fileWith "/m" (Examples.dataset [3, 3] [3, 3] .H5D_CONTIGUOUS []))
    (Examples.dataset [3, 3] [3, 3] .H5D_CONTIGUOUS []) (by rfl) (by rfl) (by rfl) (by rfl)
    (by rfl) (by rfl) (by rfl) (by decide)
  ⟨h.1, h.2.1⟩

end File

/-! ## Claims on the compression level -/

namespace scan

/-- C21.  `getDatasetProperties_bootstrap` always returns, and the compression level it
sets lies in `0..9`: it is 0 when no override is given and the override `c` itself when
`c` is at most 9 (for a larger override it is 9). -/
theorem getDatasetProperties_bootstrap_compressionLevel (h : Helpers) (file : H5F)
    (dsetName : String) (data : Container) (dsetExists : Option Bool)
    (desiredLayout : Option H5D_layout_t) (desiredChunkDims : Option (List Nat))
    (desiredCompressionLevel : Option Nat) :
    ∃ p level, (getDatasetProperties_bootstrap h file dsetName data dsetExists desiredLayout
        desiredChunkDims desiredCompressionLevel).result = .ok p ∧
      p.compressionLevel = some level ∧ level ≤ 9 ∧
      (desiredCompressionLevel = none → level = 0) ∧
      (∀ c, desiredCompressionLevel = some c → c ≤ 9 → level = c) ∧
      (∀ c, desiredCompressionLevel = some c → 9 < c → level = 9) := by
  obtain ⟨p, hp, -, -, -, -, -, -, -, hlevel⟩ := bootstrap_result h file dsetName data
    dsetExists desiredLayout desiredChunkDims desiredCompressionLevel
  refine ⟨p, _, hp, hlevel, ?_, ?_, ?_, ?_⟩
  · cases desiredCompressionLevel with
    | none => exact Nat.zero_le 9
    | some c => exact Nat.min_le_left 9 c
  · rintro rfl
    rfl
  · rintro c rfl hc
    exact Nat.min_eq_right hc
  · rintro c rfl hc
    exact Nat.min_eq_left (Nat.le_of_lt hc)

/-- C21 at concrete inputs: the override 5 is kept, the override 12 gives 9. -/
theorem getDatasetProperties_bootstrap_compressionLevel_witness :
    (∃ p, (getDatasetProperties_bootstrap Examples.helpers Examples.emptyFile "/new"
        (Examples.doubles 2 [3, 3]) none none none (some 5)).result = .ok p ∧
      p.compressionLevel = some 5) ∧
    (∃ p, (getDatasetProperties_bootstrap Examples.helpers Examples.emptyFile "/new"
        (Examples.doubles 2 [3, 3]) none none none (some 12)).result = .ok p ∧
      p.compressionLevel = some 9) := by
  constructor
  · obtain ⟨p, level, hp, hl, -, -, hc, -⟩ :=
      getDatasetProperties_bootstrap_compressionLevel Examples.helpers Examples.emptyFile
        "/new" (Examples.doubles 2 [3, 3]) none none none (some 5)
    exact ⟨p, hp, by rw [hl, hc 5 rfl (by decide)]⟩
  · obtain ⟨p, level, hp, hl, -, -, -, hc⟩ :=
      getDatasetProperties_bootstrap_compressionLevel Examples.helpers Examples.emptyFile
        "/new" (Examples.doubles 2 [3, 3]) none none none (some 12)
    exact ⟨p, hp, by rw [hl, hc 12 rfl (by decide)]⟩

/-- C22.  For an existing entry, the whole outcome of `getDatasetProperties_write` (the
backend calls, and the properties returned or the exception thrown) is the same for
every two values of `desiredCompressionLevel`, and the compression level of the
properties returned is 0. -/
theorem getDatasetProperties_write_compressionLevel_ignored (h : Helpers) (file : H5F)
    (dsetName : String) (data : Container) (dsetExists : Option Bool)
    (desiredLayout : Option H5D_layout_t) (desiredChunkDims : Option (List Nat)) (e : H5D)
    (he : file dsetName = some e) (hx : dsetExists ≠ some false) :
    (∀ c c' : Option Nat,
      getDatasetProperties_write h file dsetName data dsetExists desiredLayout
          desiredChunkDims c
        = getDatasetProperties_write h file dsetName data dsetExists desiredLayout
          desiredChunkDims c') ∧
    ∀ (c : Option Nat) (p : DatasetProperties),
      (getDatasetProperties_write h file dsetName data dsetExists desiredLayout
        desiredChunkDims c).result = .ok p → p.compressionLevel = some 0 := by
  refine ⟨fun c c' => write_existing_overrides h file dsetName data dsetExists desiredLayout
    desiredLayout desiredChunkDims desiredChunkDims c c' e he hx, ?_⟩
  intro c p hp
  obtain ⟨r, -, q, hq, hres⟩ := write_existing h file dsetName data dsetExists
    desiredLayout desiredChunkDims c e he hx
  rw [hres] at hp
  split_ifs at hp
  cases hs : sizeChecks e.layout e.space.maxDims data.getDimensions
      (max 1 e.space.dims.length) 0 with
  | error err => simp [hs] at hp
  | ok u =>
    simp only [hs, Except.ok.injEq] at hp
    subst hp
    exact hq.2.2.2.2.2.2.2.2.2.2.2.2.2.1

/-- C22 at a concrete input: a chunked entry of extent `[2, 10]` overwritten with extent
`[2, 20]`, with the overrides 7 and none. -/
theorem getDatasetProperties_write_compressionLevel_ignored_witness :
    getDatasetProperties_write Examples.helpers
        (Examples.fileWith "/d"
          (Examples.dataset [2, 10] [H5S_UNLIMITED, H5S_UNLIMITED] .H5D_CHUNKED [2, 10]))
        "/d" (Examples.doubles 2 [2, 20]) none none none (some 7)
      = getDatasetProperties_write Examples.helpers
        (Examples.fileWith "/d"
          (Examples.dataset [2, 10] [H5S_UNLIMITED, H5S_UNLIMITED] .H5D_CHUNKED [2, 10]))
        "/d" (Examples.doubles 2 [2, 20]) none none none none ∧
    ∃ p, (getDatasetProperties_write Examples.helpers
        (Examples.fileWith "/d"
          (Examples.dataset [2, 10] [H5S_UNLIMITED, H5S_UNLIMITED] .H5D_CHUNKED [2, 10]))
        "/d" (Examples.doubles 2 [2, 20]) none none none (some 7)).result = .ok p ∧
      p.compressionLevel = some 0 :=
  have h := getDatasetProperties_write_compressionLevel_ignored Examples.helpers
    (Examples.fileWith "/d"
      (Examples.dataset [2, 10] [H5S_UNLIMITED, H5S_UNLIMITED] .H5D_CHUNKED [2, 10]))
    "/d" (Examples.doubles 2 [2, 20]) none none none
    (Examples.dataset [2, 10] [H5S_UNLIMITED, H5S_UNLIMITED] .H5D_CHUNKED [2, 10])
    (by rfl) (by decide)
  ⟨h.1 (some 7) none, _, by rfl, h.2 (some 7) _ (by rfl)⟩

end scan

/-! ## Lemmas on member functions that assign members -/

theorem Member.exec_bind {α β : Type} (x : Member α) (f : α → Member β) (s : Run) :
    (x >>= f).exec s = match x.exec s with
      | (.ok a, s') => (f a).exec s'
      | (.error e, s') => (.error e, s') := by
  show Id.run ((ExceptT.run (x >>= f)).run s) = _
  simp only [Member.exec, ExceptT.run_bind, StateT.run_bind, Id.run, Id.bind_eq]
  rcases hxs : StateT.run (ExceptT.run x) s with ⟨r, s'⟩
  cases r <;> rfl

theorem Member.exec_tryCatch {α : Type} (body : Member α) (handler : Error → Member α)
    (s : Run) :
    (Member.tryCatch body handler).exec s = match body.exec s with
      | (.ok a, s') => (.ok a, s')
      | (.error .outOfRange, s') => (.error .outOfRange, s')
      | (.error e, s') => (handler e).exec s' := by
  show Id.run ((ExceptT.run (Member.tryCatch body handler)).run s) = _
  simp only [Member.exec, Member.tryCatch, Id.run]
  show (ExceptT.run (tryCatchThe Error body _)).run s = _
  simp only [tryCatchThe, MonadExceptOf.tryCatch, ExceptT.tryCatch, ExceptT.run_mk,
    StateT.run_bind, Id.bind_eq]
  rcases hxs : StateT.run (ExceptT.run body) s with ⟨r, s'⟩
  rw [show StateT.run body s = (r, s') from hxs]
  cases r with
  | ok a => rfl
  | error e => cases e <;> rfl

namespace Member.KeepsLevel

theorem of_pure {α : Type} (a : α) : Member.KeepsLevel (pure a : Member α) := ⟨fun _ => rfl⟩

theorem of_throw {α : Type} (e : Error) : Member.KeepsLevel (throw e : Member α) :=
  ⟨fun _ => rfl⟩

theorem of_get : Member.KeepsLevel (get : Member Run) := ⟨fun _ => rfl⟩

theorem of_run {α : Type} (x : Outcome α) : Member.KeepsLevel x.run := by
  refine ⟨fun s => ?_⟩
  rcases x with ⟨calls, r⟩
  cases r <;> rfl

theorem of_modify (f : Run → Run)
    (hf : ∀ s, (f s).self.compressionLevel = s.self.compressionLevel) :
    Member.KeepsLevel (modify f : Member PUnit) := ⟨fun s => hf s⟩

theorem of_bind {α β : Type} {x : Member α} {f : α → Member β} (hx : Member.KeepsLevel x)
    (hf : ∀ a, Member.KeepsLevel (f a)) : Member.KeepsLevel (x >>= f) := by
  refine ⟨fun s => ?_⟩
  rw [Member.exec_bind]
  have h1 := hx.level_eq s
  rcases hxs : x.exec s with ⟨r, s'⟩
  rw [hxs] at h1
  cases r with
  | ok a => exact ((hf a).level_eq s').trans h1
  | error e => exact h1

theorem of_tryCatch {α : Type} {body : Member α} {handler : Error → Member α}
    (hb : Member.KeepsLevel body) (hh : ∀ ex, Member.KeepsLevel (handler ex)) :
    Member.KeepsLevel (Member.tryCatch body handler) := by
  refine ⟨fun s => ?_⟩
  have h1 := hb.level_eq s
  rw [Member.exec_tryCatch]
  rcases hxs : body.exec s with ⟨r, s'⟩
  rw [hxs] at h1
  cases r with
  | ok a => exact h1
  | error e =>
    cases e with
    | outOfRange => exact h1
    | _ => exact ((hh _).level_eq s').trans h1

end Member.KeepsLevel

namespace File

/-- `File::readDataset` does not touch the compression level. -/
theorem readDatasetAs_keepsLevel (lib : Hdf5) (H5LTread_dataset : Int) (dest : Destination)
    (datasetPath : String) :
    Member.KeepsLevel (readDatasetAs lib H5LTread_dataset dest datasetPath) := by
  unfold readDatasetAs
  refine Member.KeepsLevel.of_bind Member.KeepsLevel.of_get fun s0 => ?_
  refine Member.KeepsLevel.of_bind (Member.KeepsLevel.of_run _) fun file => ?_
  refine Member.KeepsLevel.of_bind ?_ fun _ => Member.KeepsLevel.of_run _
  refine Member.KeepsLevel.of_tryCatch ?_ ?_
  · refine Member.KeepsLevel.of_bind (Member.KeepsLevel.of_run _) fun dataset => ?_
    refine Member.KeepsLevel.of_bind (Member.KeepsLevel.of_run _) fun memspace => ?_
    refine Member.KeepsLevel.of_bind (Member.KeepsLevel.of_run _) fun datatype => ?_
    refine Member.KeepsLevel.of_bind (Member.KeepsLevel.of_run _) fun ndims => ?_
    refine Member.KeepsLevel.of_bind (Member.KeepsLevel.of_run _) fun dims => ?_
    cases dest <;> dsimp only <;>
    repeat' first
      | with_reducible apply Member.KeepsLevel.of_bind
      | with_reducible apply Member.KeepsLevel.of_pure
      | with_reducible apply Member.KeepsLevel.of_throw
      | with_reducible apply Member.KeepsLevel.of_get
      | with_reducible apply Member.KeepsLevel.of_run
      | with_reducible exact Member.KeepsLevel.of_modify _ (fun _ => rfl)
      | split
      | intro _
  · intro ex
    exact Member.KeepsLevel.of_bind (Member.KeepsLevel.of_run _)
      fun _ => Member.KeepsLevel.of_throw _

/-- The copy assignment does not touch the compression level. -/
theorem operator_assign_keepsLevel (other : File) (sameObject : Bool)
    (failure : Option Error) :
    Member.KeepsLevel (operator_assign other sameObject failure) := by
  refine ⟨fun s => ?_⟩
  obtain ⟨⟨_, _, _, _, hi, _⟩, _⟩ := s
  obtain ⟨_, _, _, _, ho, _⟩ := other
  cases sameObject <;> cases failure <;> cases hi <;> cases ho <;> rfl

/-- The constructor that takes a path does not touch the compression level. -/
theorem File_path_keepsLevel (accessMode_ : AccessMode) (createMode_ : CreateMode)
    (failure : Option Error) :
    Member.KeepsLevel (File_path accessMode_ createMode_ failure) := by
  refine ⟨fun s => ?_⟩
  cases accessMode_ <;> cases createMode_ <;> cases failure <;> rfl

/-- What an operation does to the compression level: `setCompressionLevel` stores its
argument when compression is available and the argument is below 10; everything else
leaves the level as it was. -/
theorem Operation.apply_compressionLevel (self : File) (op : Operation) :
    (Operation.apply self op).compressionLevel
      = match op with
        | .setCompressionLevel H5Zfilter_avail level =>
          if checkIfCompressionIsAvailable H5Zfilter_avail = true ∧ level < 10 then level
          else self.compressionLevel
        | _ => self.compressionLevel := by
  cases op with
  | setCompressionLevel H5Zfilter_avail level =>
    by_cases ha : checkIfCompressionIsAvailable H5Zfilter_avail = true <;>
      by_cases hl : level < 10 <;>
      simp [Operation.apply, File.setCompressionLevel, ha, hl]
  | setCreateMode _ => rfl
  | setAccessMode _ => rfl
  | enableDefaultExtendable => rfl
  | disableDefaultExtendable => rfl
  | operator_assign other sameObject failure =>
    exact (operator_assign_keepsLevel other sameObject failure).level_eq
      { self := self, calls := [] }
  | readDataset lib H5LTread_dataset dest datasetPath =>
    exact (readDatasetAs_keepsLevel lib H5LTread_dataset dest datasetPath).level_eq
      { self := self, calls := [] }

/-- Operations keep the compression level at most 9. -/
theorem Operation.foldl_compressionLevel_le (ops : List Operation) :
    ∀ start : File, start.compressionLevel ≤ 9 →
      (ops.foldl Operation.apply start).compressionLevel ≤ 9 := by
  induction ops with
  | nil => exact fun _ h => h
  | cons op ops ih =>
    intro start hstart
    refine ih _ ?_
    rw [Operation.apply_compressionLevel]
    cases op <;> simp only [] <;> try exact hstart
    split_ifs with hc
    · omega
    · exact hstart

end File

/-! ## Claims on the compression level of a `File` -/

namespace File

/-- C23.  Every constructor leaves the compression level at its initial value 0;
`setCompressionLevel(n)` stores `n` exactly when `checkIfCompressionIsAvailable` answers
true and `n < 10`, and leaves the level as it was otherwise; and after every sequence of
operations on an object whose level started at 0 (the setters, copy assignments and reads
included) the level is at most 9. -/
theorem setCompressionLevel_range (start : File) (hstart : start.compressionLevel = 0)
    (ops : List Operation) :
    (ops.foldl Operation.apply start).compressionLevel ≤ 9 ∧
    (∀ (self : File) (H5Zfilter_avail : Int) (n : Nat),
      (self.setCompressionLevel H5Zfilter_avail n).compressionLevel
        = if checkIfCompressionIsAvailable H5Zfilter_avail = true ∧ n < 10 then n
          else self.compressionLevel) ∧
    (File_default.callOn {}).2.self.compressionLevel = 0 ∧
    (∀ accessMode_ createMode_ failure,
      ((File_path accessMode_ createMode_ failure).callOn {}).2.self.compressionLevel = 0) ∧
    (∀ other failure, ((File_copy other failure).callOn {}).2.self.compressionLevel = 0) := by
  refine ⟨Operation.foldl_compressionLevel_le ops start (by omega), ?_, rfl, ?_, ?_⟩
  · intro self H5Zfilter_avail n
    exact Operation.apply_compressionLevel self (.setCompressionLevel H5Zfilter_avail n)
  · intro accessMode_ createMode_ failure
    exact (File_path_keepsLevel accessMode_ createMode_ failure).level_eq
      { self := {}, calls := [] }
  · intro other failure
    exact (operator_assign_keepsLevel other false failure).level_eq
      { self := {}, calls := [] }

/-- C23 at a concrete input: on a fresh object, level 5 is stored, level 12 is refused,
and level 3 is refused when compression is not available. -/
theorem setCompressionLevel_range_witness :
    ([Operation.setCompressionLevel 1 5, Operation.setCompressionLevel 1 12,
        Operation.setCompressionLevel 0 3].foldl Operation.apply {}).compressionLevel = 5 ∧
    ([Operation.setCompressionLevel 1 5, Operation.setCompressionLevel 1 12,
        Operation.setCompressionLevel 0 3].foldl Operation.apply {}).compressionLevel ≤ 9 :=
  ⟨by rfl, (setCompressionLevel_range {} rfl
    [Operation.setCompressionLevel 1 5, Operation.setCompressionLevel 1 12,
      Operation.setCompressionLevel 0 3]).1⟩

end File

/-! ## Claims on classification, read-only files, extents, attributes and the counter -/

namespace File

/-- C24, failing input.  A dataset of extent `[5, 4294967295]` whose maximum extent is the
same has no dimension equal to `H5S_UNLIMITED`, yet `determineIfExtendable` classifies it
as unlimited: `4294967295`, converted to `int`, is `-1`, as is `H5S_UNLIMITED`.  A
dataset with small finite dimensions is classified as not unlimited. -/
theorem determineIfExtendable_int_conversion :
    (∀ d ∈ (Examples.dataset [5, 4294967295] [5, 4294967295] .H5D_CONTIGUOUS []).space.dims
        ++ (Examples.dataset [5, 4294967295] [5, 4294967295] .H5D_CONTIGUOUS []).space.maxDims,
      d ≠ H5S_UNLIMITED) ∧
    hsize_t_to_int 4294967295 = -1 ∧ hsize_t_to_int H5S_UNLIMITED = -1 ∧
    Examples.openedFile.determineIfExtendable
        (Examples.library (Examples.fileWith "/d"
          (Examples.dataset [5, 4294967295] [5, 4294967295] .H5D_CONTIGUOUS [])))
        1000 (Examples.doubles 2 [5, 4294967295]) "/d" none (some true)
      = ⟨[.H5Tclose, .H5Fopen, .openLink, .H5Dget_space, .H5Sget_simple_extent_ndims,
          .H5Sget_simple_extent_dims, .H5Sclose, .H5Dclose, .H5Fclose], .ok true⟩ ∧
    (Examples.openedFile.determineIfExtendable
        (Examples.library (Examples.fileWith "/d"
          (Examples.dataset [5, 7] [5, 7] .H5D_CONTIGUOUS [])))
        1000 (Examples.doubles 2 [5, 7]) "/d" none (some true)).result = .ok false := by
  refine ⟨by decide, by decide, by decide, by rfl, by rfl⟩

/-- C25.  On a `File` whose access mode is `READONLY`, each of the three overloads of
`writeDataset` that take a path throws "Attempted to write to read-only file" without a
single backend call: the file handle is not opened. -/
theorem writeDataset_readonly {α : Type} (self : File) (lib : Hdf5)
    (max_size_contiguous : Nat) (is_eigen_1d : Bool) (data : Eigen.Matrix α)
    (buffer : List α) (info : Container) (dims : List Nat) (extents : Nat × Nat)
    (datasetPath : String) (extendable : Option Bool)
    (hmode : self.accessMode = .READONLY) :
    self.writeDataset lib max_size_contiguous is_eigen_1d data info datasetPath extendable
      = ⟨[], .error (.runtime "Attempted to write to read-only file")⟩ ∧
    self.writeDataset_dims lib max_size_contiguous is_eigen_1d data info dims datasetPath
        extendable
      = ⟨[], .error (.runtime "Attempted to write to read-only file")⟩ ∧
    self.writeDataset_pointer lib max_size_contiguous is_eigen_1d buffer info extents
        datasetPath extendable
      = ⟨[], .error (.runtime "Attempted to write to read-only file")⟩ := by
  refine ⟨?_, ?_, ?_⟩
  · simp only [writeDataset, hmode, if_true]
    rfl
  · simp only [writeDataset_dims, hmode, if_true]
    rfl
  · simp only [writeDataset_pointer, writeDataset, hmode, if_true]
    rfl

/-- C25 at a concrete input: a read-only `File` on a file in which the dataset exists. -/
theorem writeDataset_readonly_witness :
    ({ Examples.openedFile with accessMode := .READONLY } : File).writeDataset
        (Examples.library (Examples.fileWith "/m"
          (Examples.dataset [3, 2] [3, 2] .H5D_CONTIGUOUS [])))
        1000 false Examples.block32 (Examples.doubles 2 [3, 2]) "/m" none
      = ⟨[], .error (.runtime "Attempted to write to read-only file")⟩ ∧
    ({ Examples.openedFile with accessMode := .READONLY } : File).writeDataset_dims
        (Examples.library (Examples.fileWith "/m"
          (Examples.dataset [3, 2] [3, 2] .H5D_CONTIGUOUS [])))
        1000 false Examples.block32 (Examples.doubles 2 [3, 2]) [3, 2] "/m" none
      = ⟨[], .error (.runtime "Attempted to write to read-only file")⟩ ∧
    ({ Examples.openedFile with accessMode := .READONLY } : File).writeDataset_pointer
        (Examples.library (Examples.fileWith "/m"
          (Examples.dataset [3, 2] [3, 2] .H5D_CONTIGUOUS [])))
        1000 false [1, 2, 3, 4, 5, 6] (Examples.doubles 2 [3, 2]) (3, 2) "/m" none
      = ⟨[], .error (.runtime "Attempted to write to read-only file")⟩ :=
  writeDataset_readonly { Examples.openedFile with accessMode := .READONLY }
    (Examples.library (Examples.fileWith "/m"
      (Examples.dataset [3, 2] [3, 2] .H5D_CONTIGUOUS [])))
    1000 false Examples.block32 [1, 2, 3, 4, 5, 6] (Examples.doubles 2 [3, 2]) [3, 2] (3, 2)
    "/m" none rfl

/-- C26, failing input.  `File::readDataset` of a dataset of rank 1 into a matrix reads
`dims[1]` past the end of the extent, and of a scalar dataset (rank 0) into a
`std::vector` reads `dims[0]` past the end of the empty extent: after
`H5Sget_simple_extent_dims` no check is made and no exception is thrown before the
read. -/
theorem readDataset_extent_out_of_bounds :
    (Examples.dataset [3] [3] .H5D_CONTIGUOUS []).space.dims.length = 1 ∧
    Examples.openedFile.readDataset
        (Examples.library (Examples.fileWith "/v"
          (Examples.dataset [3] [3] .H5D_CONTIGUOUS [])))
        (some [1, 2, 3]) false "/v"
      = ⟨[.H5Fopen, .openLink, .H5Dget_space, .H5Dget_type, .H5Sget_simple_extent_ndims,
          .H5Sget_simple_extent_dims], .error .outOfRange⟩ ∧
    (readDatasetAs (Examples.library (Examples.fileWith "/v"
          (Examples.dataset [3] [3] .H5D_CONTIGUOUS []))) 0 (.eigenCore true) "/v").callOn
        Examples.openedFile
      = (.error .outOfRange,
          { self := Examples.openedFile,
            calls := [.H5Fopen, .openLink, .H5Dget_space, .H5Dget_type,
              .H5Sget_simple_extent_ndims, .H5Sget_simple_extent_dims] }) ∧
    Examples.scalarDataset.space.dims.length = 0 ∧
    (readDatasetAs (Examples.library (Examples.fileWith "/s" Examples.scalarDataset)) 0
        .stdVector "/s").callOn Examples.openedFile
      = (.error .outOfRange,
          { self := Examples.openedFile,
            calls := [.H5Fopen, .openLink, .H5Dget_space, .H5Dget_type,
              .H5Sget_simple_extent_ndims, .H5Sget_simple_extent_dims] }) := by
  refine ⟨rfl, by rfl, by rfl, rfl, by rfl⟩

/-- C27.  On an initialized `File` whose file opens: when the link exists and the
attribute exists on it already, `writeAttribute` returns normally after the file handle
was opened and the two existence checks were made, and neither `H5Acreate` nor `H5Awrite`
is issued.  When the link does not exist, it closes the file handle (the close
succeeding) and then throws the logic error. -/
theorem writeAttribute_existing_or_no_link (self : File) (lib : Hdf5)
    (checkIfAttributeExists : Bool) (H5Awrite : Int) (aprops : AttributeProperties)
    (file : H5F) (hinit : self.hasInitialized = true) (hopen : lib.H5Fopen = some file) :
    (∀ e, file aprops.linkPath = some e → checkIfAttributeExists = true →
      self.writeAttribute lib checkIfAttributeExists H5Awrite aprops
        = ⟨[.H5Fopen, .checkIfLinkExists, .checkIfAttributeExists], .ok ()⟩) ∧
    (file aprops.linkPath = none → lib.H5Fclose = true →
      self.writeAttribute lib checkIfAttributeExists H5Awrite aprops
        = ⟨[.H5Fopen, .checkIfLinkExists, .H5Fclose],
          .error (.logic_error ("Link " ++ aprops.linkPath ++
            " does not exist, yet attribute is being written."))⟩) := by
  have hopen' : self.openFileHandle lib = Outcome.call .H5Fopen file := by
    simp [openFileHandle, hinit, hopen]
  constructor
  · intro e he hattr
    simp [writeAttribute, hopen', Hdf5.checkIfLinkExistsRecursively, he, hattr,
      Outcome.bind_eq, Outcome.pure_eq, Outcome.call, Outcome.andThen, Outcome.ret]
  · intro hmissing hclose
    have hclose' : closeFileHandle lib = Outcome.call .H5Fclose () := by
      simp [closeFileHandle, hclose]
    simp [writeAttribute, hopen', hclose', Hdf5.checkIfLinkExistsRecursively, hmissing,
      Outcome.bind_eq, Outcome.pure_eq, Outcome.call, Outcome.andThen, Outcome.ret,
      Outcome.raise]

/-- C27 at concrete inputs: the attribute `a` on the existing link `/m`, and on the link
`/n` that does not exist. -/
theorem writeAttribute_existing_or_no_link_witness :
    Examples.openedFile.writeAttribute
        (Examples.library (Examples.fileWith "/m" Examples.datasetWithAttribute))
        true 0 (Examples.doubleAttribute "a" "/m")
      = ⟨[.H5Fopen, .checkIfLinkExists, .checkIfAttributeExists], .ok ()⟩ ∧
    Examples.openedFile.writeAttribute
        (Examples.library (Examples.fileWith "/m" Examples.datasetWithAttribute))
        false 0 (Examples.doubleAttribute "a" "/n")
      = ⟨[.H5Fopen, .checkIfLinkExists, .H5Fclose],
          .error (.logic_error ("Link " ++ "/n" ++
            " does not exist, yet attribute is being written."))⟩ :=
  ⟨(writeAttribute_existing_or_no_link Examples.openedFile
      (Examples.library (Examples.fileWith "/m" Examples.datasetWithAttribute))
      true 0 (Examples.doubleAttribute "a" "/m")
      (Examples.fileWith "/m" Examples.datasetWithAttribute) rfl rfl).1
      Examples.datasetWithAttribute (by rfl) rfl,
    (writeAttribute_existing_or_no_link Examples.openedFile
      (Examples.library (Examples.fileWith "/m" Examples.datasetWithAttribute))
      false 0 (Examples.doubleAttribute "a" "/n")
      (Examples.fileWith "/m" Examples.datasetWithAttribute) rfl rfl).2 (by rfl) rfl⟩

/-- C29, failing input.  A `File` that was default-constructed, or constructed with
`READONLY` and `TRUNCATE`, never initializes and never increments the counter, yet its
destructor decrements the counter: one decrement more than increments with no
initialized object alive.  The copy assignment, by contrast, decrements only when the
object has initialized. -/
theorem destructor_decrements_uninitialized :
    (File_default.callOn {}) = (.ok (), { self := {}, calls := [] }) ∧
    (File_default.callOn {}).2.self.hasInitialized = false ∧
    (destructor.callOn (File_default.callOn {}).2.self).2.calls = [.decrementCounter] ∧
    ((File_path .READONLY .TRUNCATE none).callOn {})
      = (.ok (),
          { self := { accessMode := .READONLY, createMode := .TRUNCATE }, calls := [] }) ∧
    (destructor.callOn ((File_path .READONLY .TRUNCATE none).callOn {}).2.self).2.calls
      = [.decrementCounter] ∧
    ((File_default >>= fun _ => destructor).callOn {}).2.calls.count .incrementCounter = 0 ∧
    ((File_default >>= fun _ => destructor).callOn {}).2.calls.count .decrementCounter = 1 ∧
    ((operator_assign Examples.openedFile false none).callOn {}).2.calls
      = [.incrementCounter] := by
  refine ⟨by rfl, by rfl, by rfl, by rfl, by rfl, by rfl, by rfl, by rfl⟩

end File

namespace scan

/-- C28, failing input.  On a link `/m` that carries the attribute `a`,
`getAttributeProperties_write` takes the overwrite branch and returns properties whose
`attrName` is set and whose `linkName` is not set; for the attribute `b`, which does not
exist, it takes the bootstrap branch and both are set. -/
theorem getAttributeProperties_write_linkName_unset :
    (∃ p, (getAttributeProperties_write Examples.helpers
        (Examples.fileWith "/m" Examples.datasetWithAttribute) (Examples.doubles 1 [3])
        "a" "/m" none none).result = .ok p ∧
      p.attrExists = some true ∧ p.attrName = some "a" ∧ p.linkName = none) ∧
    (∃ p, (getAttributeProperties_write Examples.helpers
        (Examples.fileWith "/m" Examples.datasetWithAttribute) (Examples.doubles 1 [3])
        "b" "/m" none none).result = .ok p ∧
      p.attrExists = some false ∧ p.attrName = some "b" ∧ p.linkName = some "/m") := by
  refine ⟨⟨_, by rfl, rfl, rfl, rfl⟩, ⟨_, by rfl, rfl, rfl, rfl⟩⟩

end scan

/-! ## Lemmas and claims on `File::getNewFileName` -/

namespace File

theorem replace_filename_of_parent (cur fileName : fs.path) (name : String)
    (hparent : cur.parent_path = fileName.parent_path) :
    cur.replace_filename name = fileName.replace_filename name := by
  simp [fs.path.replace_filename, hparent]

/-- One round of the loop of `getNewFileName`. -/
theorem getNewFileName_loop_step (fs_exists : fs.path → Bool) (fileName cur : fs.path)
    (fuel i : Nat) (hparent : cur.parent_path = fileName.parent_path) :
    getNewFileName_loop fs_exists fileName (fuel + 1) i cur
      = if fs_exists cur then
          if i = INT_MAX then some (.error .signedOverflow)
          else getNewFileName_loop fs_exists fileName fuel (i + 1)
            (getNewFileName_candidate fileName i)
        else some (.ok cur) := by
  simp only [getNewFileName_loop, getNewFileName_candidate,
    replace_filename_of_parent cur fileName _ hparent]

/-- The loop of `getNewFileName` returns the first sibling path that does not exist, when
the counter stays below `INT_MAX` and the fuel covers the tests. -/
theorem getNewFileName_loop_found (fs_exists : fs.path → Bool) (fileName : fs.path) :
    ∀ (n fuel i : Nat) (cur : fs.path), cur.parent_path = fileName.parent_path →
      fs_exists cur = true →
      (∀ j, i ≤ j → j < i + n → fs_exists (getNewFileName_candidate fileName j) = true) →
      fs_exists (getNewFileName_candidate fileName (i + n)) = false →
      i + n < INT_MAX → n + 2 ≤ fuel →
      getNewFileName_loop fs_exists fileName fuel i cur
        = some (.ok (getNewFileName_candidate fileName (i + n))) := by
  intro n
  induction n with
  | zero =>
    intro fuel i cur hparent hcur _ hfree hlt hfuel
    obtain ⟨f, rfl⟩ : ∃ f, fuel = f + 2 := ⟨fuel - 2, by omega⟩
    have hi : i ≠ INT_MAX := by omega
    simp only [Nat.add_zero] at hfree ⊢
    rw [getNewFileName_loop_step _ _ _ _ _ hparent, if_pos hcur, if_neg hi,
      getNewFileName_loop_step fs_exists fileName (getNewFileName_candidate fileName i) f
        (i + 1) rfl,
      if_neg (by rw [hfree]; decide)]
  | succ n ih =>
    intro fuel i cur hparent hcur hall hfree hlt hfuel
    obtain ⟨f, rfl⟩ : ∃ f, fuel = f + 1 := ⟨fuel - 1, by omega⟩
    have hi : i ≠ INT_MAX := by omega
    rw [getNewFileName_loop_step _ _ _ _ _ hparent, if_pos hcur, if_neg hi]
    have hstep : i + (n + 1) = i + 1 + n := by omega
    rw [hstep] at hfree hlt ⊢
    exact ih f (i + 1) (getNewFileName_candidate fileName i) rfl
      (hall i (le_refl _) (by omega)) (fun j h1 h2 => hall j (by omega) (by omega)) hfree
      hlt (by omega)

/-- A path that the loop of `getNewFileName` returns does not exist. -/
theorem getNewFileName_loop_fresh (fs_exists : fs.path → Bool) (fileName : fs.path) :
    ∀ (fuel i : Nat) (cur p : fs.path),
      getNewFileName_loop fs_exists fileName fuel i cur = some (.ok p) →
      fs_exists p = false := by
  intro fuel
  induction fuel with
  | zero =>
    intro i cur p h
    simp [getNewFileName_loop] at h
  | succ f ih =>
    intro i cur p h
    simp only [getNewFileName_loop] at h
    split at h
    · split at h
      · cases h
      · exact ih _ _ _ h
    · rename_i hcur
      cases h
      simpa using hcur

/-- When every sibling path up to the counter `INT_MAX` exists, the loop of
`getNewFileName` never returns a path: it runs out of fuel or overflows its counter. -/
theorem getNewFileName_loop_overflow (fs_exists : fs.path → Bool) (fileName : fs.path)
    (hall : ∀ j, j ≤ INT_MAX → fs_exists (getNewFileName_candidate fileName j) = true) :
    ∀ (fuel i : Nat) (cur : fs.path), cur.parent_path = fileName.parent_path →
      fs_exists cur = true → i ≤ INT_MAX →
      (getNewFileName_loop fs_exists fileName fuel i cur = none ∧ fuel + i ≤ INT_MAX) ∨
      getNewFileName_loop fs_exists fileName fuel i cur = some (.error .signedOverflow) := by
  intro fuel
  induction fuel with
  | zero =>
    intro i cur _ _ hi
    exact Or.inl ⟨rfl, by omega⟩
  | succ f ih =>
    intro i cur hparent hcur hi
    by_cases hmax : i = INT_MAX
    · right
      rw [getNewFileName_loop_step _ _ _ _ _ hparent, if_pos hcur, if_pos hmax]
    · rw [getNewFileName_loop_step _ _ _ _ _ hparent, if_pos hcur, if_neg hmax]
      rcases ih (i + 1) (getNewFileName_candidate fileName i) rfl (hall i hi) (by omega)
        with ⟨h1, h2⟩ | h1
      · exact Or.inl ⟨h1, by omega⟩
      · exact Or.inr h1

/-- The length of the filename of a sibling path of `/data/out.h5`. -/
theorem candidate_outputPath_length (j : Nat) :
    (getNewFileName_candidate Examples.outputPath j).filename.length
      = 7 + (Nat.repr j).length := by
  have hstem : Examples.outputPath.stem = "out" := by decide
  have hext : Examples.outputPath.extension = ".h5" := by decide
  simp only [getNewFileName_candidate, fs.path.replace_filename, hstem, hext,
    String.length_append]
  have h1 : "out".length = 3 := by decide
  have h2 : "-".length = 1 := by decide
  have h3 : ".h5".length = 3 := by decide
  have h4 : (toString j : String) = Nat.repr j := rfl
  rw [h1, h2, h3, h4]
  omega

/-- Every sibling path of `/data/out.h5` with a counter of at most 10 digits exists in
the file system `shortNamesExist`. -/
theorem shortNamesExist_candidate (j : Nat) (hj : j < 10 ^ 10) :
    Examples.shortNamesExist (getNewFileName_candidate Examples.outputPath j) = true := by
  have h := Nat.repr_length j 10 (by decide) hj
  simp only [Examples.shortNamesExist, candidate_outputPath_length, decide_eq_true_eq]
  omega

/-- C30 as stated fails when the first free sibling path lies beyond the range of the
`int` counter.  In the file system `shortNamesExist`, `/data/out.h5` and every
`out-<k>.h5` with `k < 10^10` exist and `out-10000000000.h5` does not, so a smallest free
`k` exists; yet `getNewFileName` returns no path, whatever the fuel: its counter reaches
`INT_MAX` first, where `i++` overflows. -/
theorem getNewFileName_overflow_counterexample :
    Examples.shortNamesExist Examples.outputPath = true ∧
    (∀ j, 1 ≤ j → j < 10 ^ 10 →
      Examples.shortNamesExist (getNewFileName_candidate Examples.outputPath j) = true) ∧
    Examples.shortNamesExist (getNewFileName_candidate Examples.outputPath (10 ^ 10))
      = false ∧
    (∀ fuel p, getNewFileName Examples.shortNamesExist Examples.outputPath fuel
      ≠ some (.ok p)) ∧
    getNewFileName Examples.shortNamesExist Examples.outputPath (2 ^ 31)
      = some (.error .signedOverflow) := by
  have hall : ∀ j, j ≤ INT_MAX →
      Examples.shortNamesExist (getNewFileName_candidate Examples.outputPath j) = true := by
    intro j hj
    refine shortNamesExist_candidate j (lt_of_le_of_lt hj ?_)
    decide
  have hloop := getNewFileName_loop_overflow Examples.shortNamesExist Examples.outputPath
    hall
  refine ⟨by decide, fun j _ hj => shortNamesExist_candidate j hj, ?_, ?_, ?_⟩
  · simp only [Examples.shortNamesExist, candidate_outputPath_length,
      decide_eq_false_iff_not]
    have : (Nat.repr (10 ^ 10)).length = 11 := by decide
    omega
  · intro fuel p hp
    rcases hloop fuel 1 Examples.outputPath rfl (by decide) (by decide) with ⟨h, -⟩ | h
    · rw [getNewFileName, h] at hp
      cases hp
    · rw [getNewFileName, h] at hp
      cases hp
  · rcases hloop (2 ^ 31) 1 Examples.outputPath rfl (by decide) (by decide)
      with ⟨-, h⟩ | h
    · exact absurd h (by decide)
    · exact h

/-- C30, amended.  `getNewFileName` returns the given path when it does not exist.  When
it exists and `k >= 1` is the smallest counter whose sibling path `<stem>-<k><extension>`
does not exist, with `k` below `INT_MAX` (the counter is an `int`), the loop ends after
`k + 1` tests and returns that sibling path.  A path that is returned never exists. -/
theorem getNewFileName_first_free (fs_exists : fs.path → Bool) (fileName : fs.path) :
    (fs_exists fileName = false → ∀ fuel, 1 ≤ fuel →
      getNewFileName fs_exists fileName fuel = some (.ok fileName)) ∧
    (∀ k, fs_exists fileName = true → 1 ≤ k → k < INT_MAX →
      (∀ j, 1 ≤ j → j < k → fs_exists (getNewFileName_candidate fileName j) = true) →
      fs_exists (getNewFileName_candidate fileName k) = false →
      ∀ fuel, k + 1 ≤ fuel →
        getNewFileName fs_exists fileName fuel
          = some (.ok (getNewFileName_candidate fileName k))) ∧
    (∀ fuel p, getNewFileName fs_exists fileName fuel = some (.ok p) →
      fs_exists p = false) := by
  refine ⟨?_, ?_, fun fuel p hp => getNewFileName_loop_fresh fs_exists fileName fuel 1
    fileName p hp⟩
  · intro hnew fuel hfuel
    obtain ⟨f, rfl⟩ : ∃ f, fuel = f + 1 := ⟨fuel - 1, by omega⟩
    rw [getNewFileName, getNewFileName_loop_step _ _ _ _ _ rfl,
      if_neg (by rw [hnew]; decide)]
  · intro k hold hk hmax hall hfree fuel hfuel
    have hk1 : 1 + (k - 1) = k := by omega
    have h := getNewFileName_loop_found fs_exists fileName (k - 1) fuel 1 fileName rfl hold
      (fun j h1 h2 => hall j h1 (by omega)) (by rw [hk1]; exact hfree)
      (by rw [hk1]; exact hmax) (by omega)
    rw [hk1] at h
    exact h

/-- C30 (amended) at a concrete input: with `out.h5` and `out-1.h5` in place,
`getNewFileName` of `/data/out.h5` is `/data/out-2.h5`. -/
theorem getNewFileName_first_free_witness :
    getNewFileName Examples.twoFilesExist Examples.outputPath 3
      = some (.ok { parent_path := "/data", filename := "out-2.h5" }) ∧
    Examples.twoFilesExist { parent_path := "/data", filename := "out-2.h5" } = false :=
  have h := getNewFileName_first_free Examples.twoFilesExist Examples.outputPath
  have h2 := h.2.1 2 (by decide) (by decide) (by decide)
    (by
      intro j h1 h2
      have hj : j = 1 := by omega
      subst hj
      decide)
    (by decide) 3 (by decide)
  ⟨h2, h.2.2 3 _ h2⟩

end File

end h5pp
